import Mathlib

/-! # anfweb: globe textures, orientation controller and scroll effects

A shallow embedding of `src/js/main.js` (and of the legacy page script
`src/main.js`, whose texture functions are textually identical).

Number model. Every number is a rational (`ℚ`). Where a result is discrete (a byte
stored into an `ImageData` buffer, a string of two decimals made by `toFixed(2)`) the
computation that feeds it is carried out in double precision, operation by operation
(`fl`), because the last binary place decides the byte or the digit. Elsewhere (angles,
pixel offsets written out in full) the decimal literals of the source denote exactly
those decimal fractions and the arithmetic is exact, which differs from the doubles of
the source in the last place only. `Math.PI` is the rational value of the double
constant. Bytes are natural numbers; a store into the buffer goes through the
`Uint8ClampedArray` conversion (`toUint8Clamped`).
-/

namespace Anfweb

/-! ## Numbers -/

/-- The value of `Math.PI`: the double nearest to π, `884279719003555 / 2^48`. -/
def MathPI : ℚ := 884279719003555 / 281474976710656

/-- Truncation toward zero, the integer quotient used by the `%` operator. -/
def jsTrunc (q : ℚ) : ℤ := if 0 ≤ q then ⌊q⌋ else ⌈q⌉

/-- The `%` operator on numbers: the remainder takes the sign of the dividend
(`x - y * trunc (x / y)`). -/
def jsMod (x y : ℚ) : ℚ := x - y * jsTrunc (x / y)

/-- A store into a `Uint8ClampedArray` element: values at or below 0 give 0, values
at or above 255 give 255, anything between is rounded to the nearest integer,
a tie going to the even neighbour. -/
def toUint8Clamped (x : ℚ) : ℕ :=
  if x ≤ 0 then 0
  else if 255 ≤ x then 255
  else
    let f : ℕ := ⌊x⌋.toNat
    let frac : ℚ := x - ⌊x⌋
    if frac < 1 / 2 then f
    else if 1 / 2 < frac then f + 1
    else if f % 2 = 0 then f else f + 1

/-! ## Double precision

Where a number ends in a byte of a pixel buffer or in a string of two decimals, the
last binary place of the double decides the result, so those computations are carried
out as the source does them: every literal and every arithmetic result is rounded to
the nearest double (53 significant bits, ties to the even significand). The exponent
range is not modelled: no value on these paths comes near overflow or the subnormals. -/

/-- Rounding to the nearest integer, a tie going to the even one. -/
def roundHalfEven (q : ℚ) : ℤ :=
  if q - ⌊q⌋ < 1 / 2 then ⌊q⌋
  else if 1 / 2 < q - ⌊q⌋ then ⌊q⌋ + 1
  else if ⌊q⌋ % 2 = 0 then ⌊q⌋ else ⌊q⌋ + 1

/-- The double nearest to a positive number: with `2^e ≤ x < 2^(e+1)` the spacing of
doubles around `x` is `2^(e-52)`. -/
def flPos (x : ℚ) : ℚ :=
  (roundHalfEven (x / 2 ^ (Int.log 2 x - 52)) : ℚ) * 2 ^ (Int.log 2 x - 52)

/-- The double nearest to a number: the result of a literal or of one arithmetic
operation. -/
def fl (x : ℚ) : ℚ :=
  if x = 0 then 0 else if 0 < x then flPos x else -flPos (-x)

/-! ## Texture derivation (`createBumpFromDiffuse`, `createSpecularFromDiffuse`,
`createCloudTexture`)

The argument is `data.data` as returned by `ctx.getImageData(0, 0, width, height)`:
a flat buffer, four bytes (r, g, b, a) per pixel. The loop `for (i = 0; i <
data.data.length; i += 4)` is the recursion on four leading bytes; the result is the
buffer handed to `ctx.putImageData`. -/

/-- The number `luma = r * 0.3 + g * 0.59 + b * 0.11` computed for a pixel in
`createBumpFromDiffuse` and in `createCloudTexture`: three products and two sums, each
rounded to a double, on the doubles nearest to `0.3`, `0.59` and `0.11`. -/
def lumaOf (r g b : ℕ) : ℚ :=
  fl (fl (fl ((r : ℚ) * fl (3 / 10)) + fl ((g : ℚ) * fl (59 / 100)))
    + fl ((b : ℚ) * fl (11 / 100)))

/-- Loop of `createBumpFromDiffuse` over the pixel buffer. -/
def createBumpFromDiffuse : List ℕ → List ℕ
  | r :: g :: b :: _ :: rest =>
    let luma : ℚ := lumaOf r g b
    let bump : ℚ := min 255 (max 0 (fl (luma + 25)))
    toUint8Clamped bump :: toUint8Clamped bump :: toUint8Clamped bump
      :: toUint8Clamped 255 :: createBumpFromDiffuse rest
  | rest => rest

/-- Loop of `createSpecularFromDiffuse` over the pixel buffer. -/
def createSpecularFromDiffuse : List ℕ → List ℕ
  | r :: g :: b :: _ :: rest =>
    let water : Bool := decide (b > g + 10) && decide (b > r + 10)
    let value : ℚ := if water then 200 else 40
    toUint8Clamped value :: toUint8Clamped value :: toUint8Clamped value
      :: toUint8Clamped 255 :: createSpecularFromDiffuse rest
  | rest => rest

/-- The number `alpha` computed for one pixel in `createCloudTexture`, before it is
stored into the buffer. -/
def cloudAlpha (r g b : ℕ) : ℚ :=
  let luma : ℚ := lumaOf r g b
  if luma > 180 then min (fl (fl (luma - 180) * fl (22 / 10))) 255 else 0

/-- Loop of `createCloudTexture` over the pixel buffer. -/
def createCloudTexture : List ℕ → List ℕ
  | r :: g :: b :: _ :: rest =>
    toUint8Clamped 255 :: toUint8Clamped 255 :: toUint8Clamped 255
      :: toUint8Clamped (cloudAlpha r g b) :: createCloudTexture rest
  | rest => rest

/-- The four bytes of pixel `k` of a buffer, when the buffer holds all four. -/
def pixelAt : List ℕ → ℕ → Option (ℕ × ℕ × ℕ × ℕ)
  | r :: g :: b :: a :: _, 0 => some (r, g, b, a)
  | _ :: _ :: _ :: _ :: rest, k + 1 => pixelAt rest k
  | _, _ => none

/-! ## Orientation controller (`lerpAngle`, `lebanonTarget`, `animate`) -/

/-- Source function `lerpAngle(a, b, t)`. -/
def lerpAngle (a b t : ℚ) : ℚ :=
  let diff : ℚ := jsMod (b - a + MathPI) (MathPI * 2) - MathPI
  a + diff * t

/-- Modelled from the spec: `THREE.MathUtils.degToRad` belongs to the rendering library,
which is not among the sources; the spec gives the conversion as "latitude in radians",
that is `deg * π / 180`. -/
def degToRad (deg : ℚ) : ℚ := deg * (MathPI / 180)

/-- Constant `lebanonLat = 33.8547`. -/
def lebanonLat : ℚ := 338547 / 10000

/-- Constant `lebanonLon = 35.8623`. -/
def lebanonLon : ℚ := 358623 / 10000

/-- An angle pair (pitch `x`, yaw `y`). -/
structure Angles where
  x : ℚ
  y : ℚ
  deriving DecidableEq, Repr

/-- Constant `lebanonTarget`. -/
def lebanonTarget : Angles :=
  { x := degToRad lebanonLat, y := degToRad (-lebanonLon - 90) }

/-- The functions `Math.sin` and `Math.cos` of the host, as values on the numbers of
the model. -/
structure MathFns where
  sin : ℚ → ℚ
  cos : ℚ → ℚ

/-- Variables of the orientation controller: `currentX`, `currentY`, `spinY`,
`focusLebanon`, and what a tick writes outward (the `show-label` class of the container
and `clouds.rotation.y`). -/
structure Globe where
  currentX : ℚ
  currentY : ℚ
  spinY : ℚ
  focusLebanon : Bool
  showLabel : Bool
  cloudsRotationY : ℚ
  deriving DecidableEq, Repr

/-- Controller state at page load: `globeGroup.rotation` is `(0, 0, 0)`. -/
def Globe.init : Globe :=
  { currentX := 0, currentY := 0, spinY := 0, focusLebanon := false, showLabel := false,
    cloudsRotationY := 0 }

/-- Listener of `mouseenter` on the container. -/
def mouseenter (s : Globe) : Globe := { s with focusLebanon := true }

/-- Listener of `mouseleave` on the container. -/
def mouseleave (s : Globe) : Globe := { s with focusLebanon := false, spinY := s.currentY }

/-- One call of `animate()`: `now` is `Date.now()`, `mobile` is `mobileQuery.matches`,
`mobileFocus` the current value of the shared variable of that name. -/
def animate (M : MathFns) (now : ℚ) (mobile : Bool) (mobileFocus : ℚ) (s : Globe) : Globe :=
  let spinY : ℚ := s.spinY + 16 / 10000
  let baseX : ℚ := M.sin (now * (2 / 10000)) * (3 / 100)
  let baseY : ℚ := spinY
  let cur : Angles :=
    if mobile then
      let targetX := lerpAngle baseX lebanonTarget.x mobileFocus
      let targetY := lerpAngle baseY lebanonTarget.y mobileFocus
      { x := lerpAngle s.currentX targetX (1 / 10), y := lerpAngle s.currentY targetY (1 / 10) }
    else if !s.focusLebanon then
      { x := lerpAngle s.currentX baseX (6 / 100), y := lerpAngle s.currentY baseY (6 / 100) }
    else
      { x := lerpAngle s.currentX lebanonTarget.x (8 / 100),
        y := lerpAngle s.currentY lebanonTarget.y (8 / 100) }
  { currentX := cur.x, currentY := cur.y, spinY := spinY, focusLebanon := s.focusLebanon,
    showLabel := s.focusLebanon || decide (mobileFocus > 15 / 100),
    cloudsRotationY := s.cloudsRotationY + 22 / 10000 }

/-- Successive desktop frames: one `animate()` per clock reading in `nows`, with
`mobileQuery.matches = false`. -/
def desktopFrames (M : MathFns) (mobileFocus : ℚ) (nows : List ℚ) (s : Globe) : Globe :=
  nows.foldl (fun st now => animate M now false mobileFocus st) s

/-! ## Scroll event coalescing

The scroll listener, the callback it hands to `requestAnimationFrame`, and the resize
listener, over the flag `scrollTicking`, the number of callbacks waiting for the next
frame, and a counter of the calls of `updateScrollEffects`. -/

/-- Scheduler state of `src/js/main.js`. -/
structure Sched where
  scrollTicking : Bool
  pending : ℕ
  runs : ℕ
  deriving DecidableEq, Repr

/-- What the host delivers: a scroll event, a resize event, or a display frame (which
runs every callback registered since the previous frame). -/
inductive Event where
  | scroll
  | resize
  | frame
  deriving DecidableEq, Repr

/-- State after the script has run: the flag is clear, nothing is registered, and
`updateScrollEffects()` has been called once. -/
def Sched.init : Sched := { scrollTicking := false, pending := 0, runs := 1 }

/-- Listener of `scroll`. -/
def onScroll (s : Sched) : Sched :=
  if s.scrollTicking then s
  else { s with scrollTicking := true, pending := s.pending + 1 }

/-- The callback registered by the scroll listener: `updateScrollEffects()`, then
`scrollTicking = false`. -/
def scrollCallback (s : Sched) : Sched :=
  { s with runs := s.runs + 1, scrollTicking := false }

/-- A display frame: every waiting callback runs, and none is waiting afterwards. -/
def onFrame (s : Sched) : Sched :=
  Nat.iterate scrollCallback s.pending { s with pending := 0 }

/-- Listener of `resize`: `updateScrollEffects` itself. -/
def onResize (s : Sched) : Sched := { s with runs := s.runs + 1 }

/-- One event. -/
def Sched.step (s : Sched) : Event → Sched
  | .scroll => onScroll s
  | .resize => onResize s
  | .frame => onFrame s

/-- A sequence of events, from a given state. -/
def Sched.run (s : Sched) (es : List Event) : Sched := es.foldl Sched.step s

/-- Scheduler state of the legacy script `src/main.js`: the flag `starTicking`, the
waiting callbacks, and a counter of the star-shift recomputations. -/
structure LegacySched where
  starTicking : Bool
  pending : ℕ
  runs : ℕ
  deriving DecidableEq, Repr

/-- Events of the legacy script that touch the scheduler. -/
inductive LegacyEvent where
  | scroll
  | frame
  deriving DecidableEq, Repr

/-- Legacy state after the script has run. -/
def LegacySched.init : LegacySched := { starTicking := false, pending := 0, runs := 0 }

/-- Legacy listener of `scroll`. -/
def legacyOnScroll (s : LegacySched) : LegacySched :=
  if s.starTicking then s
  else { s with starTicking := true, pending := s.pending + 1 }

/-- Legacy callback: the star shift is recomputed and set on the `.starfield` element
(taken to exist: the callback reads it without a check), then `starTicking = false`. -/
def legacyCallback (s : LegacySched) : LegacySched :=
  { s with runs := s.runs + 1, starTicking := false }

/-- A display frame of the legacy page. -/
def legacyOnFrame (s : LegacySched) : LegacySched :=
  Nat.iterate legacyCallback s.pending { s with pending := 0 }

/-- One legacy event. -/
def LegacySched.step (s : LegacySched) : LegacyEvent → LegacySched
  | .scroll => legacyOnScroll s
  | .frame => legacyOnFrame s

/-- A sequence of legacy events, from a given state. -/
def LegacySched.run (s : LegacySched) (es : List LegacyEvent) : LegacySched :=
  es.foldl LegacySched.step s

/-- At most one callback waits, and one waits exactly when the flag is set. -/
def Sched.Inv (s : Sched) : Prop :=
  s.pending ≤ 1 ∧ (s.pending = 1 ↔ s.scrollTicking = true)

/-- The same invariant for the legacy scheduler. -/
def LegacySched.Inv (s : LegacySched) : Prop :=
  s.pending ≤ 1 ∧ (s.pending = 1 ↔ s.starTicking = true)

/-- The value the legacy callback gives `--star-shift`: `Math.min(window.scrollY * 0.08, 120)`. -/
def legacyStarShift (scrollY : ℚ) : ℚ := min (scrollY * (8 / 100)) 120

/-! ## Scroll effects (`updateScrollEffects`)

A quotient whose divisor is zero is `Infinity` or `NaN` in the source and is not
represented here; statements about a quotient carry a nonzero divisor. Style values
written as `"<number>px"` or `"<number>s"` are kept as the number. -/

/-- The part of `getBoundingClientRect()` that is read. -/
structure Rect where
  top : ℚ
  height : ℚ
  deriving DecidableEq, Repr

/-- The `.hero` element: its bounding rectangle, `offsetTop`, `offsetHeight`. -/
structure HeroSection where
  rect : Rect
  offsetTop : ℚ
  offsetHeight : ℚ
  deriving DecidableEq, Repr

/-- An element of `parallaxEls`: its bounding rectangle and the number in
`data-parallax` (`none` when the attribute is absent or empty). -/
structure ParallaxEl where
  rect : Rect
  parallax : Option ℚ
  deriving DecidableEq, Repr

/-- What one call of `updateScrollEffects` reads from the page. `heroLayers` and `orbs`
list the number in each element's `data-depth` (`none` when absent or empty);
`heroWordInners` is the number of hero words. -/
structure Page where
  scrollY : ℚ
  pageYOffset : ℚ
  scrollHeight : ℚ
  innerHeight : ℚ
  mobile : Bool
  prefersReducedMotion : Bool
  starfield : Bool
  progressBar : Bool
  heroGlobe : Bool
  heroSection : Option HeroSection
  heroLayers : List (Option ℚ)
  parallaxEls : List ParallaxEl
  orbs : List (Option ℚ)
  heroWordInners : ℕ
  deriving DecidableEq, Repr

/-- The style properties and classes written by `updateScrollEffects`; `none` is a
property that is not set. Lists run parallel to `heroLayers`, `parallaxEls`, `orbs`
and the hero words. -/
structure Styles where
  starShift : Option ℚ
  starShiftSlow : Option ℚ
  starShiftFast : Option ℚ
  progressScaleX : Option ℚ
  layerShift : List (Option ℚ)
  parallax : Option ℚ
  scrollParallax : List (Option ℚ)
  orbX : List (Option ℚ)
  orbY : List (Option ℚ)
  renderWordsAuto : Bool
  wordDelay : List (Option ℚ)
  deriving DecidableEq, Repr

/-- Variables `mobileFocus` and `autoRenderApplied`, and the styles on the page. -/
structure ScrollState where
  mobileFocus : ℚ
  autoRenderApplied : Bool
  styles : Styles
  deriving DecidableEq, Repr

/-- Before the first call: `mobileFocus = 0`, `autoRenderApplied = false`, nothing set. -/
def ScrollState.init (p : Page) : ScrollState :=
  { mobileFocus := 0, autoRenderApplied := false,
    styles :=
      { starShift := none, starShiftSlow := none, starShiftFast := none,
        progressScaleX := none,
        layerShift := p.heroLayers.map (fun _ => none), parallax := none,
        scrollParallax := p.parallaxEls.map (fun _ => none),
        orbX := p.orbs.map (fun _ => none), orbY := p.orbs.map (fun _ => none),
        renderWordsAuto := false, wordDelay := List.replicate p.heroWordInners none } }

/-- Method `toFixed(2)`, as a number: the multiple of 1/100 nearest to the magnitude, the
larger one at a tie, with the sign put back. -/
def toFixed2 (x : ℚ) : ℚ :=
  if x < 0 then -(((⌊-x * 100 + 1 / 2⌋ : ℤ) : ℚ) / 100)
  else ((⌊x * 100 + 1 / 2⌋ : ℤ) : ℚ) / 100

/-- The number read by `parseFloat(value || fallback)` from a data attribute. -/
def parseOr (attr : Option ℚ) (fallback : ℚ) : ℚ := attr.getD fallback

/-- Local `scrollTop = window.scrollY || window.pageYOffset`. -/
def scrollTopOf (p : Page) : ℚ := if p.scrollY ≠ 0 then p.scrollY else p.pageYOffset

/-- Local `docHeight = document.documentElement.scrollHeight - window.innerHeight`. -/
def docHeightOf (p : Page) : ℚ := p.scrollHeight - p.innerHeight

/-- Local `progress = docHeight > 0 ? scrollTop / docHeight : 0`. -/
def progressOf (p : Page) : ℚ :=
  if docHeightOf p > 0 then scrollTopOf p / docHeightOf p else 0

/-- The star-field block: the three offsets, when the `.starfield` element exists. -/
def starfieldBlock (p : Page) (st : Styles) : Styles :=
  if p.starfield then
    let base : ℚ := if p.mobile then 22 / 100 else 16 / 100
    let shift : ℚ := scrollTopOf p * base
    let slow : ℚ := shift * (1 / 2)
    let fast : ℚ := shift * (105 / 100)
    { st with
      starShift := some (min shift (if p.mobile then 200 else 140)),
      starShiftSlow := some (min slow (if p.mobile then 120 else 90)),
      starShiftFast := some (min fast (if p.mobile then 240 else 160)) }
  else st

/-- The progress-bar block. -/
def progressBlock (p : Page) (st : Styles) : Styles :=
  if p.progressBar then { st with progressScaleX := some (progressOf p) } else st

/-- Local `heroShift` for a hero section, inside the first branch of the hero block. -/
def heroShiftOf (p : Page) (h : HeroSection) : ℚ :=
  let progress : ℚ := (p.innerHeight - h.rect.top) / (p.innerHeight + h.rect.height)
  let clamped : ℚ := min 1 (max 0 progress)
  (clamped - 1 / 2) * (if p.mobile then 44 else 28)

/-- The hero block: `--layer-shift` of every layer and `--parallax` of the globe. -/
def heroBlock (p : Page) (st : Styles) : Styles :=
  match p.heroSection with
  | some h =>
    if p.heroLayers.length ≠ 0 ∧ !p.prefersReducedMotion then
      let heroShift : ℚ := heroShiftOf p h
      { st with
        layerShift := p.heroLayers.map (fun d => some (heroShift * parseOr d (6 / 10))),
        parallax := if p.heroGlobe then some (heroShift * (7 / 10)) else st.parallax }
    else
      { st with
        layerShift := p.heroLayers.map (fun _ => some 0),
        parallax := if p.heroGlobe then some 0 else st.parallax }
  | none =>
    { st with
      layerShift := p.heroLayers.map (fun _ => some 0),
      parallax := if p.heroGlobe then some 0 else st.parallax }

/-- The value assigned to `mobileFocus`. -/
def mobileFocusOf (p : Page) : ℚ :=
  match p.mobile, p.heroSection with
  | true, some h =>
    let heroTop : ℚ := h.offsetTop
    let heroHeight : ℚ := h.offsetHeight
    let start : ℚ := heroTop - p.innerHeight * (3 / 10)
    let end_ : ℚ := heroTop + heroHeight * (6 / 10)
    let progress : ℚ := min 1 (max 0 ((scrollTopOf p - start) / (end_ - start)))
    let eased : ℚ := progress * progress * (3 - 2 * progress)
    min 1 (eased * (115 / 100))
  | _, _ => 0

/-- The `--scroll-parallax` value of one element, reduced motion off. The value ends in a
string of two decimals, so the arithmetic is that of the source in doubles; the numbers
read from the page (`innerHeight`, the rectangle, the parsed `data-parallax`) are taken
to be doubles already. -/
def revealOffset (p : Page) (el : ParallaxEl) : ℚ :=
  let base : ℚ := if p.mobile then 160 else 220
  let start : ℚ := p.innerHeight
  let end_ : ℚ := fl (-el.rect.height * fl (2 / 10))
  let raw : ℚ := fl (fl (start - el.rect.top) / fl (start - end_))
  let clamped : ℚ := min 1 (max 0 raw)
  let eased : ℚ := fl (fl (clamped * clamped) * fl (3 - fl (2 * clamped)))
  let depth : ℚ := parseOr el.parallax (fl (12 / 100))
  let offset : ℚ := fl (fl (fl (1 - eased) * base) * depth)
  toFixed2 offset

/-- The reveal-parallax block. -/
def revealBlock (p : Page) (st : Styles) : Styles :=
  if p.parallaxEls.length ≠ 0 then
    if !p.prefersReducedMotion then
      { st with scrollParallax := p.parallaxEls.map (fun el => some (revealOffset p el)) }
    else
      { st with scrollParallax := p.parallaxEls.map (fun _ => some 0) }
  else st

/-- The `--orb-x` value of orb number `index`, reduced motion off. -/
def orbXOf (M : MathFns) (p : Page) (index : ℕ) (d : Option ℚ) : ℚ :=
  let depth : ℚ := parseOr d (2 / 10)
  let sway : ℚ := M.sin (scrollTopOf p * (16 / 10000) + index) * 26 * depth
  toFixed2 sway

/-- The `--orb-y` value of orb number `index`, reduced motion off. -/
def orbYOf (M : MathFns) (p : Page) (index : ℕ) (d : Option ℚ) : ℚ :=
  let driftBase : ℚ := if p.mobile then 2 / 10 else 14 / 100
  let depth : ℚ := parseOr d (2 / 10)
  let y : ℚ := -scrollTopOf p * driftBase * depth
  let swayY : ℚ := M.cos (scrollTopOf p * (11 / 10000) + index) * 12 * depth
  toFixed2 (y + swayY)

/-- The orb block. -/
def orbBlock (M : MathFns) (p : Page) (st : Styles) : Styles :=
  if p.orbs.length ≠ 0 then
    if !p.prefersReducedMotion then
      { st with
        orbX := p.orbs.enum.map (fun id => some (orbXOf M p id.1 id.2)),
        orbY := p.orbs.enum.map (fun id => some (orbYOf M p id.1 id.2)) }
    else
      { st with
        orbX := p.orbs.map (fun _ => some 0),
        orbY := p.orbs.map (fun _ => some 0) }
  else st

/-- The class toggle and the one-shot word stagger: the new `autoRenderApplied` and
styles. -/
def wordBlock (p : Page) (applied : Bool) (st : Styles) : Bool × Styles :=
  let auto : Bool := p.mobile && decide (p.heroWordInners > 0) && !p.prefersReducedMotion
  let st : Styles := { st with renderWordsAuto := auto }
  if p.mobile && decide (p.heroWordInners ≠ 0) && !p.prefersReducedMotion then
    if !applied then
      (true, { st with
        wordDelay := (List.range p.heroWordInners).map (fun index => some ((index : ℚ) * (12 / 100))) })
    else (true, st)
  else
    if applied then
      (false, { st with wordDelay := List.replicate p.heroWordInners none })
    else (false, st)

/-- Source function `updateScrollEffects`. -/
def updateScrollEffects (M : MathFns) (p : Page) (s : ScrollState) : ScrollState :=
  let st := starfieldBlock p s.styles
  let st := progressBlock p st
  let st := heroBlock p st
  let mobileFocus := mobileFocusOf p
  let st := revealBlock p st
  let st := orbBlock M p st
  let w := wordBlock p s.autoRenderApplied st
  { mobileFocus := mobileFocus, autoRenderApplied := w.1, styles := w.2 }

/-- Stand-ins for `Math.sin` and `Math.cos` in examples, where their values are not
used: constant 0 and constant 1. -/
def exampleMath : MathFns := { sin := fun _ => 0, cos := fun _ => 1 }

/-- An example page: desktop, reduced motion requested, scrolled down by 100 px, with a
star field, a hero section with two layers and a globe, one reveal element, two orbs
and three hero words. -/
def reducedMotionPage : Page :=
  { scrollY := 100, pageYOffset := 100, scrollHeight := 3000, innerHeight := 800,
    mobile := false, prefersReducedMotion := true, starfield := true, progressBar := true,
    heroGlobe := true,
    heroSection := some { rect := { top := -100, height := 900 }, offsetTop := 0,
                          offsetHeight := 900 },
    heroLayers := [none, some 1],
    parallaxEls := [{ rect := { top := 300, height := 200 }, parallax := none }],
    orbs := [none, some (1 / 2)], heroWordInners := 3 }

/-! ## Texture pipeline (`loadImage`, `loadNasaTextures`, `createCanvasTexture`,
`createProceduralTextures`, and the `then`/`catch` chain that applies the result)

The same code stands in `src/js/main.js` and in `src/main.js`. A canvas, a decoded image
and a `THREE.CanvasTexture` (which wraps its canvas) are all a `Raster`. What
`ctx.drawImage(source, 0, 0, width, height)` leaves in a canvas of that size is the
host's business and is a parameter `draw`. -/

/-- A canvas or a decoded image: its width, its height and its pixel buffer. -/
structure Raster where
  width : ℕ
  height : ℕ
  data : List ℕ
  deriving DecidableEq, Repr

/-- The bundle returned by `loadNasaTextures` and by `createProceduralTextures`. -/
structure TextureSet where
  diffuse : Raster
  bump : Raster
  specular : Raster
  clouds : Raster
  deriving DecidableEq, Repr

/-- A settled promise: fulfilled with a value, or rejected. -/
inductive Settled (α : Type) where
  | resolved (value : α)
  | rejected
  deriving DecidableEq, Repr

/-- Combinator `Promise.all` on two promises: fulfilled with both values when both
are fulfilled, rejected as soon as one is rejected. -/
def Settled.all {α β : Type} : Settled α → Settled β → Settled (α × β)
  | .resolved a, .resolved b => .resolved (a, b)
  | _, _ => .rejected

/-- Method `then` with a fulfilment handler only: the handler runs on the value, a
rejection passes through. -/
def Settled.thenDo {α β : Type} (p : Settled α) (f : α → β) : Settled β :=
  match p with
  | .resolved a => .resolved (f a)
  | .rejected => .rejected

/-- Method `catch`: the handler runs on a rejection and its result fulfils the promise,
a value passes through. -/
def Settled.catchDo {α : Type} (p : Settled α) (g : Unit → α) : Settled α :=
  match p with
  | .resolved a => .resolved a
  | .rejected => .resolved (g ())

/-- Outcome of one image fetch, as seen by `loadImage`: `onload` with the decoded image,
or `onerror`. -/
inductive Fetch where
  | loaded (img : Raster)
  | failed
  deriving DecidableEq, Repr

/-- Source function `loadImage(url)`, given the outcome of the fetch. -/
def loadImage : Fetch → Settled Raster
  | .loaded img => .resolved img
  | .failed => .rejected

/-- Source function `createCanvasTexture(image, width, height)`. -/
def createCanvasTexture (draw : Raster → ℕ → ℕ → List ℕ) (image : Raster)
    (width height : ℕ) : Raster :=
  { width := width, height := height, data := draw image width height }

/-- Source function `createBumpFromDiffuse(diffuseTexture, width, height)`: the canvas it
makes, draws the diffuse texture on, and rewrites pixel by pixel. -/
def Texture.createBumpFromDiffuse (draw : Raster → ℕ → ℕ → List ℕ) (diffuseTexture : Raster)
    (width height : ℕ) : Raster :=
  { width := width, height := height,
    data := Anfweb.createBumpFromDiffuse (draw diffuseTexture width height) }

/-- Source function `createSpecularFromDiffuse(diffuseTexture, width, height)`, whole. -/
def Texture.createSpecularFromDiffuse (draw : Raster → ℕ → ℕ → List ℕ)
    (diffuseTexture : Raster) (width height : ℕ) : Raster :=
  { width := width, height := height,
    data := Anfweb.createSpecularFromDiffuse (draw diffuseTexture width height) }

/-- Source function `createCloudTexture(cloudsImg, width, height)`, whole. -/
def Texture.createCloudTexture (draw : Raster → ℕ → ℕ → List ℕ) (cloudsImg : Raster)
    (width height : ℕ) : Raster :=
  { width := width, height := height,
    data := Anfweb.createCloudTexture (draw cloudsImg width height) }

/-- Source function `loadNasaTextures(diffuseUrl, cloudsUrl)`, given the outcome of the
two fetches. -/
def loadNasaTextures (draw : Raster → ℕ → ℕ → List ℕ) (diffuseFetch cloudsFetch : Fetch) :
    Settled TextureSet :=
  (Settled.all (loadImage diffuseFetch) (loadImage cloudsFetch)).thenDo (fun imgs =>
    let width : ℕ := 2048
    let height : ℕ := 1024
    let diffuse := createCanvasTexture draw imgs.1 width height
    let bump := Texture.createBumpFromDiffuse draw diffuse width height
    let specular := Texture.createSpecularFromDiffuse draw diffuse width height
    let clouds := Texture.createCloudTexture draw imgs.2 width height
    { diffuse := diffuse, bump := bump, specular := specular, clouds := clouds })

/-- The buffer of a canvas of `n` pixels after `fillStyle = "#0b2a4a"` and `fillRect`
over the whole canvas: every pixel is `(0x0b, 0x2a, 0x4a, 255)`. -/
def fillDeepOcean (n : ℕ) : List ℕ := (List.replicate n [11, 42, 74, 255]).flatten

/-- Source function `createProceduralTextures(width, height)`: four textures over the one
canvas `diffuse`. -/
def createProceduralTextures (width height : ℕ) : TextureSet :=
  let diffuse : Raster :=
    { width := width, height := height, data := fillDeepOcean (width * height) }
  { diffuse := diffuse, bump := diffuse, specular := diffuse, clouds := diffuse }

/-- What the presentation layer holds: `earthMat.map`, `earthMat.bumpMap`,
`earthMat.bumpScale`, `earthMat.specularMap`, `cloudsMat.map`, and (a record kept for the
statements, not a variable of the source) the texture sets assigned so far. -/
structure Materials where
  map : Option Raster
  bumpMap : Option Raster
  bumpScale : ℚ
  specularMap : Option Raster
  cloudsMap : Option Raster
  handed : List TextureSet
  deriving DecidableEq, Repr

/-- Materials as constructed at the top of the script: no map yet; `bumpScale` has the
library default 1. -/
def Materials.init : Materials :=
  { map := none, bumpMap := none, bumpScale := 1, specularMap := none, cloudsMap := none,
    handed := [] }

/-- The fulfilment handler of the chain: the loaded set goes onto the two materials. The
filtering attributes it then sets on the four textures belong to the rendering library
and are left out. -/
def applyTextures (textures : TextureSet) (m : Materials) : Materials :=
  { map := some textures.diffuse, bumpMap := some textures.bump, bumpScale := 2 / 100,
    specularMap := some textures.specular, cloudsMap := some textures.clouds,
    handed := m.handed ++ [textures] }

/-- The rejection handler of the chain: the procedural set of 2048 by 1024 goes onto the
two materials. -/
def applyFallback (m : Materials) : Materials :=
  let fallback := createProceduralTextures 2048 1024
  { map := some fallback.diffuse, bumpMap := some fallback.bump, bumpScale := m.bumpScale,
    specularMap := some fallback.specular, cloudsMap := some fallback.clouds,
    handed := m.handed ++ [fallback] }

/-- The chain `loadNasaTextures(...).then(...).catch(...)` of the script, from the
outcome of the two fetches and the materials at that moment. -/
def loadChain (draw : Raster → ℕ → ℕ → List ℕ) (diffuseFetch cloudsFetch : Fetch)
    (m : Materials) : Settled Materials :=
  ((loadNasaTextures draw diffuseFetch cloudsFetch).thenDo
      (fun textures => applyTextures textures m)).catchDo
    (fun _ => applyFallback m)

/-! ## Example pages -/

/-- An example page: desktop, reduced motion off, scrolled down by 1000 px, with a star
field. -/
def longScrollPage : Page :=
  { scrollY := 1000, pageYOffset := 1000, scrollHeight := 3000, innerHeight := 800,
    mobile := false, prefersReducedMotion := false, starfield := true, progressBar := true,
    heroGlobe := true, heroSection := none, heroLayers := [], parallaxEls := [],
    orbs := [], heroWordInners := 0 }

/-- An example page: desktop, reduced motion off, viewport 800 px high; the hero section
has no layout yet (its rectangle is all zero) and has one layer and the globe; one
reveal element of height zero sits at the lower edge of the viewport. -/
def zeroHeightPage : Page :=
  { scrollY := 0, pageYOffset := 0, scrollHeight := 3000, innerHeight := 800,
    mobile := false, prefersReducedMotion := false, starfield := false, progressBar := false,
    heroGlobe := true,
    heroSection := some { rect := { top := 0, height := 0 }, offsetTop := 0, offsetHeight := 0 },
    heroLayers := [none],
    parallaxEls := [{ rect := { top := 800, height := 0 }, parallax := none }],
    orbs := [], heroWordInners := 0 }
/-! # Theorems -/

theorem toUint8Clamped_le (x : ℚ) : toUint8Clamped x ≤ 255 := by
  unfold toUint8Clamped
  by_cases h0 : x ≤ 0
  · simp [h0]
  by_cases h1 : (255 : ℚ) ≤ x
  · simp [h0, h1]
  have hx0 : 0 < x := lt_of_not_ge h0
  have hx1 : x < 255 := lt_of_not_ge h1
  have hfl0 : (0 : ℤ) ≤ ⌊x⌋ := Int.floor_nonneg.mpr hx0.le
  have hfl1 : ⌊x⌋ < 255 := by
    have : ⌊x⌋ < (255 : ℤ) := Int.floor_lt.mpr (by exact_mod_cast hx1)
    exact this
  have hf : ⌊x⌋.toNat < 255 := by omega
  simp only [h0, h1, if_false]
  split_ifs <;> omega

theorem toUint8Clamped_near (x : ℚ) (hx0 : 0 ≤ x) (hx1 : x ≤ 255) :
    |(toUint8Clamped x : ℚ) - x| ≤ 1 / 2 := by
  unfold toUint8Clamped
  by_cases h0 : x ≤ 0
  · have : x = 0 := le_antisymm h0 hx0
    simp [this]
  by_cases h1 : (255 : ℚ) ≤ x
  · have : x = 255 := le_antisymm hx1 h1
    subst this
    norm_num
  have hfl0 : (0 : ℤ) ≤ ⌊x⌋ := Int.floor_nonneg.mpr hx0
  have hcast : ((⌊x⌋.toNat : ℕ) : ℚ) = (⌊x⌋ : ℚ) := by
    have : ((⌊x⌋.toNat : ℕ) : ℤ) = ⌊x⌋ := Int.toNat_of_nonneg hfl0
    exact_mod_cast this
  have hlo : (⌊x⌋ : ℚ) ≤ x := Int.floor_le x
  have hhi : x < (⌊x⌋ : ℚ) + 1 := Int.lt_floor_add_one x
  simp only [h0, h1, if_false]
  rw [abs_le]
  split_ifs with ha hb hc
  · rw [hcast]; constructor <;> linarith
  · push_cast; rw [hcast]; constructor <;> linarith
  · rw [hcast]
    have : x - ⌊x⌋ = 1 / 2 := le_antisymm (not_lt.mp hb) (not_lt.mp ha)
    constructor <;> linarith
  · push_cast; rw [hcast]
    have : x - ⌊x⌋ = 1 / 2 := le_antisymm (not_lt.mp hb) (not_lt.mp ha)
    constructor <;> linarith

theorem toUint8Clamped_mono (x y : ℚ) (hxy : x ≤ y) : toUint8Clamped x ≤ toUint8Clamped y := by
  by_cases h0 : x ≤ 0
  · have : toUint8Clamped x = 0 := by simp [toUint8Clamped, h0]
    omega
  by_cases h1 : (255 : ℚ) ≤ y
  · have : toUint8Clamped y = 255 := by
      have hy0 : ¬ y ≤ 0 := by linarith
      simp [toUint8Clamped, h1, hy0]
    have := toUint8Clamped_le x
    omega
  have hx0 : 0 < x := lt_of_not_ge h0
  have hy1 : y < 255 := lt_of_not_ge h1
  have nx := abs_le.mp (toUint8Clamped_near x hx0.le (by linarith))
  have ny := abs_le.mp (toUint8Clamped_near y (by linarith) hy1.le)
  by_contra hlt
  have hlt' : toUint8Clamped y + 1 ≤ toUint8Clamped x := by omega
  have hq : (toUint8Clamped y : ℚ) + 1 ≤ (toUint8Clamped x : ℚ) := by exact_mod_cast hlt'
  have hxy' : x = y := by linarith [nx.1, nx.2, ny.1, ny.2]
  subst hxy'
  omega

/-! ## Rounding to doubles -/

theorem roundHalfEven_near (q : ℚ) : |(roundHalfEven q : ℚ) - q| ≤ 1 / 2 := by
  have hlo : (⌊q⌋ : ℚ) ≤ q := Int.floor_le q
  have hhi : q < (⌊q⌋ : ℚ) + 1 := Int.lt_floor_add_one q
  unfold roundHalfEven
  rw [abs_le]
  split_ifs with ha hb hc
  · constructor <;> linarith
  · push_cast; constructor <;> linarith
  · have : q - ⌊q⌋ = 1 / 2 := le_antisymm (not_lt.mp hb) (not_lt.mp ha)
    constructor <;> linarith
  · have : q - ⌊q⌋ = 1 / 2 := le_antisymm (not_lt.mp hb) (not_lt.mp ha)
    push_cast; constructor <;> linarith

theorem roundHalfEven_mono (q q' : ℚ) (h : q ≤ q') : roundHalfEven q ≤ roundHalfEven q' := by
  have n1 := abs_le.mp (roundHalfEven_near q)
  have n2 := abs_le.mp (roundHalfEven_near q')
  by_contra hlt
  have hlt' : roundHalfEven q' + 1 ≤ roundHalfEven q := by omega
  have hq : (roundHalfEven q' : ℚ) + 1 ≤ (roundHalfEven q : ℚ) := by exact_mod_cast hlt'
  have hqq : q = q' := by linarith [n1.1, n1.2, n2.1, n2.2]
  subst hqq
  omega

theorem roundHalfEven_eq_of_close (q : ℚ) (m : ℤ) (h : |q - m| < 1 / 2) :
    roundHalfEven q = m := by
  have n1 := abs_le.mp (roundHalfEven_near q)
  have h' := abs_lt.mp h
  have h1 : (roundHalfEven q : ℚ) < (m : ℚ) + 1 := by linarith [n1.2, h'.2]
  have h2 : (m : ℚ) < (roundHalfEven q : ℚ) + 1 := by linarith [n1.1, h'.1]
  have h1' : roundHalfEven q < m + 1 := by exact_mod_cast h1
  have h2' : m < roundHalfEven q + 1 := by exact_mod_cast h2
  omega

theorem roundHalfEven_intCast (m : ℤ) : roundHalfEven (m : ℚ) = m :=
  roundHalfEven_eq_of_close _ m (by simp)

theorem ulp_pos (e : ℤ) : (0 : ℚ) < 2 ^ (e - 52) := by positivity

theorem zpow_eq_ulp_mul (e : ℤ) : (2 : ℚ) ^ e = (2 ^ 52 : ℚ) * 2 ^ (e - 52) := by
  have h : (2 : ℚ) ^ e = 2 ^ ((52 : ℤ) + (e - 52)) := by congr 1; ring
  rw [h, zpow_add₀ (by norm_num : (2 : ℚ) ≠ 0)]
  norm_num

theorem zpow_succ_eq_ulp_mul (e : ℤ) : (2 : ℚ) ^ (e + 1) = (2 ^ 53 : ℚ) * 2 ^ (e - 52) := by
  have h : (2 : ℚ) ^ (e + 1) = 2 ^ ((53 : ℤ) + (e - 52)) := by congr 1; ring
  rw [h, zpow_add₀ (by norm_num : (2 : ℚ) ≠ 0)]
  norm_num

theorem log_bounds (x : ℚ) (hx : 0 < x) :
    (2 : ℚ) ^ Int.log 2 x ≤ x ∧ x < 2 ^ (Int.log 2 x + 1) :=
  ⟨Int.zpow_log_le_self (by norm_num) hx, Int.lt_zpow_succ_log_self (by norm_num) x⟩

theorem flPos_err (x : ℚ) (hx : 0 < x) : |flPos x - x| ≤ x * (1 / 2 ^ 53) := by
  obtain ⟨h1, _⟩ := log_bounds x hx
  have hu := ulp_pos (Int.log 2 x)
  have hk := zpow_eq_ulp_mul (Int.log 2 x)
  set u : ℚ := 2 ^ (Int.log 2 x - 52) with hud
  have hn := roundHalfEven_near (x / u)
  have e1 : flPos x - x = ((roundHalfEven (x / u) : ℚ) - x / u) * u := by
    unfold flPos
    rw [← hud]
    field_simp
  rw [e1, abs_mul, abs_of_pos hu]
  have h2 : |(roundHalfEven (x / u) : ℚ) - x / u| * u ≤ 1 / 2 * u :=
    mul_le_mul_of_nonneg_right hn hu.le
  have h3 : (2 ^ 52 : ℚ) * u ≤ x := by rw [← hk]; exact h1
  have h4 : (1 / 2 : ℚ) * u ≤ x * (1 / 2 ^ 53) := by
    have : (1 / 2 : ℚ) * u = (2 ^ 52 * u) * (1 / 2 ^ 53) := by ring
    rw [this]
    exact mul_le_mul_of_nonneg_right h3 (by positivity)
  linarith

theorem flPos_bounds (x : ℚ) (hx : 0 < x) :
    (2 : ℚ) ^ Int.log 2 x ≤ flPos x ∧ flPos x ≤ 2 ^ (Int.log 2 x + 1) := by
  obtain ⟨h1, h2⟩ := log_bounds x hx
  have hu := ulp_pos (Int.log 2 x)
  have hk := zpow_eq_ulp_mul (Int.log 2 x)
  have hk' := zpow_succ_eq_ulp_mul (Int.log 2 x)
  set u : ℚ := 2 ^ (Int.log 2 x - 52) with hud
  have hq1 : ((2 ^ 52 : ℤ) : ℚ) ≤ x / u := by
    rw [le_div_iff₀ hu]
    have : (((2 ^ 52 : ℤ) : ℚ)) * u = 2 ^ 52 * u := by push_cast; rfl
    rw [this, ← hk]; exact h1
  have hq2 : x / u ≤ ((2 ^ 53 : ℤ) : ℚ) := by
    rw [div_le_iff₀ hu]
    have : (((2 ^ 53 : ℤ) : ℚ)) * u = 2 ^ 53 * u := by push_cast; rfl
    rw [this, ← hk']; exact h2.le
  have r1 := roundHalfEven_mono _ _ hq1
  have r2 := roundHalfEven_mono _ _ hq2
  rw [roundHalfEven_intCast] at r1 r2
  have r1' : (2 ^ 52 : ℚ) ≤ (roundHalfEven (x / u) : ℚ) := by exact_mod_cast r1
  have r2' : (roundHalfEven (x / u) : ℚ) ≤ (2 ^ 53 : ℚ) := by exact_mod_cast r2
  have e : flPos x = (roundHalfEven (x / u) : ℚ) * u := by
    unfold flPos; rw [← hud]
  rw [e, hk, hk']
  exact ⟨mul_le_mul_of_nonneg_right r1' hu.le, mul_le_mul_of_nonneg_right r2' hu.le⟩

theorem flPos_pos (x : ℚ) (hx : 0 < x) : 0 < flPos x :=
  lt_of_lt_of_le (by positivity) (flPos_bounds x hx).1

theorem flPos_mono (x y : ℚ) (hx : 0 < x) (hxy : x ≤ y) : flPos x ≤ flPos y := by
  have hy : 0 < y := lt_of_lt_of_le hx hxy
  have hlog : Int.log 2 x ≤ Int.log 2 y := Int.log_mono_right hx hxy
  rcases eq_or_lt_of_le hlog with heq | hlt
  · have hu := ulp_pos (Int.log 2 y)
    unfold flPos
    rw [heq]
    apply mul_le_mul_of_nonneg_right _ hu.le
    have : roundHalfEven (x / 2 ^ (Int.log 2 y - 52)) ≤ roundHalfEven (y / 2 ^ (Int.log 2 y - 52)) :=
      roundHalfEven_mono _ _ (div_le_div_of_nonneg_right hxy hu.le)
    exact_mod_cast this
  · have h1 := (flPos_bounds x hx).2
    have h2 := (flPos_bounds y hy).1
    have h3 : (2 : ℚ) ^ (Int.log 2 x + 1) ≤ 2 ^ Int.log 2 y :=
      zpow_le_zpow_right₀ (by norm_num) (by omega)
    linarith

theorem flPos_eq_of (x : ℚ) (e m : ℤ) (h1 : (2 : ℚ) ^ e ≤ x) (h2 : x < 2 ^ (e + 1))
    (hc : |x - m * 2 ^ (e - 52)| < 2 ^ (e - 52) / 2) : flPos x = m * 2 ^ (e - 52) := by
  have hx : 0 < x := lt_of_lt_of_le (by positivity) h1
  have hlog : Int.log 2 x = e := by
    have a : e ≤ Int.log 2 x := (Int.zpow_le_iff_le_log (by norm_num) hx).mp h1
    have b : Int.log 2 x < e + 1 := (Int.lt_zpow_iff_log_lt (by norm_num) hx).mp h2
    omega
  have hu := ulp_pos e
  unfold flPos
  rw [hlog]
  congr 1
  have : roundHalfEven (x / 2 ^ (e - 52)) = m := by
    apply roundHalfEven_eq_of_close
    have e1 : x / 2 ^ (e - 52) - m = (x - m * 2 ^ (e - 52)) / 2 ^ (e - 52) := by
      field_simp
      ring
    rw [e1, abs_div, abs_of_pos hu, div_lt_iff₀ hu]
    linarith
  exact_mod_cast this

theorem fl_zero : fl 0 = 0 := by simp [fl]

theorem fl_of_pos (x : ℚ) (hx : 0 < x) : fl x = flPos x := by
  simp [fl, hx.ne', hx]

theorem fl_of_neg (x : ℚ) (hx : x < 0) : fl x = -flPos (-x) := by
  simp [fl, hx.ne, not_lt.mpr hx.le]

theorem fl_pos (x : ℚ) (hx : 0 < x) : 0 < fl x := by
  rw [fl_of_pos x hx]; exact flPos_pos x hx

theorem fl_neg (x : ℚ) (hx : x < 0) : fl x < 0 := by
  rw [fl_of_neg x hx]
  have := flPos_pos (-x) (by linarith)
  linarith

theorem fl_nonneg (x : ℚ) (hx : 0 ≤ x) : 0 ≤ fl x := by
  rcases eq_or_lt_of_le hx with h | h
  · rw [← h, fl_zero]
  · exact (fl_pos x h).le

theorem fl_nonpos (x : ℚ) (hx : x ≤ 0) : fl x ≤ 0 := by
  rcases eq_or_lt_of_le hx with h | h
  · rw [h, fl_zero]
  · exact (fl_neg x h).le

theorem fl_mono (x y : ℚ) (hxy : x ≤ y) : fl x ≤ fl y := by
  rcases lt_trichotomy x 0 with hx | hx | hx
  · rcases lt_trichotomy y 0 with hy | hy | hy
    · rw [fl_of_neg x hx, fl_of_neg y hy]
      have := flPos_mono (-y) (-x) (by linarith) (by linarith)
      linarith
    · rw [hy, fl_zero]; exact (fl_neg x hx).le
    · exact le_trans (fl_neg x hx).le (fl_pos y hy).le
  · rw [hx, fl_zero]
    exact fl_nonneg y (by linarith)
  · have hy : 0 < y := lt_of_lt_of_le hx hxy
    rw [fl_of_pos x hx, fl_of_pos y hy]
    exact flPos_mono x y hx hxy

theorem fl_err (x : ℚ) : |fl x - x| ≤ |x| * (1 / 2 ^ 53) := by
  rcases lt_trichotomy x 0 with hx | hx | hx
  · rw [fl_of_neg x hx, abs_of_neg hx]
    have h := flPos_err (-x) (by linarith)
    have e : -flPos (-x) - x = -(flPos (-x) - -x) := by ring
    rw [e, abs_neg]
    exact h
  · rw [hx, fl_zero]; simp
  · rw [fl_of_pos x hx, abs_of_pos hx]
    exact flPos_err x hx

/-- For `|x| ≤ 512` one rounding moves the value by at most `2^-44`. -/
theorem fl_err_small (x : ℚ) (h : |x| ≤ 512) : |fl x - x| ≤ 1 / 2 ^ 44 := by
  have h1 := fl_err x
  have h2 : |x| * (1 / 2 ^ 53) ≤ 512 * (1 / 2 ^ 53) :=
    mul_le_mul_of_nonneg_right h (by positivity)
  have h3 : (512 : ℚ) * (1 / 2 ^ 53) = 1 / 2 ^ 44 := by norm_num
  linarith

theorem fl_eq_of (x : ℚ) (e m : ℤ) (h1 : (2 : ℚ) ^ e ≤ x) (h2 : x < 2 ^ (e + 1))
    (hc : |x - m * 2 ^ (e - 52)| < 2 ^ (e - 52) / 2) : fl x = m * 2 ^ (e - 52) := by
  have hx : 0 < x := lt_of_lt_of_le (by positivity) h1
  rw [fl_of_pos x hx]
  exact flPos_eq_of x e m h1 h2 hc

theorem fl_natCast (n : ℕ) (hn : n < 2 ^ 53) : fl (n : ℚ) = n := by
  rcases Nat.eq_zero_or_pos n with h0 | hpos
  · subst h0; simp [fl_zero]
  have hx : (0 : ℚ) < n := by exact_mod_cast hpos
  obtain ⟨h1, _⟩ := log_bounds (n : ℚ) hx
  have hlt : Int.log 2 (n : ℚ) < 53 := by
    apply (Int.lt_zpow_iff_log_lt (by norm_num) hx).mp
    have : ((n : ℚ)) < ((2 ^ 53 : ℕ) : ℚ) := by exact_mod_cast hn
    refine lt_of_lt_of_eq this ?_
    norm_num
  obtain ⟨k, hk⟩ : ∃ k : ℕ, (52 : ℤ) - Int.log 2 (n : ℚ) = k :=
    ⟨(52 - Int.log 2 (n : ℚ)).toNat, (Int.toNat_of_nonneg (by omega)).symm⟩
  have hu : (2 : ℚ) ^ (Int.log 2 (n : ℚ) - 52) = 1 / 2 ^ k := by
    have : Int.log 2 (n : ℚ) - 52 = -(k : ℤ) := by omega
    rw [this, zpow_neg, zpow_natCast, one_div]
  rw [fl_of_pos _ hx]
  unfold flPos
  rw [hu]
  have hq : (n : ℚ) / (1 / 2 ^ k) = (((n * 2 ^ k : ℕ) : ℤ) : ℚ) := by
    push_cast; field_simp
  rw [hq, roundHalfEven_intCast]
  push_cast
  field_simp

theorem roundHalfEven_tie (q : ℚ) (f : ℤ) (hq : q = f + 1 / 2) :
    roundHalfEven q = if f % 2 = 0 then f else f + 1 := by
  have hf : ⌊q⌋ = f := by
    rw [Int.floor_eq_iff, hq]
    constructor <;> linarith
  unfold roundHalfEven
  rw [hf, hq]
  have e : (f : ℚ) + 1 / 2 - f = 1 / 2 := by ring
  rw [e]
  simp

theorem fl_eq_of_tie (x : ℚ) (e f : ℤ) (h1 : (2 : ℚ) ^ e ≤ x) (h2 : x < 2 ^ (e + 1))
    (hq : x = (f + 1 / 2) * 2 ^ (e - 52)) :
    fl x = ((if f % 2 = 0 then f else f + 1 : ℤ) : ℚ) * 2 ^ (e - 52) := by
  have hx : 0 < x := lt_of_lt_of_le (by positivity) h1
  have hlog : Int.log 2 x = e := by
    have a : e ≤ Int.log 2 x := (Int.zpow_le_iff_le_log (by norm_num) hx).mp h1
    have b : Int.log 2 x < e + 1 := (Int.lt_zpow_iff_log_lt (by norm_num) hx).mp h2
    omega
  have hu := ulp_pos e
  rw [fl_of_pos x hx]
  unfold flPos
  rw [hlog]
  congr 2
  apply roundHalfEven_tie
  rw [hq]
  field_simp
  ring

/-! ## The luma computed in doubles against the exact weighted sum -/

theorem mul_lit_err (n : ℕ) (hn : n ≤ 255) (q : ℚ) (hq0 : 0 ≤ q) (hq1 : q ≤ 1) :
    |fl ((n : ℚ) * fl q) - n * q| ≤ 3 / 2 ^ 45 := by
  have hn0 : (0 : ℚ) ≤ n := Nat.cast_nonneg n
  have hn1 : (n : ℚ) ≤ 255 := by exact_mod_cast hn
  have hc := fl_err q
  rw [abs_of_nonneg hq0] at hc
  have hc' : |fl q - q| ≤ 1 / 2 ^ 53 := by
    have : q * (1 / 2 ^ 53) ≤ 1 * (1 / 2 ^ 53) :=
      mul_le_mul_of_nonneg_right hq1 (by positivity)
    linarith
  obtain ⟨c1, c2⟩ := abs_le.mp hc'
  have hfq0 : 0 ≤ fl q := fl_nonneg q hq0
  have hprod0 : 0 ≤ (n : ℚ) * fl q := mul_nonneg hn0 hfq0
  have hprod1 : (n : ℚ) * fl q ≤ 255 * (1 + 1 / 2 ^ 53) :=
    mul_le_mul hn1 (by linarith) hfq0 (by norm_num)
  have hsmall : |(n : ℚ) * fl q| ≤ 512 := by
    rw [abs_of_nonneg hprod0]
    have : (255 : ℚ) * (1 + 1 / 2 ^ 53) ≤ 512 := by norm_num
    linarith
  obtain ⟨e1, e2⟩ := abs_le.mp (fl_err_small _ hsmall)
  have d1 : (n : ℚ) * (fl q - q) ≤ 255 * (1 / 2 ^ 53) :=
    le_trans (mul_le_mul_of_nonneg_left c2 hn0)
      (mul_le_mul_of_nonneg_right hn1 (by positivity))
  have d2 : -(255 * (1 / 2 ^ 53)) ≤ (n : ℚ) * (fl q - q) := by
    have h1 : (n : ℚ) * (-(1 / 2 ^ 53)) ≤ (n : ℚ) * (fl q - q) :=
      mul_le_mul_of_nonneg_left c1 hn0
    have h2 : (n : ℚ) * (1 / 2 ^ 53) ≤ 255 * (1 / 2 ^ 53) :=
      mul_le_mul_of_nonneg_right hn1 (by positivity)
    linarith
  have e3 : (n : ℚ) * fl q - n * q = n * (fl q - q) := by ring
  have k : (255 : ℚ) * (1 / 2 ^ 53) + 1 / 2 ^ 44 ≤ 3 / 2 ^ 45 := by norm_num
  rw [abs_le]
  constructor <;> linarith

theorem lumaOf_err (r g b : ℕ) (hr : r ≤ 255) (hg : g ≤ 255) (hb : b ≤ 255) :
    |lumaOf r g b - ((3 / 10 : ℚ) * r + (59 / 100) * g + (11 / 100) * b)| ≤ 1 / 2 ^ 41 := by
  have hr0 : (0 : ℚ) ≤ r := Nat.cast_nonneg r
  have hg0 : (0 : ℚ) ≤ g := Nat.cast_nonneg g
  have hb0 : (0 : ℚ) ≤ b := Nat.cast_nonneg b
  have hr1 : (r : ℚ) ≤ 255 := by exact_mod_cast hr
  have hg1 : (g : ℚ) ≤ 255 := by exact_mod_cast hg
  have hb1 : (b : ℚ) ≤ 255 := by exact_mod_cast hb
  obtain ⟨p1, p1'⟩ := abs_le.mp (mul_lit_err r hr (3 / 10) (by norm_num) (by norm_num))
  obtain ⟨p2, p2'⟩ := abs_le.mp (mul_lit_err g hg (59 / 100) (by norm_num) (by norm_num))
  obtain ⟨p3, p3'⟩ := abs_le.mp (mul_lit_err b hb (11 / 100) (by norm_num) (by norm_num))
  have k : (3 : ℚ) / 2 ^ 45 ≤ 1 := by norm_num
  have hs1 : |fl ((r : ℚ) * fl (3 / 10)) + fl ((g : ℚ) * fl (59 / 100))| ≤ 512 := by
    rw [abs_le]; constructor <;> linarith
  obtain ⟨s1, s1'⟩ := abs_le.mp (fl_err_small _ hs1)
  have k44 : (1 : ℚ) / 2 ^ 44 ≤ 1 := by norm_num
  have hs2 : |fl (fl ((r : ℚ) * fl (3 / 10)) + fl ((g : ℚ) * fl (59 / 100)))
      + fl ((b : ℚ) * fl (11 / 100))| ≤ 512 := by
    rw [abs_le]; constructor <;> linarith
  obtain ⟨s2, s2'⟩ := abs_le.mp (fl_err_small _ hs2)
  have kk : (3 : ℚ) / 2 ^ 45 + 3 / 2 ^ 45 + 3 / 2 ^ 45 + 1 / 2 ^ 44 + 1 / 2 ^ 44
      ≤ 1 / 2 ^ 41 := by norm_num
  unfold lumaOf
  rw [abs_le]
  constructor <;> linarith

theorem abs_clamp_sub_le (x y : ℚ) :
    |min 255 (max 0 x) - min 255 (max 0 y)| ≤ |x - y| := by
  rcases le_total x y with hxy | hxy
  · have h1 : min 255 (max 0 x) ≤ min 255 (max 0 y) :=
      min_le_min le_rfl (max_le_max le_rfl hxy)
    rw [abs_sub_comm, abs_of_nonneg (sub_nonneg.mpr h1), abs_sub_comm,
      abs_of_nonneg (sub_nonneg.mpr hxy)]
    rcases max_cases 0 x with ⟨a1, a2⟩ | ⟨a1, a2⟩ <;>
    rcases max_cases 0 y with ⟨b1, b2⟩ | ⟨b1, b2⟩ <;>
    rcases min_cases 255 (max 0 x) with ⟨c1, c2⟩ | ⟨c1, c2⟩ <;>
    rcases min_cases 255 (max 0 y) with ⟨d1, d2⟩ | ⟨d1, d2⟩ <;>
    linarith
  · have h1 : min 255 (max 0 y) ≤ min 255 (max 0 x) :=
      min_le_min le_rfl (max_le_max le_rfl hxy)
    rw [abs_of_nonneg (sub_nonneg.mpr h1), abs_of_nonneg (sub_nonneg.mpr hxy)]
    rcases max_cases 0 x with ⟨a1, a2⟩ | ⟨a1, a2⟩ <;>
    rcases max_cases 0 y with ⟨b1, b2⟩ | ⟨b1, b2⟩ <;>
    rcases min_cases 255 (max 0 x) with ⟨c1, c2⟩ | ⟨c1, c2⟩ <;>
    rcases min_cases 255 (max 0 y) with ⟨d1, d2⟩ | ⟨d1, d2⟩ <;>
    linarith

/-- A natural number within `1/2 + 1/2^30` of `K / (2 h)` is within `1/2` of it, for a
denominator `2 h` up to 1000: the two differ by a multiple of `1 / (2 h)`. -/
theorem nearest_of_close (v : ℕ) (K : ℤ) (h : ℕ) (hh0 : 0 < h) (hh : h ≤ 500) (x : ℚ)
    (hv : |(v : ℚ) - x| ≤ 1 / 2) (hx : |x - (K : ℚ) / (2 * h)| ≤ 1 / 2 ^ 30) :
    |(v : ℚ) - (K : ℚ) / (2 * h)| ≤ 1 / 2 := by
  have hq : (0 : ℚ) < 2 * h := by positivity
  have hh' : (h : ℚ) ≤ 500 := by exact_mod_cast hh
  obtain ⟨v1, v2⟩ := abs_le.mp hv
  obtain ⟨x1, x2⟩ := abs_le.mp hx
  have e : (v : ℚ) - (K : ℚ) / (2 * h) = ((2 * h * v - K : ℤ) : ℚ) / (2 * h) := by
    push_cast; field_simp; ring
  have hb1 : (v : ℚ) - (K : ℚ) / (2 * h) ≤ 1 / 2 + 1 / 2 ^ 30 := by linarith
  have hb2 : -(1 / 2 + 1 / 2 ^ 30) ≤ (v : ℚ) - (K : ℚ) / (2 * h) := by linarith
  rw [e] at hb1 hb2
  rw [div_le_iff₀ hq] at hb1
  rw [le_div_iff₀ hq] at hb2
  have k1 : ((1 : ℚ) / 2 + 1 / 2 ^ 30) * (2 * h) < h + 1 := by
    have : (1 : ℚ) / 2 ^ 30 * (2 * h) < 1 := by
      have : (1 : ℚ) / 2 ^ 30 * (2 * h) ≤ 1 / 2 ^ 30 * (2 * 500) := by
        apply mul_le_mul_of_nonneg_left _ (by positivity)
        linarith
      have : (1 : ℚ) / 2 ^ 30 * (2 * 500) < 1 := by norm_num
      linarith
    linarith
  have i1 : ((2 * h * v - K : ℤ) : ℚ) < ((h + 1 : ℤ) : ℚ) := by push_cast; push_cast at hb1; linarith
  have i2 : ((-(h + 1) : ℤ) : ℚ) < ((2 * h * v - K : ℤ) : ℚ) := by
    push_cast; push_cast at hb2; linarith
  have j1 : (2 * h * v - K : ℤ) < h + 1 := by exact_mod_cast i1
  have j2 : (-(h + 1) : ℤ) < 2 * h * v - K := by exact_mod_cast i2
  have j3 : (2 * h * v - K : ℤ) ≤ h := by omega
  have j4 : (-h : ℤ) ≤ 2 * h * v - K := by omega
  have l3 : ((2 * h * v - K : ℤ) : ℚ) ≤ (h : ℚ) := by exact_mod_cast j3
  have l4 : (-(h : ℚ)) ≤ ((2 * h * v - K : ℤ) : ℚ) := by exact_mod_cast j4
  rw [e, abs_le]
  constructor
  · rw [le_div_iff₀ hq]; linarith
  · rw [div_le_iff₀ hq]; linarith

theorem pixelAt_createBumpFromDiffuse (data : List ℕ) (k r g b a : ℕ)
    (h : pixelAt data k = some (r, g, b, a)) :
    pixelAt (createBumpFromDiffuse data) k =
      some (toUint8Clamped (min 255 (max 0 (fl (lumaOf r g b + 25)))),
            toUint8Clamped (min 255 (max 0 (fl (lumaOf r g b + 25)))),
            toUint8Clamped (min 255 (max 0 (fl (lumaOf r g b + 25)))),
            toUint8Clamped 255) := by
  induction k generalizing data with
  | zero =>
    match data, h with
    | r' :: g' :: b' :: a' :: rest, h =>
      simp only [pixelAt, Option.some.injEq, Prod.mk.injEq] at h
      obtain ⟨rfl, rfl, rfl, rfl⟩ := h
      simp [createBumpFromDiffuse, pixelAt]
  | succ k ih =>
    match data, h with
    | r' :: g' :: b' :: a' :: rest, h =>
      simp only [pixelAt] at h
      simp only [createBumpFromDiffuse, pixelAt]
      exact ih rest h

theorem toUint8Clamped_natCast (n : ℕ) (hn : n ≤ 255) : toUint8Clamped (n : ℚ) = n := by
  have h0 : (0 : ℚ) ≤ n := Nat.cast_nonneg n
  have h1 : (n : ℚ) ≤ 255 := by exact_mod_cast hn
  have near := abs_le.mp (toUint8Clamped_near n h0 h1)
  have h2 : ((toUint8Clamped (n : ℚ) : ℕ) : ℚ) < (n : ℚ) + 1 := by linarith [near.2]
  have h3 : (n : ℚ) < ((toUint8Clamped (n : ℚ) : ℕ) : ℚ) + 1 := by linarith [near.1]
  have h2' : toUint8Clamped (n : ℚ) < n + 1 := by exact_mod_cast h2
  have h3' : n < toUint8Clamped (n : ℚ) + 1 := by exact_mod_cast h3
  omega

theorem toUint8Clamped_255 : toUint8Clamped 255 = 255 := by
  have := toUint8Clamped_natCast 255 le_rfl
  simpa using this

theorem toUint8Clamped_200 : toUint8Clamped 200 = 200 := by
  have := toUint8Clamped_natCast 200 (by norm_num)
  simpa using this

theorem toUint8Clamped_40 : toUint8Clamped 40 = 40 := by
  have := toUint8Clamped_natCast 40 (by norm_num)
  simpa using this

theorem toUint8Clamped_zero : toUint8Clamped 0 = 0 := by
  simp [toUint8Clamped]

theorem pixelAt_createSpecularFromDiffuse (data : List ℕ) (k r g b a : ℕ)
    (h : pixelAt data k = some (r, g, b, a)) :
    pixelAt (createSpecularFromDiffuse data) k =
      some (toUint8Clamped (if (decide (b > g + 10) && decide (b > r + 10)) = true then 200 else 40),
            toUint8Clamped (if (decide (b > g + 10) && decide (b > r + 10)) = true then 200 else 40),
            toUint8Clamped (if (decide (b > g + 10) && decide (b > r + 10)) = true then 200 else 40),
            toUint8Clamped 255) := by
  induction k generalizing data with
  | zero =>
    match data, h with
    | r' :: g' :: b' :: a' :: rest, h =>
      simp only [pixelAt, Option.some.injEq, Prod.mk.injEq] at h
      obtain ⟨rfl, rfl, rfl, rfl⟩ := h
      simp only [createSpecularFromDiffuse, pixelAt]
  | succ k ih =>
    match data, h with
    | r' :: g' :: b' :: a' :: rest, h =>
      simp only [pixelAt] at h
      simp only [createSpecularFromDiffuse, pixelAt]
      exact ih rest h

theorem pixelAt_createCloudTexture (data : List ℕ) (k r g b a : ℕ)
    (h : pixelAt data k = some (r, g, b, a)) :
    pixelAt (createCloudTexture data) k =
      some (toUint8Clamped 255, toUint8Clamped 255, toUint8Clamped 255,
            toUint8Clamped (cloudAlpha r g b)) := by
  induction k generalizing data with
  | zero =>
    match data, h with
    | r' :: g' :: b' :: a' :: rest, h =>
      simp only [pixelAt, Option.some.injEq, Prod.mk.injEq] at h
      obtain ⟨rfl, rfl, rfl, rfl⟩ := h
      simp only [createCloudTexture, pixelAt]
  | succ k ih =>
    match data, h with
    | r' :: g' :: b' :: a' :: rest, h =>
      simp only [pixelAt] at h
      simp only [createCloudTexture, pixelAt]
      exact ih rest h

/-! ## The cloud alpha computed in doubles against the exact formula -/

theorem luma_exact_bounds (r g b : ℕ) (hr : r ≤ 255) (hg : g ≤ 255) (hb : b ≤ 255) :
    0 ≤ (3 / 10 : ℚ) * r + (59 / 100) * g + (11 / 100) * b ∧
    (3 / 10 : ℚ) * r + (59 / 100) * g + (11 / 100) * b ≤ 255 := by
  have hr0 : (0 : ℚ) ≤ r := Nat.cast_nonneg r
  have hg0 : (0 : ℚ) ≤ g := Nat.cast_nonneg g
  have hb0 : (0 : ℚ) ≤ b := Nat.cast_nonneg b
  have hr1 : (r : ℚ) ≤ 255 := by exact_mod_cast hr
  have hg1 : (g : ℚ) ≤ 255 := by exact_mod_cast hg
  have hb1 : (b : ℚ) ≤ 255 := by exact_mod_cast hb
  constructor <;> linarith

theorem luma_exact_gap (r g b : ℕ)
    (h : (180 : ℚ) < (3 / 10 : ℚ) * r + (59 / 100) * g + (11 / 100) * b) :
    (18001 / 100 : ℚ) ≤ (3 / 10 : ℚ) * r + (59 / 100) * g + (11 / 100) * b := by
  have e : (3 / 10 : ℚ) * r + (59 / 100) * g + (11 / 100) * b
      = ((30 * r + 59 * g + 11 * b : ℕ) : ℚ) / 100 := by
    push_cast; ring
  rw [e] at h ⊢
  rw [lt_div_iff₀ (by norm_num)] at h
  rw [div_le_div_iff_of_pos_right (by norm_num)]
  have h' : ((18000 : ℕ) : ℚ) < ((30 * r + 59 * g + 11 * b : ℕ) : ℚ) := by
    push_cast; push_cast at h; linarith
  have h'' : 18000 < 30 * r + 59 * g + 11 * b := by exact_mod_cast h'
  have h3 : 18001 ≤ 30 * r + 59 * g + 11 * b := h''
  exact_mod_cast h3

theorem cloudAlpha_near (r g b : ℕ) (hr : r ≤ 255) (hg : g ≤ 255) (hb : b ≤ 255) :
    0 ≤ cloudAlpha r g b ∧ cloudAlpha r g b ≤ 255 ∧
    |cloudAlpha r g b -
        (if (3 / 10 : ℚ) * r + (59 / 100) * g + (11 / 100) * b ≤ 180 then 0
         else ((3 / 10 : ℚ) * r + (59 / 100) * g + (11 / 100) * b - 180) * (22 / 10))|
      ≤ 1 / 2 ^ 30 := by
  obtain ⟨l1, l2⟩ := abs_le.mp (lumaOf_err r g b hr hg hb)
  obtain ⟨L0, L1⟩ := luma_exact_bounds r g b hr hg hb
  have k41 : (1 : ℚ) / 2 ^ 41 ≤ 1 / 1000 := by norm_num
  unfold cloudAlpha
  simp only []
  by_cases h : lumaOf r g b > 180
  · rw [if_pos h]
    have hx0 : 0 ≤ lumaOf r g b - 180 := by linarith
    have hxs : |lumaOf r g b - 180| ≤ 512 := by
      rw [abs_of_nonneg hx0]; linarith
    obtain ⟨d1, d2⟩ := abs_le.mp (fl_err_small _ hxs)
    have hd0 : 0 ≤ fl (lumaOf r g b - 180) := fl_nonneg _ hx0
    have k44 : (1 : ℚ) / 2 ^ 44 ≤ 1 / 1000 := by norm_num
    have hd1 : fl (lumaOf r g b - 180) ≤ 76 := by linarith
    have hc := fl_err (22 / 10)
    rw [abs_of_nonneg (by norm_num : (0 : ℚ) ≤ 22 / 10)] at hc
    obtain ⟨c1, c2⟩ := abs_le.mp hc
    have hc0 : 0 ≤ fl (22 / 10) := fl_nonneg _ (by norm_num)
    have hcu : fl (22 / 10) ≤ 23 / 10 := by
      have : (22 / 10 : ℚ) * (1 / 2 ^ 53) ≤ 1 / 10 := by norm_num
      linarith
    have hp0 : 0 ≤ fl (lumaOf r g b - 180) * fl (22 / 10) := mul_nonneg hd0 hc0
    have hp1 : fl (lumaOf r g b - 180) * fl (22 / 10) ≤ 76 * (23 / 10) :=
      mul_le_mul hd1 hcu hc0 (by norm_num)
    have hps : |fl (lumaOf r g b - 180) * fl (22 / 10)| ≤ 512 := by
      rw [abs_of_nonneg hp0]
      have : (76 : ℚ) * (23 / 10) ≤ 512 := by norm_num
      linarith
    obtain ⟨a1, a2⟩ := abs_le.mp (fl_err_small _ hps)
    have ha0 : 0 ≤ fl (fl (lumaOf r g b - 180) * fl (22 / 10)) := fl_nonneg _ hp0
    have m1 : fl (lumaOf r g b - 180) * (fl (22 / 10) - 22 / 10)
        ≤ 76 * (22 / 10 * (1 / 2 ^ 53)) :=
      le_trans (mul_le_mul_of_nonneg_left c2 hd0)
        (mul_le_mul_of_nonneg_right hd1 (by positivity))
    have m2 : -(76 * (22 / 10 * (1 / 2 ^ 53)))
        ≤ fl (lumaOf r g b - 180) * (fl (22 / 10) - 22 / 10) := by
      have h1 : fl (lumaOf r g b - 180) * (-(22 / 10 * (1 / 2 ^ 53)))
          ≤ fl (lumaOf r g b - 180) * (fl (22 / 10) - 22 / 10) :=
        mul_le_mul_of_nonneg_left c1 hd0
      have h2 : fl (lumaOf r g b - 180) * (22 / 10 * (1 / 2 ^ 53))
          ≤ 76 * (22 / 10 * (1 / 2 ^ 53)) :=
        mul_le_mul_of_nonneg_right hd1 (by positivity)
      linarith
    have e3 : fl (lumaOf r g b - 180) * fl (22 / 10)
        = fl (lumaOf r g b - 180) * (22 / 10)
          + fl (lumaOf r g b - 180) * (fl (22 / 10) - 22 / 10) := by ring
    have kk : (1 : ℚ) / 2 ^ 44 + 76 * (22 / 10 * (1 / 2 ^ 53)) + 22 / 10 * (1 / 2 ^ 44)
        + 22 / 10 * (1 / 2 ^ 41) ≤ 1 / 2 ^ 30 := by norm_num
    have k30 : (1 : ℚ) / 2 ^ 30 ≤ 1 / 1000 := by norm_num
    have hmin : min (fl (fl (lumaOf r g b - 180) * fl (22 / 10))) 255
        = fl (fl (lumaOf r g b - 180) * fl (22 / 10)) := by
      apply min_eq_left
      linarith
    rw [hmin]
    refine ⟨ha0, by linarith, ?_⟩
    by_cases hL : (3 / 10 : ℚ) * r + (59 / 100) * g + (11 / 100) * b ≤ 180
    · rw [if_pos hL, sub_zero, abs_of_nonneg ha0]
      linarith
    · rw [if_neg hL, abs_le]
      constructor <;> linarith
  · rw [if_neg h]
    refine ⟨le_rfl, by norm_num, ?_⟩
    by_cases hL : (3 / 10 : ℚ) * r + (59 / 100) * g + (11 / 100) * b ≤ 180
    · rw [if_pos hL]; norm_num
    · exfalso
      have := luma_exact_gap r g b (lt_of_not_ge hL)
      apply h
      linarith

theorem cloudAlpha_mono_luma (r g b r' g' b' : ℕ) (h : lumaOf r g b ≤ lumaOf r' g' b') :
    cloudAlpha r g b ≤ cloudAlpha r' g' b' := by
  have hc0 : 0 ≤ fl (22 / 10) := fl_nonneg _ (by norm_num)
  unfold cloudAlpha
  simp only []
  by_cases h1 : lumaOf r g b > 180
  · have h2 : lumaOf r' g' b' > 180 := lt_of_lt_of_le h1 h
    rw [if_pos h1, if_pos h2]
    apply min_le_min _ le_rfl
    apply fl_mono
    apply mul_le_mul_of_nonneg_right _ hc0
    apply fl_mono
    linarith
  · rw [if_neg h1]
    by_cases h2 : lumaOf r' g' b' > 180
    · rw [if_pos h2]
      apply le_min _ (by norm_num)
      apply fl_nonneg
      exact mul_nonneg (fl_nonneg _ (by linarith)) hc0
    · rw [if_neg h2]

theorem bumpByte_near (r g b : ℕ) (hr : r ≤ 255) (hg : g ≤ 255) (hb : b ≤ 255) :
    |(toUint8Clamped (min 255 (max 0 (fl (lumaOf r g b + 25)))) : ℚ)
        - min 255 (max 0 ((3 / 10 : ℚ) * r + (59 / 100) * g + (11 / 100) * b + 25))|
      ≤ 1 / 2 := by
  obtain ⟨l1, l2⟩ := abs_le.mp (lumaOf_err r g b hr hg hb)
  obtain ⟨L0, L1⟩ := luma_exact_bounds r g b hr hg hb
  have k41 : (1 : ℚ) / 2 ^ 41 ≤ 1 := by norm_num
  have hs : |lumaOf r g b + 25| ≤ 512 := by
    rw [abs_le]; constructor <;> linarith
  obtain ⟨s1, s2⟩ := abs_le.mp (fl_err_small _ hs)
  have hx : |fl (lumaOf r g b + 25)
      - ((3 / 10 : ℚ) * r + (59 / 100) * g + (11 / 100) * b + 25)| ≤ 1 / 2 ^ 30 := by
    have kk : (1 : ℚ) / 2 ^ 44 + 1 / 2 ^ 41 ≤ 1 / 2 ^ 30 := by norm_num
    rw [abs_le]; constructor <;> linarith
  have hc := le_trans (abs_clamp_sub_le _ _) hx
  have hv := toUint8Clamped_near (min 255 (max 0 (fl (lumaOf r g b + 25))))
    (le_min (by norm_num) (le_max_left _ _)) (min_le_left _ _)
  have e : (3 / 10 : ℚ) * r + (59 / 100) * g + (11 / 100) * b
      = ((30 * r + 59 * g + 11 * b : ℕ) : ℚ) / 100 := by
    push_cast; ring
  by_cases hcap : (3 / 10 : ℚ) * r + (59 / 100) * g + (11 / 100) * b + 25 ≤ 255
  · have hE : min 255 (max 0 ((3 / 10 : ℚ) * r + (59 / 100) * g + (11 / 100) * b + 25))
        = (((30 * r + 59 * g + 11 * b + 2500 : ℕ) : ℤ) : ℚ) / (2 * (50 : ℕ)) := by
      rw [max_eq_right (by linarith), min_eq_right hcap, e]
      push_cast; ring
    rw [hE] at hc ⊢
    exact nearest_of_close _ _ 50 (by norm_num) (by norm_num) _ hv hc
  · have hE : min 255 (max 0 ((3 / 10 : ℚ) * r + (59 / 100) * g + (11 / 100) * b + 25))
        = (((25500 : ℕ) : ℤ) : ℚ) / (2 * (50 : ℕ)) := by
      rw [max_eq_right (by linarith), min_eq_left (le_of_not_ge hcap)]
      norm_num
    rw [hE] at hc ⊢
    exact nearest_of_close _ _ 50 (by norm_num) (by norm_num) _ hv hc

theorem cloudByte_near (r g b : ℕ) (hr : r ≤ 255) (hg : g ≤ 255) (hb : b ≤ 255) :
    |(toUint8Clamped (cloudAlpha r g b) : ℚ) -
        (if (3 / 10 : ℚ) * r + (59 / 100) * g + (11 / 100) * b ≤ 180 then 0
         else ((3 / 10 : ℚ) * r + (59 / 100) * g + (11 / 100) * b - 180) * (22 / 10))|
      ≤ 1 / 2 := by
  obtain ⟨a0, a1, hx⟩ := cloudAlpha_near r g b hr hg hb
  have hv := toUint8Clamped_near (cloudAlpha r g b) a0 a1
  have e : (3 / 10 : ℚ) * r + (59 / 100) * g + (11 / 100) * b
      = ((30 * r + 59 * g + 11 * b : ℕ) : ℚ) / 100 := by
    push_cast; ring
  by_cases hL : (3 / 10 : ℚ) * r + (59 / 100) * g + (11 / 100) * b ≤ 180
  · rw [if_pos hL] at hx ⊢
    have hE : (0 : ℚ) = ((0 : ℤ) : ℚ) / (2 * (250 : ℕ)) := by norm_num
    rw [hE] at hx ⊢
    exact nearest_of_close _ _ 250 (by norm_num) (by norm_num) _ hv hx
  · rw [if_neg hL] at hx ⊢
    have hE : ((3 / 10 : ℚ) * r + (59 / 100) * g + (11 / 100) * b - 180) * (22 / 10)
        = (((((30 * r + 59 * g + 11 * b : ℕ) : ℤ) - 18000) * 11 : ℤ) : ℚ) / (2 * (250 : ℕ)) := by
      rw [e]; push_cast; ring
    rw [hE] at hx ⊢
    exact nearest_of_close _ _ 250 (by norm_num) (by norm_num) _ hv hx

theorem toUint8Clamped_eq_of_close (x : ℚ) (n : ℕ) (hx0 : 0 ≤ x) (hx1 : x ≤ 255)
    (h : |x - n| < 1 / 2) : toUint8Clamped x = n := by
  obtain ⟨v1, v2⟩ := abs_le.mp (toUint8Clamped_near x hx0 hx1)
  obtain ⟨h1, h2⟩ := abs_lt.mp h
  have a : (toUint8Clamped x : ℚ) < (n : ℚ) + 1 := by linarith
  have b : (n : ℚ) < (toUint8Clamped x : ℚ) + 1 := by linarith
  have a' : toUint8Clamped x < n + 1 := by exact_mod_cast a
  have b' : n < toUint8Clamped x + 1 := by exact_mod_cast b
  omega

/-! ## Doubles at particular pixels -/

theorem fl_lit_03 : fl (3 / 10) = (5404319552844595 / 18014398509481984) := by
  have h := fl_eq_of (3 / 10) (-2) 5404319552844595 (by norm_num) (by norm_num)
    (by rw [abs_lt]; constructor <;> norm_num)
  rw [h]; norm_num

theorem fl_lit_059 : fl (59 / 100) = (5314247560297185 / 9007199254740992) := by
  have h := fl_eq_of (59 / 100) (-1) 5314247560297185 (by norm_num) (by norm_num)
    (by rw [abs_lt]; constructor <;> norm_num)
  rw [h]; norm_num

theorem fl_lit_011 : fl (11 / 100) = (7926335344172073 / 72057594037927936) := by
  have h := fl_eq_of (11 / 100) (-4) 7926335344172073 (by norm_num) (by norm_num)
    (by rw [abs_lt]; constructor <;> norm_num)
  rw [h]; norm_num

theorem fl_lit_22 : fl (22 / 10) = (2476979795053773 / 1125899906842624) := by
  have h := fl_eq_of (22 / 10) (1) 4953959590107546 (by norm_num) (by norm_num)
    (by rw [abs_lt]; constructor <;> norm_num)
  rw [h]; norm_num

theorem lumaOf_255_255_255 : lumaOf 255 255 255 = 255 := by
  have p1 : fl ((((255 : ℕ) : ℚ)) * (5404319552844595 / 18014398509481984)) = (153 / 2) := by
    have h := fl_eq_of ((((255 : ℕ) : ℚ)) * (5404319552844595 / 18014398509481984)) (6) 5383208929591296 (by norm_num) (by norm_num)
      (by rw [abs_lt]; constructor <;> norm_num)
    rw [h]; norm_num
  have p2 : fl ((((255 : ℕ) : ℚ)) * (5314247560297185 / 9007199254740992)) = (2646744390382387 / 17592186044416) := by
    have h := fl_eq_of ((((255 : ℕ) : ℚ)) * (5314247560297185 / 9007199254740992)) (7) 5293488780764774 (by norm_num) (by norm_num)
      (by rw [abs_lt]; constructor <;> norm_num)
    rw [h]; norm_num
  have p3 : fl ((((255 : ℕ) : ℚ)) * (7926335344172073 / 72057594037927936)) = (7895373096733901 / 281474976710656) := by
    have h := fl_eq_of ((((255 : ℕ) : ℚ)) * (7926335344172073 / 72057594037927936)) (4) 7895373096733901 (by norm_num) (by norm_num)
      (by rw [abs_lt]; constructor <;> norm_num)
    rw [h]; norm_num
  have s1 : fl ((153 / 2) + (2646744390382387 / 17592186044416)) = (3992546622780211 / 17592186044416) := by
    have h := fl_eq_of ((153 / 2) + (2646744390382387 / 17592186044416)) (7) 7985093245560422 (by norm_num) (by norm_num)
      (by rw [abs_lt]; constructor <;> norm_num)
    rw [h]; norm_num
  have s2 : fl ((3992546622780211 / 17592186044416) + (7895373096733901 / 281474976710656)) = 255 := by
    have h := fl_eq_of ((3992546622780211 / 17592186044416) + (7895373096733901 / 281474976710656)) (7) 8972014882652160 (by norm_num) (by norm_num)
      (by rw [abs_lt]; constructor <;> norm_num)
    rw [h]; norm_num
  unfold lumaOf
  rw [fl_lit_03, fl_lit_059, fl_lit_011, p1, p2, p3, s1, s2]

theorem cloudAlpha_255_255_255 : cloudAlpha 255 255 255 = 165 := by
  have d : fl (255 - 180) = 75 := by
    have h := fl_eq_of (255 - 180) (6) 5277655813324800 (by norm_num) (by norm_num)
      (by rw [abs_lt]; constructor <;> norm_num)
    rw [h]; norm_num
  have a : fl (75 * (2476979795053773 / 1125899906842624)) = 165 := by
    have h := fl_eq_of (75 * (2476979795053773 / 1125899906842624)) (7) 5805421394657280 (by norm_num) (by norm_num)
      (by rw [abs_lt]; constructor <;> norm_num)
    rw [h]; norm_num
  unfold cloudAlpha
  simp only []
  rw [lumaOf_255_255_255, if_pos (by norm_num), d, fl_lit_22, a]
  norm_num

/-- At `(255, 255, 255)` the luma computed is 255, the alpha computed is 165 and the
byte stored is 165. -/
theorem cloudByte_255_255_255 :
    toUint8Clamped (cloudAlpha 255 255 255) = 165 := by
  rw [cloudAlpha_255_255_255]
  exact toUint8Clamped_eq_of_close _ 165 (by norm_num) (by norm_num)
    (by rw [abs_lt]; constructor <;> norm_num)

theorem lumaOf_17_255_245 : lumaOf 17 255 245 = (6421147906211839 / 35184372088832) := by
  have p1 : fl ((((17 : ℕ) : ℚ)) * (5404319552844595 / 18014398509481984)) = (2871044762448691 / 562949953421312) := by
    have h := fl_eq_of ((((17 : ℕ) : ℚ)) * (5404319552844595 / 18014398509481984)) (2) 5742089524897382 (by norm_num) (by norm_num)
      (by rw [abs_lt]; constructor <;> norm_num)
    rw [h]; norm_num
  have p2 : fl ((((255 : ℕ) : ℚ)) * (5314247560297185 / 9007199254740992)) = (2646744390382387 / 17592186044416) := by
    have h := fl_eq_of ((((255 : ℕ) : ℚ)) * (5314247560297185 / 9007199254740992)) (7) 5293488780764774 (by norm_num) (by norm_num)
      (by rw [abs_lt]; constructor <;> norm_num)
    rw [h]; norm_num
  have p3 : fl ((((245 : ℕ) : ℚ)) * (7926335344172073 / 72057594037927936)) = (7585750622352179 / 281474976710656) := by
    have h := fl_eq_of ((((245 : ℕ) : ℚ)) * (7926335344172073 / 72057594037927936)) (4) 7585750622352179 (by norm_num) (by norm_num)
      (by rw [abs_lt]; constructor <;> norm_num)
    rw [h]; norm_num
  have s1 : fl ((2871044762448691 / 562949953421312) + (2646744390382387 / 17592186044416)) = (5472929078417817 / 35184372088832) := by
    have h := fl_eq_of ((2871044762448691 / 562949953421312) + (2646744390382387 / 17592186044416)) (7) 5472929078417817 (by norm_num) (by norm_num)
      (by rw [abs_lt]; constructor <;> norm_num)
    rw [h]; norm_num
  have s2 : fl ((5472929078417817 / 35184372088832) + (7585750622352179 / 281474976710656)) = (6421147906211839 / 35184372088832) := by
    have h := fl_eq_of ((5472929078417817 / 35184372088832) + (7585750622352179 / 281474976710656)) (7) 6421147906211839 (by norm_num) (by norm_num)
      (by rw [abs_lt]; constructor <;> norm_num)
    rw [h]; norm_num
  unfold lumaOf
  rw [fl_lit_03, fl_lit_059, fl_lit_011, p1, p2, p3, s1, s2]

theorem cloudAlpha_17_255_245 : cloudAlpha 17 255 245 = (3096224743817181 / 562949953421312) := by
  have d : fl ((6421147906211839 / 35184372088832) - 180) = (87960930222079 / 35184372088832) := by
    have h := fl_eq_of ((6421147906211839 / 35184372088832) - 180) (1) 5629499534213056 (by norm_num) (by norm_num)
      (by rw [abs_lt]; constructor <;> norm_num)
    rw [h]; norm_num
  have a : fl ((87960930222079 / 35184372088832) * (2476979795053773 / 1125899906842624)) = (3096224743817181 / 562949953421312) := by
    have h := fl_eq_of ((87960930222079 / 35184372088832) * (2476979795053773 / 1125899906842624)) (2) 6192449487634362 (by norm_num) (by norm_num)
      (by rw [abs_lt]; constructor <;> norm_num)
    rw [h]; norm_num
  unfold cloudAlpha
  simp only []
  rw [lumaOf_17_255_245, if_pos (by norm_num), d, fl_lit_22, a]
  norm_num

/-- At `(17, 255, 245)` the exact alpha is 5.5, the double computed is just below it, and
the byte stored is 5. -/
theorem cloudByte_17_255_245 :
    toUint8Clamped (cloudAlpha 17 255 245) = 5 := by
  rw [cloudAlpha_17_255_245]
  exact toUint8Clamped_eq_of_close _ 5 (by norm_num) (by norm_num)
    (by rw [abs_lt]; constructor <;> norm_num)

theorem lumaOf_18_253_253 : lumaOf 18 253 253 = (365 / 2) := by
  have p1 : fl ((((18 : ℕ) : ℚ)) * (5404319552844595 / 18014398509481984)) = (6079859496950169 / 1125899906842624) := by
    have h := fl_eq_of ((((18 : ℕ) : ℚ)) * (5404319552844595 / 18014398509481984)) (2) 6079859496950169 (by norm_num) (by norm_num)
      (by rw [abs_lt]; constructor <;> norm_num)
    rw [h]; norm_num
  have p2 : fl ((((253 : ℕ) : ℚ)) * (5314247560297185 / 9007199254740992)) = (328248201356247 / 2199023255552) := by
    have h := fl_eq_of ((((253 : ℕ) : ℚ)) * (5314247560297185 / 9007199254740992)) (7) 5251971221699952 (by norm_num) (by norm_num)
      (by rw [abs_lt]; constructor <;> norm_num)
    rw [h]; norm_num
  have p3 : fl ((((253 : ℕ) : ℚ)) * (7926335344172073 / 72057594037927936)) = (7833448601857557 / 281474976710656) := by
    have h := fl_eq_of ((((253 : ℕ) : ℚ)) * (7926335344172073 / 72057594037927936)) (4) 7833448601857557 (by norm_num) (by norm_num)
      (by rw [abs_lt]; constructor <;> norm_num)
    rw [h]; norm_num
  have s1 : fl ((6079859496950169 / 1125899906842624) + (328248201356247 / 2199023255552)) = (5441966830979645 / 35184372088832) := by
    have h := fl_eq_of ((6079859496950169 / 1125899906842624) + (328248201356247 / 2199023255552)) (7) 5441966830979645 (by norm_num) (by norm_num)
      (by rw [abs_lt]; constructor <;> norm_num)
    rw [h]; norm_num
  have s2 : fl ((5441966830979645 / 35184372088832) + (7833448601857557 / 281474976710656)) = (365 / 2) := by
    have h := fl_eq_of ((5441966830979645 / 35184372088832) + (7833448601857557 / 281474976710656)) (7) 6421147906211840 (by norm_num) (by norm_num)
      (by rw [abs_lt]; constructor <;> norm_num)
    rw [h]; norm_num
  unfold lumaOf
  rw [fl_lit_03, fl_lit_059, fl_lit_011, p1, p2, p3, s1, s2]

theorem cloudAlpha_18_253_253 : cloudAlpha 18 253 253 = (11 / 2) := by
  have d : fl ((365 / 2) - 180) = (5 / 2) := by
    have h := fl_eq_of ((365 / 2) - 180) (1) 5629499534213120 (by norm_num) (by norm_num)
      (by rw [abs_lt]; constructor <;> norm_num)
    rw [h]; norm_num
  have a : fl ((5 / 2) * (2476979795053773 / 1125899906842624)) = (11 / 2) := by
    have h := fl_eq_of_tie ((5 / 2) * (2476979795053773 / 1125899906842624)) (2) 6192449487634432 (by norm_num) (by norm_num) (by norm_num)
    rw [h]; norm_num
  unfold cloudAlpha
  simp only []
  rw [lumaOf_18_253_253, if_pos (by norm_num), d, fl_lit_22, a]
  norm_num

/-- At `(18, 253, 253)` the exact alpha is 5.5, the double computed is 5.5, and the byte
stored is 6. -/
theorem cloudByte_18_253_253 :
    toUint8Clamped (cloudAlpha 18 253 253) = 6 := by
  rw [cloudAlpha_18_253_253]
  have hf : ⌊((11 / 2) : ℚ)⌋ = 5 := by
    rw [Int.floor_eq_iff]; norm_num
  unfold toUint8Clamped
  simp only [hf]
  norm_num [Int.toNat]

theorem lumaOf_0_55_55 : lumaOf 0 55 55 = (5418393301680127 / 140737488355328) := by
  have p1 : fl ((((0 : ℕ) : ℚ)) * (5404319552844595 / 18014398509481984)) = 0 := by
    rw [show ((((0 : ℕ) : ℚ)) * (5404319552844595 / 18014398509481984) : ℚ) = 0 by norm_num]; exact fl_zero
  have p2 : fl ((((55 : ℕ) : ℚ)) * (5314247560297185 / 9007199254740992)) = (4566931497130393 / 140737488355328) := by
    have h := fl_eq_of ((((55 : ℕ) : ℚ)) * (5314247560297185 / 9007199254740992)) (5) 4566931497130393 (by norm_num) (by norm_num)
      (by rw [abs_lt]; constructor <;> norm_num)
    rw [h]; norm_num
  have p3 : fl ((((55 : ℕ) : ℚ)) * (7926335344172073 / 72057594037927936)) = (6811694436397875 / 1125899906842624) := by
    have h := fl_eq_of ((((55 : ℕ) : ℚ)) * (7926335344172073 / 72057594037927936)) (2) 6811694436397875 (by norm_num) (by norm_num)
      (by rw [abs_lt]; constructor <;> norm_num)
    rw [h]; norm_num
  have s1 : fl (0 + (4566931497130393 / 140737488355328)) = (4566931497130393 / 140737488355328) := by
    have h := fl_eq_of (0 + (4566931497130393 / 140737488355328)) (5) 4566931497130393 (by norm_num) (by norm_num)
      (by rw [abs_lt]; constructor <;> norm_num)
    rw [h]; norm_num
  have s2 : fl ((4566931497130393 / 140737488355328) + (6811694436397875 / 1125899906842624)) = (5418393301680127 / 140737488355328) := by
    have h := fl_eq_of ((4566931497130393 / 140737488355328) + (6811694436397875 / 1125899906842624)) (5) 5418393301680127 (by norm_num) (by norm_num)
      (by rw [abs_lt]; constructor <;> norm_num)
    rw [h]; norm_num
  unfold lumaOf
  rw [fl_lit_03, fl_lit_059, fl_lit_011, p1, p2, p3, s1, s2]

/-- The pixel `(0, 55, 55)`: the exact value `luma + 25` is 63.5, the double computed
is `63.49999999999999`, and the byte stored is 63. -/
theorem bumpByte_0_55_55 :
    toUint8Clamped (min 255 (max 0 (fl (lumaOf 0 55 55 + 25)))) = 63 := by
  have x : fl ((5418393301680127 / 140737488355328) + 25) = (8936830510563327 / 140737488355328) := by
    have h := fl_eq_of ((5418393301680127 / 140737488355328) + 25) (5) 8936830510563327 (by norm_num) (by norm_num)
      (by rw [abs_lt]; constructor <;> norm_num)
    rw [h]; norm_num
  rw [lumaOf_0_55_55, x]
  exact toUint8Clamped_eq_of_close _ 63 (le_min (by norm_num) (le_max_left _ _))
    (min_le_left _ _) (by rw [abs_lt]; constructor <;> norm_num)

/-! ## Texture derivation: the claims -/

/-- C1 (bump derivation): for every pixel `(r, g, b, a)` with 8-bit channels the output
pixel is `(v, v, v, 255)`, where `v` is `clamp(0.30 r + 0.59 g + 0.11 b + 25, 0, 255)` as
stored in an 8-bit channel: the byte the store makes of the value the code computes in
doubles, which is within `2^-30` of the exact clamped value, so that `v` is an integer
nearest to the exact value (within 1/2 of it). `v` lies in `[0, 255]` and the output
alpha is 255 whatever the input alpha was. -/
theorem createBumpFromDiffuse_pixel (data : List ℕ) (k r g b a : ℕ)
    (h : pixelAt data k = some (r, g, b, a)) (hr : r ≤ 255) (hg : g ≤ 255) (hb : b ≤ 255) :
    ∃ v : ℕ, pixelAt (createBumpFromDiffuse data) k = some (v, v, v, 255)
      ∧ v = toUint8Clamped (min 255 (max 0 (fl (lumaOf r g b + 25))))
      ∧ |min 255 (max 0 (fl (lumaOf r g b + 25)))
          - min 255 (max 0 ((3 / 10 : ℚ) * r + (59 / 100) * g + (11 / 100) * b + 25))|
          ≤ 1 / 2 ^ 30
      ∧ 0 ≤ v ∧ v ≤ 255
      ∧ |(v : ℚ) - min 255 (max 0 ((3 / 10 : ℚ) * r + (59 / 100) * g + (11 / 100) * b + 25))|
          ≤ 1 / 2 := by
  refine ⟨_, ?_, rfl, ?_, Nat.zero_le _, toUint8Clamped_le _, bumpByte_near r g b hr hg hb⟩
  · rw [pixelAt_createBumpFromDiffuse data k r g b a h, toUint8Clamped_255]
  · obtain ⟨l1, l2⟩ := abs_le.mp (lumaOf_err r g b hr hg hb)
    obtain ⟨L0, L1⟩ := luma_exact_bounds r g b hr hg hb
    have k41 : (1 : ℚ) / 2 ^ 41 ≤ 1 := by norm_num
    have hs : |lumaOf r g b + 25| ≤ 512 := by
      rw [abs_le]; constructor <;> linarith
    obtain ⟨s1, s2⟩ := abs_le.mp (fl_err_small _ hs)
    have kk : (1 : ℚ) / 2 ^ 44 + 1 / 2 ^ 41 ≤ 1 / 2 ^ 30 := by norm_num
    refine le_trans (abs_clamp_sub_le _ _) ?_
    rw [abs_le]; constructor <;> linarith

/-- C1, at the one-pixel buffer `[10, 20, 30, 40]`. -/
theorem createBumpFromDiffuse_pixel_witness :
    pixelAt [10, 20, 30, 40] 0 = some (10, 20, 30, 40) ∧ 10 ≤ 255 ∧ 20 ≤ 255 ∧ 30 ≤ 255 ∧
    ∃ v : ℕ, pixelAt (createBumpFromDiffuse [10, 20, 30, 40]) 0 = some (v, v, v, 255)
      ∧ |(v : ℚ) - min 255 (max 0 ((3 / 10 : ℚ) * (10 : ℕ) + (59 / 100) * (20 : ℕ)
              + (11 / 100) * (30 : ℕ) + 25))| ≤ 1 / 2 :=
  ⟨rfl, by norm_num, by norm_num, by norm_num,
    (createBumpFromDiffuse_pixel [10, 20, 30, 40] 0 10 20 30 40 rfl (by norm_num)
      (by norm_num) (by norm_num)).imp (fun _ hv => ⟨hv.1, hv.2.2.2.2.2⟩)⟩

/-- C2 (specular derivation): for every pixel `(r, g, b, a)` of the source buffer the
output pixel is `(v, v, v, 255)` with `v` exactly 200 or exactly 40, and `v = 200` if and
only if `b > g + 10` and `b > r + 10`; any pixel with the same `r, g, b`, in any buffer
at any position and with any alpha, gets the same output pixel. -/
theorem createSpecularFromDiffuse_pixel (data : List ℕ) (k r g b a : ℕ)
    (h : pixelAt data k = some (r, g, b, a)) :
    ∃ v : ℕ, pixelAt (createSpecularFromDiffuse data) k = some (v, v, v, 255)
      ∧ (v = 200 ∨ v = 40)
      ∧ (v = 200 ↔ (b > g + 10 ∧ b > r + 10))
      ∧ ∀ (data' : List ℕ) (k' a' : ℕ), pixelAt data' k' = some (r, g, b, a') →
          pixelAt (createSpecularFromDiffuse data') k' = some (v, v, v, 255) := by
  by_cases hw : b > g + 10 ∧ b > r + 10
  · have hd : (decide (b > g + 10) && decide (b > r + 10)) = true := by
      simp [hw.1, hw.2]
    refine ⟨200, ?_, Or.inl rfl, ⟨fun _ => hw, fun _ => rfl⟩, ?_⟩
    · rw [pixelAt_createSpecularFromDiffuse data k r g b a h, toUint8Clamped_255]
      simp only [hd, if_true, toUint8Clamped_200]
    · intro data' k' a' h'
      rw [pixelAt_createSpecularFromDiffuse data' k' r g b a' h', toUint8Clamped_255]
      simp only [hd, if_true, toUint8Clamped_200]
  · have hd : ¬ (decide (b > g + 10) && decide (b > r + 10)) = true := by
      simpa using hw
    refine ⟨40, ?_, Or.inr rfl, ⟨fun hv => absurd hv (by norm_num), fun hv => absurd hv hw⟩, ?_⟩
    · rw [pixelAt_createSpecularFromDiffuse data k r g b a h, toUint8Clamped_255]
      simp [hd, toUint8Clamped_40]
    · intro data' k' a' h'
      rw [pixelAt_createSpecularFromDiffuse data' k' r g b a' h', toUint8Clamped_255]
      simp [hd, toUint8Clamped_40]

/-- C2, at the second pixel of the buffer `[0, 0, 0, 0, 10, 20, 31, 7]` (water). -/
theorem createSpecularFromDiffuse_pixel_witness :
    pixelAt [0, 0, 0, 0, 10, 20, 31, 7] 1 = some (10, 20, 31, 7) ∧
    ∃ v : ℕ, pixelAt (createSpecularFromDiffuse [0, 0, 0, 0, 10, 20, 31, 7]) 1
        = some (v, v, v, 255)
      ∧ (v = 200 ∨ v = 40)
      ∧ (v = 200 ↔ (31 > 20 + 10 ∧ 31 > 10 + 10))
      ∧ ∀ (data' : List ℕ) (k' a' : ℕ), pixelAt data' k' = some (10, 20, 31, a') →
          pixelAt (createSpecularFromDiffuse data') k' = some (v, v, v, 255) :=
  ⟨rfl, createSpecularFromDiffuse_pixel [0, 0, 0, 0, 10, 20, 31, 7] 1 10 20 31 7 rfl⟩

/-- C3 fails as stated: the pixel `(181, 181, 181)` has luma 181, so
`clamp((luma - 180) * 2.2, 0, 255) = 2.2`, but the alpha byte written to the output
buffer is 2. -/
theorem createCloudTexture_alpha_not_exact :
    pixelAt (createCloudTexture [181, 181, 181, 255]) 0 = some (255, 255, 255, 2) ∧
    ((3 / 10 : ℚ) * (181 : ℕ) + (59 / 100) * (181 : ℕ) + (11 / 100) * (181 : ℕ) > 180) ∧
    ((2 : ℕ) : ℚ) ≠ max 0 (min 255 (((3 / 10 : ℚ) * (181 : ℕ) + (59 / 100) * (181 : ℕ)
        + (11 / 100) * (181 : ℕ) - 180) * (22 / 10))) := by
  refine ⟨?_, by norm_num, by norm_num⟩
  rw [pixelAt_createCloudTexture [181, 181, 181, 255] 0 181 181 181 255 rfl, toUint8Clamped_255]
  have hn := cloudByte_near 181 181 181 (by norm_num) (by norm_num) (by norm_num)
  rw [if_neg (by norm_num)] at hn
  obtain ⟨n1, n2⟩ := abs_le.mp hn
  have a1 : (toUint8Clamped (cloudAlpha 181 181 181) : ℚ) < ((3 : ℕ) : ℚ) := by
    push_cast; push_cast at n2; linarith
  have a2 : ((1 : ℕ) : ℚ) < (toUint8Clamped (cloudAlpha 181 181 181) : ℚ) := by
    push_cast; push_cast at n1; linarith
  have b1 : toUint8Clamped (cloudAlpha 181 181 181) < 3 := by exact_mod_cast a1
  have b2 : 1 < toUint8Clamped (cloudAlpha 181 181 181) := by exact_mod_cast a2
  have : toUint8Clamped (cloudAlpha 181 181 181) = 2 := by omega
  rw [this]

/-- Two pixels of the same exact luma 182.5 get different alpha bytes: the doubles differ
in the last place on either side of the half. -/
theorem cloud_equal_luma_bytes_differ :
    (3 / 10 : ℚ) * (17 : ℕ) + (59 / 100) * (255 : ℕ) + (11 / 100) * (245 : ℕ)
      = (3 / 10 : ℚ) * (18 : ℕ) + (59 / 100) * (253 : ℕ) + (11 / 100) * (253 : ℕ) ∧
    pixelAt (createCloudTexture [17, 255, 245, 255]) 0 = some (255, 255, 255, 5) ∧
    pixelAt (createCloudTexture [18, 253, 253, 255]) 0 = some (255, 255, 255, 6) := by
  refine ⟨by norm_num, ?_, ?_⟩
  · rw [pixelAt_createCloudTexture [17, 255, 245, 255] 0 17 255 245 255 rfl, toUint8Clamped_255,
      cloudByte_17_255_245]
  · rw [pixelAt_createCloudTexture [18, 253, 253, 255] 0 18 253 253 255 rfl, toUint8Clamped_255,
      cloudByte_18_253_253]

/-- C3, amended (cloud-alpha derivation): for every pixel `(r, g, b, a)` with 8-bit
channels the output RGB is `(255, 255, 255)`; with `luma = 0.30 r + 0.59 g + 0.11 b` the
output alpha is the byte the 8-bit store makes of the alpha the code computes in doubles,
and it is an integer nearest (within 1/2) to: 0 when `luma ≤ 180`, otherwise
`clamp((luma - 180) * 2.2, 0, 255)`. It is 0 whenever `luma ≤ 180`, never above 255, and
non-decreasing in luma: a pixel with strictly larger luma never gets the smaller alpha,
and neither does a pixel whose luma as computed in doubles is at least as large. -/
theorem createCloudTexture_pixel (data : List ℕ) (k r g b a : ℕ)
    (h : pixelAt data k = some (r, g, b, a)) (hr : r ≤ 255) (hg : g ≤ 255) (hb : b ≤ 255) :
    ∃ α : ℕ, pixelAt (createCloudTexture data) k = some (255, 255, 255, α)
      ∧ α = toUint8Clamped (cloudAlpha r g b)
      ∧ |(α : ℚ) -
          (if (3 / 10 : ℚ) * r + (59 / 100) * g + (11 / 100) * b ≤ 180 then 0
           else max 0 (min 255
             (((3 / 10 : ℚ) * r + (59 / 100) * g + (11 / 100) * b - 180) * (22 / 10))))|
          ≤ 1 / 2
      ∧ ((3 / 10 : ℚ) * r + (59 / 100) * g + (11 / 100) * b ≤ 180 → α = 0)
      ∧ α ≤ 255
      ∧ (∀ (data' : List ℕ) (k' r' g' b' a' : ℕ), pixelAt data' k' = some (r', g', b', a') →
          r' ≤ 255 → g' ≤ 255 → b' ≤ 255 →
          (3 / 10 : ℚ) * r + (59 / 100) * g + (11 / 100) * b
            < (3 / 10 : ℚ) * r' + (59 / 100) * g' + (11 / 100) * b' →
          ∃ α' : ℕ, pixelAt (createCloudTexture data') k' = some (255, 255, 255, α')
            ∧ α ≤ α')
      ∧ (∀ (data' : List ℕ) (k' r' g' b' a' : ℕ), pixelAt data' k' = some (r', g', b', a') →
          lumaOf r g b ≤ lumaOf r' g' b' →
          ∃ α' : ℕ, pixelAt (createCloudTexture data') k' = some (255, 255, 255, α')
            ∧ α ≤ α') := by
  obtain ⟨L0, L1⟩ := luma_exact_bounds r g b hr hg hb
  have hclamp : ∀ x : ℚ, 180 < x → x ≤ 255 →
      max 0 (min 255 ((x - 180) * (22 / 10))) = (x - 180) * (22 / 10) := by
    intro x h1 h2
    rw [min_eq_right (by linarith), max_eq_right]
    exact mul_nonneg (by linarith) (by norm_num)
  have hT : (if (3 / 10 : ℚ) * r + (59 / 100) * g + (11 / 100) * b ≤ 180 then (0 : ℚ)
           else max 0 (min 255
             (((3 / 10 : ℚ) * r + (59 / 100) * g + (11 / 100) * b - 180) * (22 / 10))))
      = (if (3 / 10 : ℚ) * r + (59 / 100) * g + (11 / 100) * b ≤ 180 then 0
         else ((3 / 10 : ℚ) * r + (59 / 100) * g + (11 / 100) * b - 180) * (22 / 10)) := by
    by_cases hL : (3 / 10 : ℚ) * r + (59 / 100) * g + (11 / 100) * b ≤ 180
    · rw [if_pos hL, if_pos hL]
    · rw [if_neg hL, if_neg hL, hclamp _ (lt_of_not_ge hL) L1]
  have hn := cloudByte_near r g b hr hg hb
  have hzero : (3 / 10 : ℚ) * r + (59 / 100) * g + (11 / 100) * b ≤ 180 →
      toUint8Clamped (cloudAlpha r g b) = 0 := by
    intro hL
    rw [if_pos hL, sub_zero] at hn
    have n2 := (abs_le.mp hn).2
    have : (toUint8Clamped (cloudAlpha r g b) : ℚ) < ((1 : ℕ) : ℚ) := by
      push_cast; linarith
    have : toUint8Clamped (cloudAlpha r g b) < 1 := by exact_mod_cast this
    omega
  refine ⟨toUint8Clamped (cloudAlpha r g b), ?_, rfl, ?_, hzero, toUint8Clamped_le _, ?_, ?_⟩
  · rw [pixelAt_createCloudTexture data k r g b a h, toUint8Clamped_255]
  · rw [hT]; exact hn
  · intro data' k' r' g' b' a' h' hr' hg' hb' hlt
    refine ⟨toUint8Clamped (cloudAlpha r' g' b'), ?_, ?_⟩
    · rw [pixelAt_createCloudTexture data' k' r' g' b' a' h', toUint8Clamped_255]
    · by_cases hL : (3 / 10 : ℚ) * r + (59 / 100) * g + (11 / 100) * b ≤ 180
      · rw [hzero hL]; exact Nat.zero_le _
      · have hL' : ¬ (3 / 10 : ℚ) * r' + (59 / 100) * g' + (11 / 100) * b' ≤ 180 := by
          intro hc
          exact hL (by linarith)
        have hn' := cloudByte_near r' g' b' hr' hg' hb'
        rw [if_neg hL] at hn
        rw [if_neg hL'] at hn'
        have n2 := (abs_le.mp hn).2
        have n1' := (abs_le.mp hn').1
        have : (toUint8Clamped (cloudAlpha r g b) : ℚ)
            < (toUint8Clamped (cloudAlpha r' g' b') : ℚ) + 1 := by linarith
        have : toUint8Clamped (cloudAlpha r g b) < toUint8Clamped (cloudAlpha r' g' b') + 1 := by
          exact_mod_cast this
        omega
  · intro data' k' r' g' b' a' h' hle
    refine ⟨toUint8Clamped (cloudAlpha r' g' b'), ?_, ?_⟩
    · rw [pixelAt_createCloudTexture data' k' r' g' b' a' h', toUint8Clamped_255]
    · exact toUint8Clamped_mono _ _ (cloudAlpha_mono_luma r g b r' g' b' hle)

/-- C3 amended, at the one-pixel buffer `[181, 181, 181, 255]`. -/
theorem createCloudTexture_pixel_witness :
    pixelAt [181, 181, 181, 255] 0 = some (181, 181, 181, 255) ∧ 181 ≤ 255 ∧
    ∃ α : ℕ, pixelAt (createCloudTexture [181, 181, 181, 255]) 0 = some (255, 255, 255, α)
      ∧ α ≤ 255 :=
  ⟨rfl, by norm_num,
    (createCloudTexture_pixel [181, 181, 181, 255] 0 181 181 181 255 rfl (by norm_num)
      (by norm_num) (by norm_num)).imp (fun _ hv => ⟨hv.1, hv.2.2.2.2.1⟩)⟩

/-! ## The `%` operator and `lerpAngle` -/

theorem MathPI_pos : 0 < MathPI := by
  unfold MathPI; norm_num

theorem jsMod_of_nonneg_of_lt (x y : ℚ) (hx : 0 ≤ x) (hxy : x < y) : jsMod x y = x := by
  have hy : 0 < y := lt_of_le_of_lt hx hxy
  have hq0 : 0 ≤ x / y := div_nonneg hx hy.le
  have hq1 : x / y < 1 := (div_lt_one hy).mpr hxy
  have hfl : ⌊x / y⌋ = 0 := Int.floor_eq_zero_iff.mpr ⟨hq0, hq1⟩
  simp [jsMod, jsTrunc, hq0, hfl]

theorem jsMod_of_neg_of_gt (x y : ℚ) (hx : x < 0) (hxy : -y < x) : jsMod x y = x := by
  have hy : 0 < y := by linarith
  have hq0 : x / y < 0 := div_neg_of_neg_of_pos hx hy
  have hq1 : -1 < x / y := by
    rw [lt_div_iff₀ hy]; linarith
  have hcl : ⌈x / y⌉ = 0 := Int.ceil_eq_zero_iff.mpr ⟨hq1, hq0.le⟩
  simp [jsMod, jsTrunc, not_le.mpr hq0, hcl]

theorem jsMod_neg_bounds (x y : ℚ) (hy : 0 < y) (hx : x < 0) :
    x ≤ jsMod x y ∧ -y < jsMod x y ∧ jsMod x y ≤ 0 := by
  have hq0 : x / y < 0 := div_neg_of_neg_of_pos hx hy
  have hk0 : ⌈x / y⌉ ≤ 0 := Int.ceil_le.mpr (by exact_mod_cast hq0.le)
  have hk0' : ((⌈x / y⌉ : ℤ) : ℚ) ≤ 0 := by exact_mod_cast hk0
  have hk1 : x / y ≤ ((⌈x / y⌉ : ℤ) : ℚ) := Int.le_ceil _
  have hk2 : ((⌈x / y⌉ : ℤ) : ℚ) < x / y + 1 := Int.ceil_lt_add_one _
  have hxy : y * (x / y) = x := by field_simp
  have e : jsMod x y = x - y * ((⌈x / y⌉ : ℤ) : ℚ) := by
    simp [jsMod, jsTrunc, not_le.mpr hq0]
  have h1 : y * ((⌈x / y⌉ : ℤ) : ℚ) ≤ 0 := mul_nonpos_of_nonneg_of_nonpos hy.le hk0'
  have h2 : x ≤ y * ((⌈x / y⌉ : ℤ) : ℚ) := by
    have := mul_le_mul_of_nonneg_left hk1 hy.le
    linarith
  have h3 : y * ((⌈x / y⌉ : ℤ) : ℚ) < x + y := by
    have := mul_lt_mul_of_pos_left hk2 hy
    have e2 : y * (x / y + 1) = x + y := by rw [mul_add, hxy, mul_one]
    linarith
  rw [e]
  refine ⟨by linarith, by linarith, by linarith⟩

theorem lerpAngle_of_small_diff (a b t : ℚ) (h1 : -(3 * MathPI) < b - a) (h2 : b - a < MathPI) :
    lerpAngle a b t = a + (b - a) * t := by
  have hp := MathPI_pos
  unfold lerpAngle
  by_cases hx : 0 ≤ b - a + MathPI
  · rw [jsMod_of_nonneg_of_lt _ _ hx (by linarith)]
    ring
  · rw [jsMod_of_neg_of_gt _ _ (lt_of_not_ge hx) (by linarith)]
    ring

/-- Below the wrap point (`b - a < π`) a blend with `0 ≤ t ≤ 1` never moves `a` away
from `b`, never past `b` to the far side by `π`, and keeps `b - a < π`. -/
theorem lerpAngle_toward (a b t : ℚ) (h : b - a < MathPI) (ht0 : 0 ≤ t) (ht1 : t ≤ 1) :
    |b - lerpAngle a b t| ≤ |b - a| ∧ b - lerpAngle a b t < MathPI := by
  have hp := MathPI_pos
  by_cases hx : 0 ≤ b - a + MathPI
  · rw [lerpAngle_of_small_diff a b t (by linarith) h]
    have e : b - (a + (b - a) * t) = (b - a) * (1 - t) := by ring
    rw [e]
    constructor
    · rw [abs_mul, abs_of_nonneg (by linarith : (0 : ℚ) ≤ 1 - t)]
      exact mul_le_of_le_one_right (abs_nonneg _) (by linarith)
    · by_cases hba : 0 ≤ b - a
      · have : (b - a) * (1 - t) ≤ (b - a) * 1 :=
          mul_le_mul_of_nonneg_left (by linarith) hba
        linarith
      · have : (b - a) * (1 - t) ≤ 0 :=
          mul_nonpos_of_nonpos_of_nonneg (by linarith) (by linarith)
        linarith
  · have hx' : b - a + MathPI < 0 := lt_of_not_ge hx
    obtain ⟨m1, _, m3⟩ := jsMod_neg_bounds (b - a + MathPI) (MathPI * 2) (by linarith) hx'
    unfold lerpAngle
    simp only []
    set d : ℚ := jsMod (b - a + MathPI) (MathPI * 2) - MathPI with hd
    have d1 : b - a ≤ d := by rw [hd]; linarith
    have d2 : d ≤ 0 := by rw [hd]; linarith
    have dt1 : d * t ≤ 0 := mul_nonpos_of_nonpos_of_nonneg d2 ht0
    have dt2 : d ≤ d * t := by
      have := mul_le_mul_of_nonpos_left ht1 d2
      linarith
    have e : b - (a + d * t) = (b - a) - d * t := by ring
    rw [e]
    have hneg : b - a - d * t ≤ 0 := by linarith
    have hba : b - a ≤ 0 := by linarith
    constructor
    · rw [abs_of_nonpos hneg, abs_of_nonpos hba]; linarith
    · linarith

/-! ## Hover frames -/

theorem animate_hover (M : MathFns) (now mf : ℚ) (s : Globe) (h : s.focusLebanon = true) :
    (animate M now false mf s).currentX = lerpAngle s.currentX lebanonTarget.x (8 / 100) ∧
    (animate M now false mf s).currentY = lerpAngle s.currentY lebanonTarget.y (8 / 100) ∧
    (animate M now false mf s).focusLebanon = true := by
  simp [animate, h]

theorem desktopFrames_snoc (M : MathFns) (mf : ℚ) (nows : List ℚ) (now : ℚ) (s : Globe) :
    desktopFrames M mf (nows ++ [now]) s = animate M now false mf (desktopFrames M mf nows s) := by
  simp [desktopFrames, List.foldl_append]

theorem desktopFrames_focus (M : MathFns) (mf : ℚ) (nows : List ℚ) (s : Globe)
    (h : s.focusLebanon = true) : (desktopFrames M mf nows s).focusLebanon = true := by
  induction nows using List.reverseRecOn with
  | nil => simpa [desktopFrames] using h
  | append_singleton nows now ih =>
    rw [desktopFrames_snoc]
    exact (animate_hover M now mf _ ih).2.2

/-- While hover is held on the desktop, frames keep `target - current < π` in both
components once it holds. -/
theorem desktopFrames_hover_below (M : MathFns) (mf : ℚ) (nows : List ℚ) (s : Globe)
    (h : s.focusLebanon = true)
    (hx : lebanonTarget.x - s.currentX < MathPI) (hy : lebanonTarget.y - s.currentY < MathPI) :
    lebanonTarget.x - (desktopFrames M mf nows s).currentX < MathPI ∧
    lebanonTarget.y - (desktopFrames M mf nows s).currentY < MathPI := by
  induction nows using List.reverseRecOn with
  | nil => simpa [desktopFrames] using And.intro hx hy
  | append_singleton nows now ih =>
    rw [desktopFrames_snoc]
    obtain ⟨ex, ey, _⟩ := animate_hover M now mf _ (desktopFrames_focus M mf nows s h)
    rw [ex, ey]
    exact ⟨(lerpAngle_toward _ _ _ ih.1 (by norm_num) (by norm_num)).2,
      (lerpAngle_toward _ _ _ ih.2 (by norm_num) (by norm_num)).2⟩

/-- While hover is held on the desktop and `target - current` starts inside `(-3π, π)`,
each frame multiplies the offset from the target by `0.92`. -/
theorem desktopFrames_hover_offset (M : MathFns) (mf : ℚ) (nows : List ℚ) (s : Globe)
    (h : s.focusLebanon = true)
    (hx1 : -(3 * MathPI) < lebanonTarget.x - s.currentX)
    (hx2 : lebanonTarget.x - s.currentX < MathPI)
    (hy1 : -(3 * MathPI) < lebanonTarget.y - s.currentY)
    (hy2 : lebanonTarget.y - s.currentY < MathPI) :
    lebanonTarget.x - (desktopFrames M mf nows s).currentX
        = (23 / 25) ^ nows.length * (lebanonTarget.x - s.currentX) ∧
    lebanonTarget.y - (desktopFrames M mf nows s).currentY
        = (23 / 25) ^ nows.length * (lebanonTarget.y - s.currentY) := by
  have hp := MathPI_pos
  have key : ∀ (d : ℚ) (n : ℕ), -(3 * MathPI) < d → d < MathPI →
      -(3 * MathPI) < (23 / 25) ^ n * d ∧ (23 / 25) ^ n * d < MathPI := by
    intro d n hd1 hd2
    have hpow0 : (0 : ℚ) ≤ (23 / 25) ^ n := by positivity
    have hpow1 : (23 / 25 : ℚ) ^ n ≤ 1 := pow_le_one₀ (by norm_num) (by norm_num)
    by_cases hd : 0 ≤ d
    · have a1 : 0 ≤ (23 / 25) ^ n * d := mul_nonneg hpow0 hd
      have a2 : (23 / 25) ^ n * d ≤ 1 * d := mul_le_mul_of_nonneg_right hpow1 hd
      constructor <;> linarith
    · have hd' : d ≤ 0 := le_of_not_ge hd
      have a1 : (23 / 25) ^ n * d ≤ 0 := mul_nonpos_of_nonneg_of_nonpos hpow0 hd'
      have a2 : 1 * d ≤ (23 / 25) ^ n * d := mul_le_mul_of_nonpos_right hpow1 hd'
      constructor <;> linarith
  induction nows using List.reverseRecOn with
  | nil => simp [desktopFrames]
  | append_singleton nows now ih =>
    rw [desktopFrames_snoc]
    obtain ⟨ex, ey, _⟩ := animate_hover M now mf _ (desktopFrames_focus M mf nows s h)
    have kx := key _ nows.length hx1 hx2
    have ky := key _ nows.length hy1 hy2
    rw [← ih.1] at kx
    rw [← ih.2] at ky
    rw [ex, ey, lerpAngle_of_small_diff _ _ _ kx.1 kx.2, lerpAngle_of_small_diff _ _ _ ky.1 ky.2]
    simp only [List.length_append, List.length_singleton, pow_succ]
    constructor
    · linear_combination (23 / 25 : ℚ) * ih.1
    · linear_combination (23 / 25 : ℚ) * ih.2

/-- For a dividend that is not negative the wrap works: the difference used by
`lerpAngle` is `b - a` less a whole number of turns and lies in `[-π, π)`. -/
theorem lerpAngle_wrapped_of_nonneg (a b t : ℚ) (h : 0 ≤ b - a + MathPI) :
    ∃ k : ℤ, lerpAngle a b t = a + (b - a - MathPI * 2 * k) * t ∧
      -MathPI ≤ b - a - MathPI * 2 * k ∧ b - a - MathPI * 2 * k < MathPI := by
  have hp := MathPI_pos
  have hy : (0 : ℚ) < MathPI * 2 := by linarith
  have hq0 : 0 ≤ (b - a + MathPI) / (MathPI * 2) := div_nonneg h hy.le
  have hlo : ((⌊(b - a + MathPI) / (MathPI * 2)⌋ : ℤ) : ℚ) ≤ (b - a + MathPI) / (MathPI * 2) :=
    Int.floor_le _
  have hhi : (b - a + MathPI) / (MathPI * 2)
      < ((⌊(b - a + MathPI) / (MathPI * 2)⌋ : ℤ) : ℚ) + 1 := Int.lt_floor_add_one _
  have hxy : MathPI * 2 * ((b - a + MathPI) / (MathPI * 2)) = b - a + MathPI := by
    field_simp
  have h1 := mul_le_mul_of_nonneg_left hlo hy.le
  have h2 := mul_lt_mul_of_pos_left hhi hy
  rw [hxy] at h1 h2
  refine ⟨⌊(b - a + MathPI) / (MathPI * 2)⌋, ?_, by linarith, by linarith⟩
  simp only [lerpAngle, jsMod, jsTrunc, hq0, if_true]
  ring

/-- From a start with `target - current ≥ π` a hover frame can move `currentY` away from
the yaw target: from `-6` it goes further below. -/
theorem lerpAngle_hover_can_move_away :
    MathPI ≤ lebanonTarget.y - (-6) ∧
    |lebanonTarget.y - (-6)| < |lebanonTarget.y - lerpAngle (-6) lebanonTarget.y (8 / 100)| := by
  have hp := MathPI_pos
  have hfl : ⌊(lebanonTarget.y - -6 + MathPI) / (MathPI * 2)⌋ = 1 := by
    rw [Int.floor_eq_iff]
    simp only [lebanonTarget, degToRad, lebanonLon, MathPI]
    norm_num
  have hq0 : 0 ≤ (lebanonTarget.y - -6 + MathPI) / (MathPI * 2) := by
    simp only [lebanonTarget, degToRad, lebanonLon, MathPI]
    norm_num
  have e : lerpAngle (-6) lebanonTarget.y (8 / 100)
      = -6 + (lebanonTarget.y + 6 - MathPI * 2) * (8 / 100) := by
    simp only [lerpAngle, jsMod, jsTrunc, hq0, if_true, hfl]
    push_cast
    ring
  rw [e]
  simp only [lebanonTarget, degToRad, lebanonLon, MathPI]
  norm_num [abs_of_nonneg, abs_of_nonpos]

theorem hover_start_offsets :
    -MathPI < lebanonTarget.x - Globe.init.currentX ∧
    lebanonTarget.x - Globe.init.currentX < MathPI ∧
    -MathPI < lebanonTarget.y - Globe.init.currentY ∧
    lebanonTarget.y - Globe.init.currentY < MathPI := by
  simp only [lebanonTarget, degToRad, lebanonLat, lebanonLon, Globe.init, MathPI]
  norm_num

theorem hover_fifty_from_load (M : MathFns) (mf : ℚ) (nows : List ℚ) (hn : nows.length = 50) :
    |(desktopFrames M mf nows (mouseenter Globe.init)).currentX - lebanonTarget.x| < 1 / 100 ∧
    339 / 10000 < |(desktopFrames M mf nows (mouseenter Globe.init)).currentY - lebanonTarget.y| ∧
    |(desktopFrames M mf nows (mouseenter Globe.init)).currentY - lebanonTarget.y| < 340 / 10000 := by
  obtain ⟨a1, a2, a3, a4⟩ := hover_start_offsets
  have hp := MathPI_pos
  have b1 : -(3 * MathPI) < lebanonTarget.x - Globe.init.currentX := by linarith
  have b3 : -(3 * MathPI) < lebanonTarget.y - Globe.init.currentY := by linarith
  obtain ⟨ox, oy⟩ := desktopFrames_hover_offset M mf nows (mouseenter Globe.init) rfl b1 a2 b3 a4
  rw [hn] at ox oy
  rw [abs_sub_comm, ox, abs_sub_comm _ lebanonTarget.y, oy]
  simp only [mouseenter, lebanonTarget, degToRad, lebanonLat, lebanonLon, Globe.init, MathPI]
  norm_num [abs_of_nonneg, abs_of_nonpos]

/-! ## Orientation controller: the claims -/

/-- C4 (the code departs from the claim): for current `a = 3.0` and target `b = -3.0` the
sum `b - a + π` is negative, `%` keeps its sign, and the difference used is `-6`: the
value is `3 - 6 t` for every `t`, moving down the longer arc; at `t = 0.08` it is `2.52`,
further than `π t` from `a`. -/
theorem lerpAngle_wrap_boundary :
    (∀ t : ℚ, lerpAngle 3 (-3) t = 3 + (-6) * t) ∧
    lerpAngle 3 (-3) (8 / 100) = 63 / 25 ∧
    MathPI * (8 / 100) < |lerpAngle 3 (-3) (8 / 100) - 3| := by
  have hp := MathPI_pos
  have hlo : -(3 * MathPI) < (-3 : ℚ) - 3 := by unfold MathPI; norm_num
  have hhi : (-3 : ℚ) - 3 < MathPI := by linarith
  have e : ∀ t : ℚ, lerpAngle 3 (-3) t = 3 + (-6) * t := by
    intro t
    rw [lerpAngle_of_small_diff 3 (-3) t hlo hhi]
    ring
  refine ⟨e, ?_, ?_⟩
  · rw [e]; norm_num
  · rw [e]; unfold MathPI; norm_num [abs_of_nonpos]

/-- C10: interpolating an angle toward itself returns it, for every blend factor. -/
theorem lerpAngle_self (a t : ℚ) : lerpAngle a a t = a := by
  have hp := MathPI_pos
  rw [lerpAngle_of_small_diff a a t (by linarith) (by linarith)]
  ring

/-- C6 fails as stated: from the page-load orientation `(0, 0)`, after hover-enter and
50 desktop frames, `currentY` is more than 0.01 rad from the yaw target. -/
theorem hover_fifty_yaw_not_within_tolerance :
    ¬ |(desktopFrames { sin := fun _ => 0, cos := fun _ => 1 } 0 (List.replicate 50 0)
          (mouseenter Globe.init)).currentY - lebanonTarget.y| < 1 / 100 := by
  have h := (hover_fifty_from_load { sin := fun _ => 0, cos := fun _ => 1 } 0
    (List.replicate 50 0) (by simp)).2.1
  intro hlt
  linarith

/-- C6, amended: on the desktop, after hover-enter from a state with
`-π < target - current < π` in both components, every further frame with hover held
leaves the distance of `currentX` and of `currentY` from its target no larger than
before and keeps both offsets inside `(-π, π)`; each frame multiplies both offsets by
`0.92`, so after 50 frames each distance is `0.92^50` (below 0.0155) times the distance
at hover-enter. From the page-load orientation `(0, 0)`, with the target from latitude
33.8547 and longitude 35.8623, after 50 frames the pitch is within 0.01 rad of its
target and the yaw is between 0.0339 and 0.0340 rad from its target. -/
theorem hover_convergence (M : MathFns) (mf : ℚ) (s0 : Globe) (nows : List ℚ) (now : ℚ)
    (hx1 : -MathPI < lebanonTarget.x - s0.currentX)
    (hx : lebanonTarget.x - s0.currentX < MathPI)
    (hy1 : -MathPI < lebanonTarget.y - s0.currentY)
    (hy : lebanonTarget.y - s0.currentY < MathPI) :
    (|lebanonTarget.x - (desktopFrames M mf (nows ++ [now]) (mouseenter s0)).currentX|
        ≤ |lebanonTarget.x - (desktopFrames M mf nows (mouseenter s0)).currentX| ∧
     |lebanonTarget.y - (desktopFrames M mf (nows ++ [now]) (mouseenter s0)).currentY|
        ≤ |lebanonTarget.y - (desktopFrames M mf nows (mouseenter s0)).currentY|) ∧
    (|lebanonTarget.x - (desktopFrames M mf nows (mouseenter s0)).currentX| < MathPI ∧
     |lebanonTarget.y - (desktopFrames M mf nows (mouseenter s0)).currentY| < MathPI) ∧
    lebanonTarget.x - (desktopFrames M mf nows (mouseenter s0)).currentX
        = (92 / 100) ^ nows.length * (lebanonTarget.x - s0.currentX) ∧
    lebanonTarget.y - (desktopFrames M mf nows (mouseenter s0)).currentY
        = (92 / 100) ^ nows.length * (lebanonTarget.y - s0.currentY) ∧
    (nows.length = 50 →
      |lebanonTarget.x - (desktopFrames M mf nows (mouseenter s0)).currentX|
          ≤ (155 / 10000) * |lebanonTarget.x - s0.currentX| ∧
      |lebanonTarget.y - (desktopFrames M mf nows (mouseenter s0)).currentY|
          ≤ (155 / 10000) * |lebanonTarget.y - s0.currentY|) ∧
    (nows.length = 50 →
      |(desktopFrames M mf nows (mouseenter Globe.init)).currentX - lebanonTarget.x| < 1 / 100 ∧
      339 / 10000
        < |(desktopFrames M mf nows (mouseenter Globe.init)).currentY - lebanonTarget.y| ∧
      |(desktopFrames M mf nows (mouseenter Globe.init)).currentY - lebanonTarget.y|
        < 340 / 10000) := by
  have hp := MathPI_pos
  have hf : (mouseenter s0).focusLebanon = true := rfl
  have hx3 : -(3 * MathPI) < lebanonTarget.x - s0.currentX := by linarith
  have hy3 : -(3 * MathPI) < lebanonTarget.y - s0.currentY := by linarith
  obtain ⟨ox, oy⟩ := desktopFrames_hover_offset M mf nows (mouseenter s0) hf hx3 hx hy3 hy
  have e : (92 / 100 : ℚ) = 23 / 25 := by norm_num
  have hpow0 : (0 : ℚ) ≤ (23 / 25) ^ nows.length := by positivity
  have hpow1 : (23 / 25 : ℚ) ^ nows.length ≤ 1 := pow_le_one₀ (by norm_num) (by norm_num)
  have hin : ∀ d : ℚ, -MathPI < d → d < MathPI → |(23 / 25 : ℚ) ^ nows.length * d| < MathPI := by
    intro d h1 h2
    rw [abs_mul, abs_of_nonneg hpow0]
    have hd : |d| < MathPI := abs_lt.mpr ⟨h1, h2⟩
    calc (23 / 25 : ℚ) ^ nows.length * |d| ≤ 1 * |d| :=
          mul_le_mul_of_nonneg_right hpow1 (abs_nonneg d)
      _ = |d| := one_mul _
      _ < MathPI := hd
  refine ⟨?_, ⟨?_, ?_⟩, by rw [e]; exact ox, by rw [e]; exact oy, ?_,
    hover_fifty_from_load M mf nows⟩
  · obtain ⟨bx, by_⟩ := desktopFrames_hover_below M mf nows (mouseenter s0) hf hx hy
    rw [desktopFrames_snoc]
    obtain ⟨ex, ey, _⟩ := animate_hover M now mf _ (desktopFrames_focus M mf nows _ hf)
    rw [ex, ey]
    exact ⟨(lerpAngle_toward _ _ _ bx (by norm_num) (by norm_num)).1,
      (lerpAngle_toward _ _ _ by_ (by norm_num) (by norm_num)).1⟩
  · rw [ox]
    exact hin _ hx1 hx
  · rw [oy]
    exact hin _ hy1 hy
  · intro hn
    have hpow : (23 / 25 : ℚ) ^ 50 ≤ 155 / 10000 := by norm_num
    rw [ox, oy, hn, abs_mul, abs_mul, abs_of_nonneg (by positivity : (0 : ℚ) ≤ (23 / 25) ^ 50)]
    exact ⟨mul_le_mul_of_nonneg_right hpow (abs_nonneg _),
      mul_le_mul_of_nonneg_right hpow (abs_nonneg _)⟩

/-- C6 amended, at the page-load state with one frame already elapsed and one more. -/
theorem hover_convergence_witness :
    -MathPI < lebanonTarget.x - Globe.init.currentX ∧
    lebanonTarget.x - Globe.init.currentX < MathPI ∧
    -MathPI < lebanonTarget.y - Globe.init.currentY ∧
    lebanonTarget.y - Globe.init.currentY < MathPI ∧
    |lebanonTarget.y - (desktopFrames { sin := fun _ => 0, cos := fun _ => 1 } 0 ([0] ++ [16])
        (mouseenter Globe.init)).currentY|
      ≤ |lebanonTarget.y - (desktopFrames { sin := fun _ => 0, cos := fun _ => 1 } 0 [0]
        (mouseenter Globe.init)).currentY| :=
  ⟨hover_start_offsets.1, hover_start_offsets.2.1, hover_start_offsets.2.2.1,
    hover_start_offsets.2.2.2,
    (hover_convergence { sin := fun _ => 0, cos := fun _ => 1 } 0 Globe.init [0] 16
      hover_start_offsets.1 hover_start_offsets.2.1 hover_start_offsets.2.2.1
      hover_start_offsets.2.2.2).1.2⟩

/-! ## Scroll event coalescing -/

theorem Sched.inv_step (s : Sched) (e : Event) (h : s.Inv) : (s.step e).Inv := by
  obtain ⟨ticking, pending, runs⟩ := s
  obtain ⟨h1, h2⟩ := h
  simp only at h1 h2
  cases e with
  | scroll =>
    cases ticking with
    | true => simpa [Sched.step, onScroll, Sched.Inv] using And.intro h1 h2
    | false =>
      have hp : pending = 0 := by
        rcases Nat.le_one_iff_eq_zero_or_eq_one.mp h1 with h0 | h0
        · exact h0
        · exact absurd (h2.mp h0) (by simp)
      subst hp
      simp [Sched.step, onScroll, Sched.Inv]
  | resize => simpa [Sched.step, onResize, Sched.Inv] using And.intro h1 h2
  | frame =>
    rcases Nat.le_one_iff_eq_zero_or_eq_one.mp h1 with h0 | h0
    · subst h0
      have ht : ticking = false := by
        cases ticking with
        | false => rfl
        | true => exact absurd (h2.mpr rfl) (by simp)
      subst ht
      simp [Sched.step, onFrame, Sched.Inv]
    · subst h0
      simp [Sched.step, onFrame, scrollCallback, Sched.Inv]

theorem Sched.inv_run (s : Sched) (es : List Event) (h : s.Inv) : (s.run es).Inv := by
  induction es generalizing s with
  | nil => simpa [Sched.run] using h
  | cons e es ih =>
    have := ih (s.step e) (Sched.inv_step s e h)
    simpa [Sched.run] using this

theorem Sched.run_append (s : Sched) (es fs : List Event) :
    s.run (es ++ fs) = (s.run es).run fs := by
  simp [Sched.run, List.foldl_append]

theorem Sched.run_scrolls (s : Sched) (h : s.Inv) (N : ℕ) :
    s.run (List.replicate (N + 1) Event.scroll)
      = { scrollTicking := true, pending := 1, runs := s.runs } := by
  induction N with
  | zero =>
    obtain ⟨ticking, pending, runs⟩ := s
    obtain ⟨h1, h2⟩ := h
    simp only at h1 h2
    cases ticking with
    | true =>
      have hp : pending = 1 := h2.mpr rfl
      subst hp
      simp [Sched.run, Sched.step, onScroll]
    | false =>
      have hp : pending = 0 := by
        rcases Nat.le_one_iff_eq_zero_or_eq_one.mp h1 with h0 | h0
        · exact h0
        · exact absurd (h2.mp h0) (by simp)
      subst hp
      simp [Sched.run, Sched.step, onScroll]
  | succ N ih =>
    have e : List.replicate (N + 1 + 1) Event.scroll
        = List.replicate (N + 1) Event.scroll ++ [Event.scroll] := by
      rw [List.replicate_succ' (N + 1)]
    rw [e, Sched.run_append, ih]
    simp [Sched.run, Sched.step, onScroll]

theorem LegacySched.legacy_inv_step (s : LegacySched) (e : LegacyEvent) (h : s.Inv) :
    (s.step e).Inv := by
  obtain ⟨ticking, pending, runs⟩ := s
  obtain ⟨h1, h2⟩ := h
  simp only at h1 h2
  cases e with
  | scroll =>
    cases ticking with
    | true => simpa [LegacySched.step, legacyOnScroll, LegacySched.Inv] using And.intro h1 h2
    | false =>
      have hp : pending = 0 := by
        rcases Nat.le_one_iff_eq_zero_or_eq_one.mp h1 with h0 | h0
        · exact h0
        · exact absurd (h2.mp h0) (by simp)
      subst hp
      simp [LegacySched.step, legacyOnScroll, LegacySched.Inv]
  | frame =>
    rcases Nat.le_one_iff_eq_zero_or_eq_one.mp h1 with h0 | h0
    · subst h0
      have ht : ticking = false := by
        cases ticking with
        | false => rfl
        | true => exact absurd (h2.mpr rfl) (by simp)
      subst ht
      simp [LegacySched.step, legacyOnFrame, LegacySched.Inv]
    · subst h0
      simp [LegacySched.step, legacyOnFrame, legacyCallback, LegacySched.Inv]

theorem LegacySched.legacy_inv_run (s : LegacySched) (es : List LegacyEvent) (h : s.Inv) :
    (s.run es).Inv := by
  induction es generalizing s with
  | nil => simpa [LegacySched.run] using h
  | cons e es ih =>
    have := ih (s.step e) (LegacySched.legacy_inv_step s e h)
    simpa [LegacySched.run] using this

theorem LegacySched.legacy_run_append (s : LegacySched) (es fs : List LegacyEvent) :
    s.run (es ++ fs) = (s.run es).run fs := by
  simp [LegacySched.run, List.foldl_append]

theorem LegacySched.legacy_run_scrolls (s : LegacySched) (h : s.Inv) (N : ℕ) :
    s.run (List.replicate (N + 1) LegacyEvent.scroll)
      = { starTicking := true, pending := 1, runs := s.runs } := by
  induction N with
  | zero =>
    obtain ⟨ticking, pending, runs⟩ := s
    obtain ⟨h1, h2⟩ := h
    simp only at h1 h2
    cases ticking with
    | true =>
      have hp : pending = 1 := h2.mpr rfl
      subst hp
      simp [LegacySched.run, LegacySched.step, legacyOnScroll]
    | false =>
      have hp : pending = 0 := by
        rcases Nat.le_one_iff_eq_zero_or_eq_one.mp h1 with h0 | h0
        · exact h0
        · exact absurd (h2.mp h0) (by simp)
      subst hp
      simp [LegacySched.run, LegacySched.step, legacyOnScroll]
  | succ N ih =>
    have e : List.replicate (N + 1 + 1) LegacyEvent.scroll
        = List.replicate (N + 1) LegacyEvent.scroll ++ [LegacyEvent.scroll] := by
      rw [List.replicate_succ' (N + 1)]
    rw [e, LegacySched.legacy_run_append, ih]
    simp [LegacySched.run, LegacySched.step, legacyOnScroll]

/-- C5 (scroll coalescing): in every state `s` reached from page load by any sequence of
scroll, resize and frame events, at most one recomputation is pending, and one is
pending exactly when `scrollTicking` is set; `N + 1` scroll events delivered from `s`
run no recomputation themselves, the next frame runs `updateScrollEffects` exactly once
and leaves nothing pending with the flag clear, and a further frame runs nothing. The
legacy scheduler (`starTicking`) behaves the same way. -/
theorem scroll_coalescing (es : List Event) (ls : List LegacyEvent) (N : ℕ) :
    ((Sched.init.run es).pending ≤ 1 ∧
      ((Sched.init.run es).pending = 1 ↔ (Sched.init.run es).scrollTicking = true)) ∧
    ((Sched.init.run es).run (List.replicate (N + 1) Event.scroll)).runs
        = (Sched.init.run es).runs ∧
    ((Sched.init.run es).run (List.replicate (N + 1) Event.scroll ++ [Event.frame]))
        = { scrollTicking := false, pending := 0, runs := (Sched.init.run es).runs + 1 } ∧
    ((Sched.init.run es).run
        (List.replicate (N + 1) Event.scroll ++ [Event.frame, Event.frame])).runs
        = (Sched.init.run es).runs + 1 ∧
    ((LegacySched.init.run ls).pending ≤ 1 ∧
      ((LegacySched.init.run ls).pending = 1 ↔ (LegacySched.init.run ls).starTicking = true)) ∧
    ((LegacySched.init.run ls).run (List.replicate (N + 1) LegacyEvent.scroll)).runs
        = (LegacySched.init.run ls).runs ∧
    ((LegacySched.init.run ls).run
        (List.replicate (N + 1) LegacyEvent.scroll ++ [LegacyEvent.frame]))
        = { starTicking := false, pending := 0, runs := (LegacySched.init.run ls).runs + 1 } ∧
    ((LegacySched.init.run ls).run
        (List.replicate (N + 1) LegacyEvent.scroll ++ [LegacyEvent.frame, LegacyEvent.frame])).runs
        = (LegacySched.init.run ls).runs + 1 := by
  have hi : Sched.init.Inv := by simp [Sched.Inv, Sched.init]
  have hli : LegacySched.init.Inv := by simp [LegacySched.Inv, LegacySched.init]
  have hs := Sched.inv_run Sched.init es hi
  have hl := LegacySched.legacy_inv_run LegacySched.init ls hli
  refine ⟨hs, ?_, ?_, ?_, hl, ?_, ?_, ?_⟩
  · rw [Sched.run_scrolls _ hs]
  · rw [Sched.run_append, Sched.run_scrolls _ hs]
    simp [Sched.run, Sched.step, onFrame, scrollCallback]
  · rw [Sched.run_append, Sched.run_scrolls _ hs]
    simp [Sched.run, Sched.step, onFrame, scrollCallback]
  · rw [LegacySched.legacy_run_scrolls _ hl]
  · rw [LegacySched.legacy_run_append, LegacySched.legacy_run_scrolls _ hl]
    simp [LegacySched.run, LegacySched.step, legacyOnFrame, legacyCallback]
  · rw [LegacySched.legacy_run_append, LegacySched.legacy_run_scrolls _ hl]
    simp [LegacySched.run, LegacySched.step, legacyOnFrame, legacyCallback]

/-! ## Scroll effects: which block writes which style -/

theorem progressBlock_keeps (p : Page) (st : Styles) :
    (progressBlock p st).starShift = st.starShift ∧
    (progressBlock p st).starShiftSlow = st.starShiftSlow ∧
    (progressBlock p st).starShiftFast = st.starShiftFast ∧
    (progressBlock p st).wordDelay = st.wordDelay := by
  unfold progressBlock
  split_ifs <;> exact ⟨rfl, rfl, rfl, rfl⟩

theorem heroBlock_keeps (p : Page) (st : Styles) :
    (heroBlock p st).starShift = st.starShift ∧
    (heroBlock p st).starShiftSlow = st.starShiftSlow ∧
    (heroBlock p st).starShiftFast = st.starShiftFast ∧
    (heroBlock p st).progressScaleX = st.progressScaleX ∧
    (heroBlock p st).wordDelay = st.wordDelay := by
  unfold heroBlock
  split
  · split_ifs <;> exact ⟨rfl, rfl, rfl, rfl, rfl⟩
  · exact ⟨rfl, rfl, rfl, rfl, rfl⟩

theorem revealBlock_keeps (p : Page) (st : Styles) :
    (revealBlock p st).starShift = st.starShift ∧
    (revealBlock p st).starShiftSlow = st.starShiftSlow ∧
    (revealBlock p st).starShiftFast = st.starShiftFast ∧
    (revealBlock p st).progressScaleX = st.progressScaleX ∧
    (revealBlock p st).layerShift = st.layerShift ∧
    (revealBlock p st).parallax = st.parallax ∧
    (revealBlock p st).wordDelay = st.wordDelay := by
  unfold revealBlock
  split_ifs <;> exact ⟨rfl, rfl, rfl, rfl, rfl, rfl, rfl⟩

theorem orbBlock_keeps (M : MathFns) (p : Page) (st : Styles) :
    (orbBlock M p st).starShift = st.starShift ∧
    (orbBlock M p st).starShiftSlow = st.starShiftSlow ∧
    (orbBlock M p st).starShiftFast = st.starShiftFast ∧
    (orbBlock M p st).progressScaleX = st.progressScaleX ∧
    (orbBlock M p st).layerShift = st.layerShift ∧
    (orbBlock M p st).parallax = st.parallax ∧
    (orbBlock M p st).scrollParallax = st.scrollParallax ∧
    (orbBlock M p st).wordDelay = st.wordDelay := by
  unfold orbBlock
  split_ifs <;> exact ⟨rfl, rfl, rfl, rfl, rfl, rfl, rfl, rfl⟩

theorem wordBlock_keeps (p : Page) (applied : Bool) (st : Styles) :
    (wordBlock p applied st).2.starShift = st.starShift ∧
    (wordBlock p applied st).2.starShiftSlow = st.starShiftSlow ∧
    (wordBlock p applied st).2.starShiftFast = st.starShiftFast ∧
    (wordBlock p applied st).2.progressScaleX = st.progressScaleX ∧
    (wordBlock p applied st).2.layerShift = st.layerShift ∧
    (wordBlock p applied st).2.parallax = st.parallax ∧
    (wordBlock p applied st).2.scrollParallax = st.scrollParallax ∧
    (wordBlock p applied st).2.orbX = st.orbX ∧
    (wordBlock p applied st).2.orbY = st.orbY := by
  unfold wordBlock
  simp only []
  split_ifs <;> exact ⟨rfl, rfl, rfl, rfl, rfl, rfl, rfl, rfl, rfl⟩

theorem updateScrollEffects_starShift (M : MathFns) (p : Page) (s : ScrollState) :
    (updateScrollEffects M p s).styles.starShift = (starfieldBlock p s.styles).starShift ∧
    (updateScrollEffects M p s).styles.starShiftSlow = (starfieldBlock p s.styles).starShiftSlow ∧
    (updateScrollEffects M p s).styles.starShiftFast
      = (starfieldBlock p s.styles).starShiftFast := by
  unfold updateScrollEffects
  simp only []
  refine ⟨?_, ?_, ?_⟩
  · rw [(wordBlock_keeps _ _ _).1, (orbBlock_keeps _ _ _).1, (revealBlock_keeps _ _).1,
      (heroBlock_keeps _ _).1, (progressBlock_keeps _ _).1]
  · rw [(wordBlock_keeps _ _ _).2.1, (orbBlock_keeps _ _ _).2.1, (revealBlock_keeps _ _).2.1,
      (heroBlock_keeps _ _).2.1, (progressBlock_keeps _ _).2.1]
  · rw [(wordBlock_keeps _ _ _).2.2.1, (orbBlock_keeps _ _ _).2.2.1,
      (revealBlock_keeps _ _).2.2.1, (heroBlock_keeps _ _).2.2.1, (progressBlock_keeps _ _).2.2.1]

theorem updateScrollEffects_progressScaleX (M : MathFns) (p : Page) (s : ScrollState) :
    (updateScrollEffects M p s).styles.progressScaleX
      = (progressBlock p (starfieldBlock p s.styles)).progressScaleX := by
  unfold updateScrollEffects
  simp only []
  rw [(wordBlock_keeps _ _ _).2.2.2.1, (orbBlock_keeps _ _ _).2.2.2.1,
    (revealBlock_keeps _ _).2.2.2.1, (heroBlock_keeps _ _).2.2.2.1]

theorem updateScrollEffects_hero (M : MathFns) (p : Page) (s : ScrollState) :
    (updateScrollEffects M p s).styles.layerShift
      = (heroBlock p (progressBlock p (starfieldBlock p s.styles))).layerShift ∧
    (updateScrollEffects M p s).styles.parallax
      = (heroBlock p (progressBlock p (starfieldBlock p s.styles))).parallax := by
  unfold updateScrollEffects
  simp only []
  refine ⟨?_, ?_⟩
  · rw [(wordBlock_keeps _ _ _).2.2.2.2.1, (orbBlock_keeps _ _ _).2.2.2.2.1,
      (revealBlock_keeps _ _).2.2.2.2.1]
  · rw [(wordBlock_keeps _ _ _).2.2.2.2.2.1, (orbBlock_keeps _ _ _).2.2.2.2.2.1,
      (revealBlock_keeps _ _).2.2.2.2.2.1]

theorem updateScrollEffects_scrollParallax (M : MathFns) (p : Page) (s : ScrollState) :
    (updateScrollEffects M p s).styles.scrollParallax
      = (revealBlock p (heroBlock p (progressBlock p (starfieldBlock p s.styles)))).scrollParallax := by
  unfold updateScrollEffects
  simp only []
  rw [(wordBlock_keeps _ _ _).2.2.2.2.2.2.1, (orbBlock_keeps _ _ _).2.2.2.2.2.2.1]

theorem updateScrollEffects_orbs (M : MathFns) (p : Page) (s : ScrollState) :
    (updateScrollEffects M p s).styles.orbX
      = (orbBlock M p (revealBlock p (heroBlock p (progressBlock p
          (starfieldBlock p s.styles))))).orbX ∧
    (updateScrollEffects M p s).styles.orbY
      = (orbBlock M p (revealBlock p (heroBlock p (progressBlock p
          (starfieldBlock p s.styles))))).orbY := by
  unfold updateScrollEffects
  simp only []
  exact ⟨(wordBlock_keeps _ _ _).2.2.2.2.2.2.2.1, (wordBlock_keeps _ _ _).2.2.2.2.2.2.2.2⟩

theorem starfieldBlock_on (p : Page) (st : Styles) (h : p.starfield = true) :
    (starfieldBlock p st).starShift
      = some (min (scrollTopOf p * (if p.mobile then 22 / 100 else 16 / 100))
          (if p.mobile then 200 else 140)) ∧
    (starfieldBlock p st).starShiftSlow
      = some (min (scrollTopOf p * (if p.mobile then 22 / 100 else 16 / 100) * (1 / 2))
          (if p.mobile then 120 else 90)) ∧
    (starfieldBlock p st).starShiftFast
      = some (min (scrollTopOf p * (if p.mobile then 22 / 100 else 16 / 100) * (105 / 100))
          (if p.mobile then 240 else 160)) := by
  unfold starfieldBlock
  rw [if_pos h]
  exact ⟨rfl, rfl, rfl⟩

theorem heroBlock_reducedMotion (p : Page) (st : Styles) (h : p.prefersReducedMotion = true) :
    (heroBlock p st).layerShift = p.heroLayers.map (fun _ => some 0) ∧
    (heroBlock p st).parallax = (if p.heroGlobe then some 0 else st.parallax) := by
  unfold heroBlock
  split
  · rw [if_neg (by simp [h])]
    exact ⟨rfl, rfl⟩
  · exact ⟨rfl, rfl⟩

theorem revealBlock_reducedMotion (p : Page) (st : Styles) (h : p.prefersReducedMotion = true)
    (hne : p.parallaxEls ≠ []) :
    (revealBlock p st).scrollParallax = p.parallaxEls.map (fun _ => some 0) := by
  unfold revealBlock
  rw [if_pos (by simpa using hne), if_neg (by simp [h])]

theorem orbBlock_reducedMotion (M : MathFns) (p : Page) (st : Styles)
    (h : p.prefersReducedMotion = true) (hne : p.orbs ≠ []) :
    (orbBlock M p st).orbX = p.orbs.map (fun _ => some 0) ∧
    (orbBlock M p st).orbY = p.orbs.map (fun _ => some 0) := by
  unfold orbBlock
  rw [if_pos (by simpa using hne), if_neg (by simp [h])]
  exact ⟨rfl, rfl⟩

theorem wordBlock_reducedMotion (p : Page) (applied : Bool) (st : Styles)
    (h : p.prefersReducedMotion = true) :
    (wordBlock p applied st).1 = false ∧
    (wordBlock p applied st).2.renderWordsAuto = false ∧
    (wordBlock p applied st).2.wordDelay
      = (if applied then List.replicate p.heroWordInners none else st.wordDelay) := by
  unfold wordBlock
  simp only [h, Bool.not_true, Bool.and_false]
  cases applied <;> simp

/-- Under reduced motion every call of `updateScrollEffects` writes 0 to each hero layer
shift, to the globe parallax, to each reveal offset and to each orb drift, and leaves
the word stagger unassigned. -/
theorem updateScrollEffects_reducedMotion (M : MathFns) (p : Page) (s : ScrollState)
    (h : p.prefersReducedMotion = true) :
    (updateScrollEffects M p s).styles.layerShift = p.heroLayers.map (fun _ => some 0) ∧
    (p.heroGlobe = true → (updateScrollEffects M p s).styles.parallax = some 0) ∧
    (p.parallaxEls ≠ [] →
      (updateScrollEffects M p s).styles.scrollParallax = p.parallaxEls.map (fun _ => some 0)) ∧
    (p.orbs ≠ [] →
      (updateScrollEffects M p s).styles.orbX = p.orbs.map (fun _ => some 0) ∧
      (updateScrollEffects M p s).styles.orbY = p.orbs.map (fun _ => some 0)) ∧
    (updateScrollEffects M p s).autoRenderApplied = false ∧
    (updateScrollEffects M p s).styles.renderWordsAuto = false ∧
    (updateScrollEffects M p s).styles.wordDelay
      = (if s.autoRenderApplied then List.replicate p.heroWordInners none
         else s.styles.wordDelay) := by
  refine ⟨?_, ?_, ?_, ?_, ?_, ?_, ?_⟩
  · rw [(updateScrollEffects_hero M p s).1]
    exact (heroBlock_reducedMotion p _ h).1
  · intro hg
    rw [(updateScrollEffects_hero M p s).2, (heroBlock_reducedMotion p _ h).2, if_pos hg]
  · intro hne
    rw [updateScrollEffects_scrollParallax]
    exact revealBlock_reducedMotion p _ h hne
  · intro hne
    rw [(updateScrollEffects_orbs M p s).1, (updateScrollEffects_orbs M p s).2]
    exact orbBlock_reducedMotion M p _ h hne
  · exact (wordBlock_reducedMotion p _ _ h).1
  · exact (wordBlock_reducedMotion p _ _ h).2.1
  · unfold updateScrollEffects
    simp only []
    rw [(wordBlock_reducedMotion p _ _ h).2.2, (orbBlock_keeps _ _ _).2.2.2.2.2.2.2,
      (revealBlock_keeps _ _).2.2.2.2.2.2, (heroBlock_keeps _ _).2.2.2.2,
      (progressBlock_keeps _ _).2.2.2]
    have : (starfieldBlock p s.styles).wordDelay = s.styles.wordDelay := by
      unfold starfieldBlock; split_ifs <;> rfl
    rw [this]

/-! ## Scroll effects: the claims -/

theorem updateScrollEffects_mobileFocus (M : MathFns) (p : Page) (s : ScrollState) :
    (updateScrollEffects M p s).mobileFocus = mobileFocusOf p := rfl

theorem smoothstep_bounds (x : ℚ) (h0 : 0 ≤ x) (h1 : x ≤ 1) :
    0 ≤ x * x * (3 - 2 * x) ∧ x * x * (3 - 2 * x) ≤ 1 := by
  constructor
  · have : 0 ≤ x * x := mul_nonneg h0 h0
    exact mul_nonneg this (by linarith)
  · nlinarith [mul_nonneg h0 h0, mul_nonneg (sub_nonneg.mpr h1) (sub_nonneg.mpr h1),
      mul_nonneg (mul_nonneg (sub_nonneg.mpr h1) (sub_nonneg.mpr h1)) h0]

/-- C7 (mobile focus scalar): with a hero element `h` whose scroll window is non-empty
(`start = heroTop - 0.3 * viewportHeight < end = heroTop + 0.6 * heroHeight`), on the
touch/narrow device class the scalar set by `updateScrollEffects` is
`min(1, 1.15 * smoothstep(clamp((scrollTop - start) / (end - start), 0, 1)))`, lies in
`[0, 1]`, and is exactly 1 whenever `scrollTop ≥ end`; on the other device class, or
with no hero element, it is 0. -/
theorem mobileFocus_scalar (M : MathFns) (p : Page) (s : ScrollState) (h : HeroSection)
    (hwin : h.offsetTop - p.innerHeight * (3 / 10) < h.offsetTop + h.offsetHeight * (6 / 10)) :
    (updateScrollEffects M { p with mobile := true, heroSection := some h } s).mobileFocus
      = min 1 ((115 / 100) *
          ((min 1 (max 0 ((scrollTopOf p - (h.offsetTop - p.innerHeight * (3 / 10)))
              / ((h.offsetTop + h.offsetHeight * (6 / 10))
                  - (h.offsetTop - p.innerHeight * (3 / 10))))))
           * (min 1 (max 0 ((scrollTopOf p - (h.offsetTop - p.innerHeight * (3 / 10)))
              / ((h.offsetTop + h.offsetHeight * (6 / 10))
                  - (h.offsetTop - p.innerHeight * (3 / 10))))))
           * (3 - 2 * (min 1 (max 0 ((scrollTopOf p - (h.offsetTop - p.innerHeight * (3 / 10)))
              / ((h.offsetTop + h.offsetHeight * (6 / 10))
                  - (h.offsetTop - p.innerHeight * (3 / 10))))))))) ∧
    0 ≤ (updateScrollEffects M { p with mobile := true, heroSection := some h } s).mobileFocus ∧
    (updateScrollEffects M { p with mobile := true, heroSection := some h } s).mobileFocus ≤ 1 ∧
    (h.offsetTop + h.offsetHeight * (6 / 10) ≤ scrollTopOf p →
      (updateScrollEffects M { p with mobile := true, heroSection := some h } s).mobileFocus = 1) ∧
    (updateScrollEffects M { p with mobile := false } s).mobileFocus = 0 ∧
    (updateScrollEffects M { p with heroSection := none } s).mobileFocus = 0 := by
  have hst : scrollTopOf { p with mobile := true, heroSection := some h } = scrollTopOf p := rfl
  set start : ℚ := h.offsetTop - p.innerHeight * (3 / 10) with hstart
  set stop : ℚ := h.offsetTop + h.offsetHeight * (6 / 10) with hstop
  set pr : ℚ := min 1 (max 0 ((scrollTopOf p - start) / (stop - start))) with hpr
  have hmf : (updateScrollEffects M { p with mobile := true, heroSection := some h } s).mobileFocus
      = min 1 (pr * pr * (3 - 2 * pr) * (115 / 100)) := by
    rw [updateScrollEffects_mobileFocus]
    simp only [mobileFocusOf, hst]
  have hpr0 : 0 ≤ pr := le_min (by norm_num) (le_max_left _ _)
  have hpr1 : pr ≤ 1 := min_le_left _ _
  obtain ⟨e0, e1⟩ := smoothstep_bounds pr hpr0 hpr1
  refine ⟨?_, ?_, ?_, ?_, ?_, ?_⟩
  · rw [hmf]; congr 1; ring
  · rw [hmf]; exact le_min (by norm_num) (mul_nonneg e0 (by norm_num))
  · rw [hmf]; exact min_le_left _ _
  · intro hge
    have hden : 0 < stop - start := by linarith
    have hq : 1 ≤ (scrollTopOf p - start) / (stop - start) := by
      rw [le_div_iff₀ hden]; linarith
    have hpr' : pr = 1 := by
      rw [hpr, max_eq_right (by linarith), min_eq_left hq]
    rw [hmf, hpr']
    norm_num
  · rw [updateScrollEffects_mobileFocus]
    simp [mobileFocusOf]
  · rw [updateScrollEffects_mobileFocus]
    cases hm : p.mobile <;> simp [mobileFocusOf, hm]

/-- C7, on a phone 800 px high, hero at the top and 900 px high, scrolled by 600 px. -/
theorem mobileFocus_scalar_witness :
    ((0 : ℚ) - 800 * (3 / 10) < 0 + 900 * (6 / 10)) ∧
    (updateScrollEffects { sin := fun _ => 0, cos := fun _ => 1 }
      { scrollY := 600, pageYOffset := 600, scrollHeight := 3000, innerHeight := 800,
        mobile := true, prefersReducedMotion := false, starfield := true, progressBar := true,
        heroGlobe := true,
        heroSection := some { rect := { top := -600, height := 900 }, offsetTop := 0,
                              offsetHeight := 900 },
        heroLayers := [], parallaxEls := [], orbs := [], heroWordInners := 0 }
      { mobileFocus := 0, autoRenderApplied := false,
        styles := { starShift := none, starShiftSlow := none, starShiftFast := none,
                    progressScaleX := none, layerShift := [], parallax := none,
                    scrollParallax := [], orbX := [], orbY := [], renderWordsAuto := false,
                    wordDelay := [] } }).mobileFocus = 1 :=
  ⟨by norm_num,
    (mobileFocus_scalar { sin := fun _ => 0, cos := fun _ => 1 }
      { scrollY := 600, pageYOffset := 600, scrollHeight := 3000, innerHeight := 800,
        mobile := true, prefersReducedMotion := false, starfield := true, progressBar := true,
        heroGlobe := true,
        heroSection := some { rect := { top := -600, height := 900 }, offsetTop := 0,
                              offsetHeight := 900 },
        heroLayers := [], parallaxEls := [], orbs := [], heroWordInners := 0 }
      { mobileFocus := 0, autoRenderApplied := false,
        styles := { starShift := none, starShiftSlow := none, starShiftFast := none,
                    progressScaleX := none, layerShift := [], parallax := none,
                    scrollParallax := [], orbX := [], orbY := [], renderWordsAuto := false,
                    wordDelay := [] } }
      { rect := { top := -600, height := 900 }, offsetTop := 0, offsetHeight := 900 }
      (by norm_num)).2.2.2.1 (by norm_num [scrollTopOf])⟩

/-- C8 (the code departs from the claim): on `reducedMotionPage` (reduced motion set,
desktop, scrolled by 100 px) `updateScrollEffects` sets the star-field offsets to 16, 8
and 16.8 px, not to zero; the hero layer shifts, the globe parallax, the reveal offset
and the orb drifts are 0 and no word delay is assigned. -/
theorem reducedMotion_starfield_still_shifts :
    (updateScrollEffects exampleMath reducedMotionPage
      (ScrollState.init reducedMotionPage)).styles.starShift = some 16 ∧
    (updateScrollEffects exampleMath reducedMotionPage
      (ScrollState.init reducedMotionPage)).styles.starShiftSlow = some 8 ∧
    (updateScrollEffects exampleMath reducedMotionPage
      (ScrollState.init reducedMotionPage)).styles.starShiftFast = some (84 / 5) ∧
    (updateScrollEffects exampleMath reducedMotionPage
      (ScrollState.init reducedMotionPage)).styles.layerShift = [some 0, some 0] ∧
    (updateScrollEffects exampleMath reducedMotionPage
      (ScrollState.init reducedMotionPage)).styles.parallax = some 0 ∧
    (updateScrollEffects exampleMath reducedMotionPage
      (ScrollState.init reducedMotionPage)).styles.scrollParallax = [some 0] ∧
    (updateScrollEffects exampleMath reducedMotionPage
      (ScrollState.init reducedMotionPage)).styles.orbX = [some 0, some 0] ∧
    (updateScrollEffects exampleMath reducedMotionPage
      (ScrollState.init reducedMotionPage)).styles.orbY = [some 0, some 0] ∧
    (updateScrollEffects exampleMath reducedMotionPage
      (ScrollState.init reducedMotionPage)).styles.wordDelay = [none, none, none] := by
  have hr : reducedMotionPage.prefersReducedMotion = true := rfl
  obtain ⟨s1, s2, s3⟩ := updateScrollEffects_starShift exampleMath reducedMotionPage
    (ScrollState.init reducedMotionPage)
  obtain ⟨b1, b2, b3⟩ := starfieldBlock_on reducedMotionPage
    (ScrollState.init reducedMotionPage).styles rfl
  obtain ⟨r1, r2, r3, r4, _, _, r7⟩ := updateScrollEffects_reducedMotion exampleMath
    reducedMotionPage (ScrollState.init reducedMotionPage) hr
  have hst : scrollTopOf reducedMotionPage = 100 := by
    simp [scrollTopOf, reducedMotionPage]
  have hm : reducedMotionPage.mobile = false := rfl
  refine ⟨?_, ?_, ?_, ?_, ?_, ?_, ?_, ?_, ?_⟩
  · rw [s1, b1, hst, hm]; norm_num
  · rw [s2, b2, hst, hm]; norm_num
  · rw [s3, b3, hst, hm]; norm_num
  · rw [r1]; rfl
  · exact r2 rfl
  · rw [r3 (by simp [reducedMotionPage])]; rfl
  · rw [(r4 (by simp [reducedMotionPage])).1]; rfl
  · rw [(r4 (by simp [reducedMotionPage])).2]; rfl
  · rw [r7]; rfl

/-- C9 (degenerate scroll range): with `scrollTop = window.scrollY || window.pageYOffset`,
the progress ratio is 0 when `documentHeight - viewportHeight ≤ 0` and
`scrollTop / (documentHeight - viewportHeight)` otherwise, and that is what the progress
bar receives; for a page scrolled to offset `y` (both `scrollY` and `pageYOffset` read
`y`) the ratio is `y / (documentHeight - viewportHeight)` or 0. At scroll offset 0 with
document height 0 the progress ratio is 0 and the three star-field offsets are 0. -/
theorem progress_degenerate_range (M : MathFns) (p : Page) (s : ScrollState) (y : ℚ) :
    progressOf p
      = (if p.scrollHeight - p.innerHeight ≤ 0 then 0
         else (if p.scrollY ≠ 0 then p.scrollY else p.pageYOffset)
           / (p.scrollHeight - p.innerHeight)) ∧
    progressOf { p with scrollY := y, pageYOffset := y }
      = (if p.scrollHeight - p.innerHeight ≤ 0 then 0
         else y / (p.scrollHeight - p.innerHeight)) ∧
    (updateScrollEffects M { p with progressBar := true } s).styles.progressScaleX
      = some (if p.scrollHeight - p.innerHeight ≤ 0 then 0
              else (if p.scrollY ≠ 0 then p.scrollY else p.pageYOffset)
                / (p.scrollHeight - p.innerHeight)) ∧
    (updateScrollEffects M { p with scrollY := y, pageYOffset := y, progressBar := true }
        s).styles.progressScaleX
      = some (if p.scrollHeight - p.innerHeight ≤ 0 then 0
              else y / (p.scrollHeight - p.innerHeight)) ∧
    progressOf { p with scrollY := 0, pageYOffset := 0, scrollHeight := 0 } = 0 ∧
    (updateScrollEffects M
        { p with scrollY := 0, pageYOffset := 0, scrollHeight := 0, starfield := true }
        s).styles.starShift = some 0 ∧
    (updateScrollEffects M
        { p with scrollY := 0, pageYOffset := 0, scrollHeight := 0, starfield := true }
        s).styles.starShiftSlow = some 0 ∧
    (updateScrollEffects M
        { p with scrollY := 0, pageYOffset := 0, scrollHeight := 0, starfield := true }
        s).styles.starShiftFast = some 0 := by
  have hprog : ∀ q : Page, progressOf q
      = (if q.scrollHeight - q.innerHeight ≤ 0 then 0
         else (if q.scrollY ≠ 0 then q.scrollY else q.pageYOffset)
           / (q.scrollHeight - q.innerHeight)) := by
    intro q
    unfold progressOf docHeightOf scrollTopOf
    by_cases hd : q.scrollHeight - q.innerHeight ≤ 0
    · rw [if_pos hd, if_neg (not_lt.mpr hd)]
    · rw [if_neg hd, if_pos (lt_of_not_ge hd)]
  have hbar : ∀ q : Page, q.progressBar = true →
      (updateScrollEffects M q s).styles.progressScaleX = some (progressOf q) := by
    intro q hq
    rw [updateScrollEffects_progressScaleX]
    unfold progressBlock
    rw [if_pos hq]
  have hz : scrollTopOf
      { p with scrollY := 0, pageYOffset := 0, scrollHeight := 0, starfield := true } = 0 := by
    simp [scrollTopOf]
  obtain ⟨s1, s2, s3⟩ := updateScrollEffects_starShift M
    { p with scrollY := 0, pageYOffset := 0, scrollHeight := 0, starfield := true } s
  obtain ⟨b1, b2, b3⟩ := starfieldBlock_on
    { p with scrollY := 0, pageYOffset := 0, scrollHeight := 0, starfield := true } s.styles rfl
  refine ⟨hprog p, ?_, ?_, ?_, ?_, ?_, ?_, ?_⟩
  · rw [hprog]
    simp only [ite_self]
  · rw [hbar _ rfl, hprog]
  · rw [hbar _ rfl, hprog]
    simp only [ite_self]
  · rw [hprog]
    simp
  · rw [s1, b1, hz]
    split_ifs <;> norm_num
  · rw [s2, b2, hz]
    split_ifs <;> norm_num
  · rw [s3, b3, hz]
    split_ifs <;> norm_num

/-! ## Texture pipeline -/

theorem fillDeepOcean_succ (n : ℕ) :
    fillDeepOcean (n + 1) = 11 :: 42 :: 74 :: 255 :: fillDeepOcean n := by
  simp [fillDeepOcean, List.replicate_succ]

theorem pixelAt_fillDeepOcean (n k : ℕ) (h : k < n) :
    pixelAt (fillDeepOcean n) k = some (11, 42, 74, 255) := by
  induction n generalizing k with
  | zero => omega
  | succ n ih =>
    rw [fillDeepOcean_succ]
    cases k with
    | zero => rfl
    | succ k =>
      simp only [pixelAt]
      exact ih k (by omega)

theorem length_fillDeepOcean (n : ℕ) : (fillDeepOcean n).length = 4 * n := by
  induction n with
  | zero => simp [fillDeepOcean]
  | succ n ih =>
    rw [fillDeepOcean_succ]
    simp only [List.length_cons, ih]
    omega

/-- C11 (texture pipeline outcome): whatever the two fetches do, the chain settles
fulfilled, never rejected, with exactly one texture set assigned and all four maps of the
materials taken from it. When both fetches succeed `loadNasaTextures` is fulfilled with a
set whose four rasters are 2048 by 1024, and that set is the one assigned. When either
fetch fails `loadNasaTextures` is rejected and the chain assigns the procedural set
instead: its four slots hold one and the same raster, 2048 by 1024, every pixel
`(11, 42, 74, 255)`. -/
theorem texture_pipeline_outcome (draw : Raster → ℕ → ℕ → List ℕ) (d c : Fetch)
    (di ci : Raster) (k : ℕ) :
    (∃ (m : Materials) (t : TextureSet),
      loadChain draw d c Materials.init = Settled.resolved m ∧ m.handed = [t] ∧
      m.map = some t.diffuse ∧ m.bumpMap = some t.bump ∧ m.specularMap = some t.specular ∧
      m.cloudsMap = some t.clouds) ∧
    (∃ t : TextureSet,
      loadNasaTextures draw (Fetch.loaded di) (Fetch.loaded ci) = Settled.resolved t ∧
      loadChain draw (Fetch.loaded di) (Fetch.loaded ci) Materials.init
        = Settled.resolved (applyTextures t Materials.init) ∧
      (t.diffuse.width = 2048 ∧ t.diffuse.height = 1024) ∧
      (t.bump.width = 2048 ∧ t.bump.height = 1024) ∧
      (t.specular.width = 2048 ∧ t.specular.height = 1024) ∧
      (t.clouds.width = 2048 ∧ t.clouds.height = 1024)) ∧
    (loadNasaTextures draw Fetch.failed c = Settled.rejected ∧
     loadNasaTextures draw d Fetch.failed = Settled.rejected ∧
     loadChain draw Fetch.failed c Materials.init
        = Settled.resolved (applyFallback Materials.init) ∧
     loadChain draw d Fetch.failed Materials.init
        = Settled.resolved (applyFallback Materials.init) ∧
     (applyFallback Materials.init).handed = [createProceduralTextures 2048 1024]) ∧
    ((createProceduralTextures 2048 1024).bump = (createProceduralTextures 2048 1024).diffuse ∧
     (createProceduralTextures 2048 1024).specular = (createProceduralTextures 2048 1024).diffuse ∧
     (createProceduralTextures 2048 1024).clouds = (createProceduralTextures 2048 1024).diffuse ∧
     (createProceduralTextures 2048 1024).diffuse.width = 2048 ∧
     (createProceduralTextures 2048 1024).diffuse.height = 1024 ∧
     (createProceduralTextures 2048 1024).diffuse.data.length = 4 * (2048 * 1024) ∧
     (k < 2048 * 1024 →
       pixelAt (createProceduralTextures 2048 1024).diffuse.data k = some (11, 42, 74, 255))) := by
  have hfail1 : ∀ c' : Fetch, loadNasaTextures draw Fetch.failed c' = Settled.rejected := by
    intro c'
    cases c' <;> rfl
  have hfail2 : ∀ d' : Fetch, loadNasaTextures draw d' Fetch.failed = Settled.rejected := by
    intro d'
    cases d' <;> rfl
  have hchain : ∀ d' c' : Fetch, loadNasaTextures draw d' c' = Settled.rejected →
      loadChain draw d' c' Materials.init = Settled.resolved (applyFallback Materials.init) := by
    intro d' c' h
    simp only [loadChain, h, Settled.thenDo, Settled.catchDo]
  refine ⟨?_, ?_, ⟨hfail1 c, hfail2 d, hchain _ _ (hfail1 c), hchain _ _ (hfail2 d), rfl⟩,
    ⟨rfl, rfl, rfl, rfl, rfl, length_fillDeepOcean _, pixelAt_fillDeepOcean _ k⟩⟩
  · cases d with
    | failed =>
      exact ⟨_, createProceduralTextures 2048 1024, hchain _ _ (hfail1 c),
        rfl, rfl, rfl, rfl, rfl⟩
    | loaded dimg =>
      cases c with
      | failed =>
        exact ⟨_, createProceduralTextures 2048 1024, hchain _ _ (hfail2 _),
          rfl, rfl, rfl, rfl, rfl⟩
      | loaded cimg => exact ⟨_, _, rfl, rfl, rfl, rfl, rfl, rfl⟩
  · exact ⟨_, rfl, rfl, ⟨rfl, rfl⟩, ⟨rfl, rfl⟩, ⟨rfl, rfl⟩, ⟨rfl, rfl⟩⟩

/-! ## Star field, resize, zero-height geometry, cloud opacity: the claims -/

/-- C12 fails as stated: on `longScrollPage` (desktop, scrolled by 1000 px) the emitted
offsets are 140, 80 and 160 px; 80 is not half of 140 and 160 is not 1.05 times 140. -/
theorem starfield_offsets_not_proportional :
    (updateScrollEffects exampleMath longScrollPage
      (ScrollState.init longScrollPage)).styles.starShift = some 140 ∧
    (updateScrollEffects exampleMath longScrollPage
      (ScrollState.init longScrollPage)).styles.starShiftSlow = some 80 ∧
    (updateScrollEffects exampleMath longScrollPage
      (ScrollState.init longScrollPage)).styles.starShiftFast = some 160 ∧
    (80 : ℚ) ≠ (1 / 2) * 140 ∧ (160 : ℚ) ≠ (105 / 100) * 140 := by
  obtain ⟨s1, s2, s3⟩ := updateScrollEffects_starShift exampleMath longScrollPage
    (ScrollState.init longScrollPage)
  obtain ⟨b1, b2, b3⟩ := starfieldBlock_on longScrollPage
    (ScrollState.init longScrollPage).styles rfl
  have hst : scrollTopOf longScrollPage = 1000 := by
    simp [scrollTopOf, longScrollPage]
  have hm : longScrollPage.mobile = false := rfl
  refine ⟨?_, ?_, ?_, by norm_num, by norm_num⟩
  · rw [s1, b1, hst, hm]; norm_num
  · rw [s2, b2, hst, hm]; norm_num
  · rw [s3, b3, hst, hm]; norm_num

/-- C12, amended: with a star field on the page, for every scroll offset and device
class the three offsets are `min(shift, 200 | 140)`, `min(0.5 shift, 120 | 90)` and
`min(1.05 shift, 240 | 160)` (mobile | desktop), where `shift = scrollTop * 0.22` on
mobile and `scrollTop * 0.16` on desktop is the shift before any clamp: each offset has
its own clamp. As long as `shift` does not exceed the first clamp, none of the three is
clamped and the emitted values are `base`, `0.5 * base` and `1.05 * base`. -/
theorem starfield_offsets (M : MathFns) (p : Page) (s : ScrollState) :
    (updateScrollEffects M { p with starfield := true } s).styles.starShift
      = some (min (scrollTopOf p * (if p.mobile then 22 / 100 else 16 / 100))
          (if p.mobile then 200 else 140)) ∧
    (updateScrollEffects M { p with starfield := true } s).styles.starShiftSlow
      = some (min ((1 / 2) * (scrollTopOf p * (if p.mobile then 22 / 100 else 16 / 100)))
          (if p.mobile then 120 else 90)) ∧
    (updateScrollEffects M { p with starfield := true } s).styles.starShiftFast
      = some (min ((105 / 100) * (scrollTopOf p * (if p.mobile then 22 / 100 else 16 / 100)))
          (if p.mobile then 240 else 160)) ∧
    (scrollTopOf p * (if p.mobile then 22 / 100 else 16 / 100)
        ≤ (if p.mobile then 200 else 140) →
      ∃ base : ℚ,
        base = scrollTopOf p * (if p.mobile then 22 / 100 else 16 / 100) ∧
        (updateScrollEffects M { p with starfield := true } s).styles.starShift = some base ∧
        (updateScrollEffects M { p with starfield := true } s).styles.starShiftSlow
          = some ((1 / 2) * base) ∧
        (updateScrollEffects M { p with starfield := true } s).styles.starShiftFast
          = some ((105 / 100) * base)) := by
  obtain ⟨s1, s2, s3⟩ := updateScrollEffects_starShift M { p with starfield := true } s
  obtain ⟨b1, b2, b3⟩ := starfieldBlock_on { p with starfield := true } s.styles rfl
  have hst : scrollTopOf { p with starfield := true } = scrollTopOf p := rfl
  have hmob : ({ p with starfield := true } : Page).mobile = p.mobile := rfl
  rw [hst, hmob] at b1 b2 b3
  have e2 : scrollTopOf p * (if p.mobile then 22 / 100 else 16 / 100) * (1 / 2)
      = (1 / 2) * (scrollTopOf p * (if p.mobile then 22 / 100 else 16 / 100)) := by ring
  have e3 : scrollTopOf p * (if p.mobile then 22 / 100 else 16 / 100) * (105 / 100)
      = (105 / 100) * (scrollTopOf p * (if p.mobile then 22 / 100 else 16 / 100)) := by ring
  rw [e2] at b2
  rw [e3] at b3
  refine ⟨by rw [s1, b1], by rw [s2, b2], by rw [s3, b3], ?_⟩
  intro hle
  refine ⟨_, rfl, ?_, ?_, ?_⟩
  · rw [s1, b1, min_eq_left hle]
  · rw [s2, b2]
    congr 1
    apply min_eq_left
    cases hm : p.mobile <;> simp only [hm, if_true, if_false, Bool.false_eq_true] at hle ⊢ <;>
      linarith
  · rw [s3, b3]
    congr 1
    apply min_eq_left
    cases hm : p.mobile <;> simp only [hm, if_true, if_false, Bool.false_eq_true] at hle ⊢ <;>
      linarith

/-- C13 fails as stated: two resize events right after page load run
`updateScrollEffects` twice, and a resize event that arrives while a scroll-scheduled
recomputation is pending is not dropped: it runs at once and the pending one stays. -/
theorem resize_not_coalesced :
    (Sched.init.run [Event.resize, Event.resize]).runs = Sched.init.runs + 2 ∧
    (Sched.init.run [Event.scroll]).pending = 1 ∧
    (Sched.init.run [Event.scroll, Event.resize]).runs
      = (Sched.init.run [Event.scroll]).runs + 1 ∧
    (Sched.init.run [Event.scroll, Event.resize]).pending = 1 := by
  simp [Sched.run, Sched.step, Sched.init, onScroll, onResize]

theorem Sched.run_resizes (s : Sched) (N : ℕ) :
    s.run (List.replicate N Event.resize)
      = { scrollTicking := s.scrollTicking, pending := s.pending, runs := s.runs + N } := by
  induction N generalizing s with
  | zero => simp [Sched.run]
  | succ N ih =>
    have h := ih (s.step Event.resize)
    simp only [Sched.run, List.replicate_succ, List.foldl_cons] at h ⊢
    rw [h]
    simp only [Sched.step, onResize, Sched.mk.injEq, true_and]
    omega

/-- C13, amended: resize events are not coalesced. The resize listener is
`updateScrollEffects` itself: from any state reached from page load, `N` resize events
run the recomputation `N` times, at once, and leave the flag `scrollTicking` and the
pending scroll callback as they were (so the next frame still runs a pending one). Only
scroll events go through the coalescing discipline. -/
theorem resize_runs_every_time (es : List Event) (N : ℕ) :
    ((Sched.init.run es).run (List.replicate N Event.resize)).runs
      = (Sched.init.run es).runs + N ∧
    ((Sched.init.run es).run (List.replicate N Event.resize)).scrollTicking
      = (Sched.init.run es).scrollTicking ∧
    ((Sched.init.run es).run (List.replicate N Event.resize)).pending
      = (Sched.init.run es).pending ∧
    ((Sched.init.run es).run (List.replicate N Event.resize ++ [Event.frame])).runs
      = (Sched.init.run es).runs + N + (Sched.init.run es).pending := by
  have hs := Sched.inv_run Sched.init es (by simp [Sched.Inv, Sched.init])
  generalize Sched.init.run es = s at hs ⊢
  obtain ⟨ticking, pending, runs⟩ := s
  refine ⟨by rw [Sched.run_resizes], by rw [Sched.run_resizes], by rw [Sched.run_resizes], ?_⟩
  rw [Sched.run_append, Sched.run_resizes]
  rcases Nat.le_one_iff_eq_zero_or_eq_one.mp hs.1 with h0 | h0
  · simp only at h0
    subst h0
    simp [Sched.run, Sched.step, onFrame]
  · simp only at h0
    subst h0
    simp [Sched.run, Sched.step, onFrame, scrollCallback]

theorem toFixed2_hundredths (n : ℕ) : toFixed2 ((n : ℚ) / 100) = (n : ℚ) / 100 := by
  have h0 : ¬ ((n : ℚ) / 100 < 0) := not_lt.mpr (by positivity)
  have hfl : ⌊(n : ℚ) / 100 * 100 + 1 / 2⌋ = (n : ℤ) := by
    rw [Int.floor_eq_iff]
    have e : (n : ℚ) / 100 * 100 = n := by field_simp
    rw [e]
    push_cast
    constructor <;> linarith
  unfold toFixed2
  rw [if_neg h0, hfl]
  push_cast
  rfl

theorem toFixed2_zero : toFixed2 0 = 0 := by
  have := toFixed2_hundredths 0
  simpa using this

theorem heroBlock_on (p : Page) (st : Styles) (h : HeroSection)
    (hhero : p.heroSection = some h) (hlay : p.heroLayers ≠ [])
    (hrm : p.prefersReducedMotion = false) :
    (heroBlock p st).layerShift
      = p.heroLayers.map (fun d => some (heroShiftOf p h * parseOr d (6 / 10))) ∧
    (heroBlock p st).parallax
      = (if p.heroGlobe then some (heroShiftOf p h * (7 / 10)) else st.parallax) := by
  unfold heroBlock
  rw [hhero]
  simp only []
  rw [if_pos ⟨by simpa using hlay, by simp [hrm]⟩]
  exact ⟨rfl, rfl⟩

theorem revealBlock_on (p : Page) (st : Styles) (hne : p.parallaxEls ≠ [])
    (hrm : p.prefersReducedMotion = false) :
    (revealBlock p st).scrollParallax
      = p.parallaxEls.map (fun el => some (revealOffset p el)) := by
  unfold revealBlock
  rw [if_pos (by simpa using hne), if_pos (by simp [hrm])]

theorem heroShiftOf_zero_height (p : Page) (h : HeroSection) (hh : h.rect.height = 0) :
    heroShiftOf p h
      = (min 1 (max 0 ((p.innerHeight - h.rect.top) / p.innerHeight)) - 1 / 2)
          * (if p.mobile then 44 else 28) := by
  unfold heroShiftOf
  simp only [hh, add_zero]

theorem clamp_eq_one_of_top_nonpos (vh top : ℚ) (hvh : 0 < vh) (ht : top ≤ 0) :
    min 1 (max 0 ((vh - top) / vh)) = 1 := by
  have h1 : 1 ≤ (vh - top) / vh := by
    rw [le_div_iff₀ hvh]; linarith
  rw [max_eq_right (by linarith), min_eq_left h1]

theorem clamp_eq_zero_of_top_below (vh top : ℚ) (hvh : 0 < vh) (ht : vh ≤ top) :
    min 1 (max 0 ((vh - top) / vh)) = 0 := by
  have h1 : (vh - top) / vh ≤ 0 := div_nonpos_of_nonpos_of_nonneg (by linarith) hvh.le
  rw [max_eq_left h1, min_eq_right (by norm_num)]

/-! ## Reveal offsets in doubles -/

theorem fl_one : fl 1 = 1 := by
  have h := fl_natCast 1 (by norm_num)
  simpa using h

theorem fl_two : fl 2 = 2 := by
  have h := fl_natCast 2 (by norm_num)
  simpa using h

theorem fl_three : fl 3 = 3 := by
  have h := fl_natCast 3 (by norm_num)
  simpa using h

theorem fl_160 : fl 160 = 160 := by
  have h := fl_natCast 160 (by norm_num)
  simpa using h

theorem fl_220 : fl 220 = 220 := by
  have h := fl_natCast 220 (by norm_num)
  simpa using h

theorem toFixed2_eq_of_close (x : ℚ) (n : ℕ) (hx : 0 ≤ x) (h : |x * 100 - n| < 1 / 2) :
    toFixed2 x = (n : ℚ) / 100 := by
  obtain ⟨h1, h2⟩ := abs_lt.mp h
  have hfl : ⌊x * 100 + 1 / 2⌋ = (n : ℤ) := by
    rw [Int.floor_eq_iff]
    push_cast
    constructor <;> linarith
  unfold toFixed2
  rw [if_neg (not_lt.mpr hx), hfl]
  push_cast
  rfl

theorem fl_lit_012 : fl (12 / 100) = (1080863910568919 / 9007199254740992) := by
  have h := fl_eq_of (12 / 100) (-4) 8646911284551352 (by norm_num) (by norm_num)
    (by rw [abs_lt]; constructor <;> norm_num)
  rw [h]; norm_num

theorem reveal_value_default_desktop : toFixed2 (fl (220 * fl (12 / 100))) = (132 / 5) := by
  have a : fl (220 * (1080863910568919 / 9007199254740992)) = (3715469692580659 / 140737488355328) := by
    have h := fl_eq_of (220 * (1080863910568919 / 9007199254740992)) (4) 7430939385161318 (by norm_num) (by norm_num)
      (by rw [abs_lt]; constructor <;> norm_num)
    rw [h]; norm_num
  rw [fl_lit_012, a, toFixed2_eq_of_close _ 2640 (by norm_num)
    (by rw [abs_lt]; constructor <;> norm_num)]
  norm_num

theorem reveal_value_quarter_desktop :
    toFixed2 (fl (fl (fl (1 - fl (fl (min 1 (max 0 (fl (fl (800 - 600) / fl 800)))
          * min 1 (max 0 (fl (fl (800 - 600) / fl 800))))
        * fl (3 - fl (2 * min 1 (max 0 (fl (fl (800 - 600) / fl 800))))))) * 220)
      * fl (12 / 100))) = (2227 / 100) := by
  have a1 : fl (800 - 600) = 200 := by
    have h := fl_eq_of (800 - 600) (7) 7036874417766400 (by norm_num) (by norm_num)
      (by rw [abs_lt]; constructor <;> norm_num)
    rw [h]; norm_num
  have a2 : fl (800) = 800 := by
    have h := fl_eq_of (800) (9) 7036874417766400 (by norm_num) (by norm_num)
      (by rw [abs_lt]; constructor <;> norm_num)
    rw [h]; norm_num
  have a3 : fl (200 / 800) = (1 / 4) := by
    have h := fl_eq_of (200 / 800) (-2) 4503599627370496 (by norm_num) (by norm_num)
      (by rw [abs_lt]; constructor <;> norm_num)
    rw [h]; norm_num
  have hc : min 1 (max 0 ((1 / 4) : ℚ)) = (1 / 4) := by norm_num
  have a4 : fl ((1 / 4) * (1 / 4)) = (1 / 16) := by
    have h := fl_eq_of ((1 / 4) * (1 / 4)) (-4) 4503599627370496 (by norm_num) (by norm_num)
      (by rw [abs_lt]; constructor <;> norm_num)
    rw [h]; norm_num
  have a5 : fl (2 * (1 / 4)) = (1 / 2) := by
    have h := fl_eq_of (2 * (1 / 4)) (-1) 4503599627370496 (by norm_num) (by norm_num)
      (by rw [abs_lt]; constructor <;> norm_num)
    rw [h]; norm_num
  have a6 : fl (3 - (1 / 2)) = (5 / 2) := by
    have h := fl_eq_of (3 - (1 / 2)) (1) 5629499534213120 (by norm_num) (by norm_num)
      (by rw [abs_lt]; constructor <;> norm_num)
    rw [h]; norm_num
  have a7 : fl ((1 / 16) * (5 / 2)) = (5 / 32) := by
    have h := fl_eq_of ((1 / 16) * (5 / 2)) (-3) 5629499534213120 (by norm_num) (by norm_num)
      (by rw [abs_lt]; constructor <;> norm_num)
    rw [h]; norm_num
  have a8 : fl (1 - (5 / 32)) = (27 / 32) := by
    have h := fl_eq_of (1 - (5 / 32)) (-1) 7599824371187712 (by norm_num) (by norm_num)
      (by rw [abs_lt]; constructor <;> norm_num)
    rw [h]; norm_num
  have a9 : fl ((27 / 32) * 220) = (1485 / 8) := by
    have h := fl_eq_of ((27 / 32) * 220) (7) 6531099068989440 (by norm_num) (by norm_num)
      (by rw [abs_lt]; constructor <;> norm_num)
    rw [h]; norm_num
  have a10 : fl ((1485 / 8) * (1080863910568919 / 9007199254740992)) = (3134927553114931 / 140737488355328) := by
    have h := fl_eq_of ((1485 / 8) * (1080863910568919 / 9007199254740992)) (4) 6269855106229862 (by norm_num) (by norm_num)
      (by rw [abs_lt]; constructor <;> norm_num)
    rw [h]; norm_num
  rw [a1, a2, a3, hc, a4, a5, a6, a7, a8, a9, fl_lit_012, a10,
    toFixed2_eq_of_close _ 2227 (by norm_num) (by rw [abs_lt]; constructor <;> norm_num)]
  norm_num

/-- The reveal offset of an element of height zero: `end` is 0 and the quotient is
`(vh - top) / vh`. -/
theorem revealOffset_zero_height (p : Page) (el : ParallaxEl) (hel : el.rect.height = 0) :
    revealOffset p el
      = toFixed2 (fl (fl (fl (1 - fl (fl
            (min 1 (max 0 (fl (fl (p.innerHeight - el.rect.top) / fl p.innerHeight)))
              * min 1 (max 0 (fl (fl (p.innerHeight - el.rect.top) / fl p.innerHeight))))
            * fl (3 - fl (2 *
                min 1 (max 0 (fl (fl (p.innerHeight - el.rect.top) / fl p.innerHeight)))))))
          * (if p.mobile then 160 else 220)) * parseOr el.parallax (fl (12 / 100)))) := by
  unfold revealOffset
  simp only [hel, neg_zero, zero_mul, fl_zero, sub_zero]

theorem fl_clamp_eq_one_of_top_nonpos (vh top : ℚ) (hvh : 0 < vh) (ht : top ≤ 0) :
    min 1 (max 0 (fl (fl (vh - top) / fl vh))) = 1 := by
  have hd : 0 < fl vh := fl_pos vh hvh
  have hn : fl vh ≤ fl (vh - top) := fl_mono _ _ (by linarith)
  have h1 : 1 ≤ fl (vh - top) / fl vh := by
    rw [le_div_iff₀ hd]; linarith
  have h2 : 1 ≤ fl (fl (vh - top) / fl vh) := by
    have := fl_mono _ _ h1
    rwa [fl_one] at this
  rw [max_eq_right (by linarith), min_eq_left h2]

theorem fl_clamp_eq_zero_of_top_below (vh top : ℚ) (hvh : 0 < vh) (ht : vh ≤ top) :
    min 1 (max 0 (fl (fl (vh - top) / fl vh))) = 0 := by
  have hd : 0 < fl vh := fl_pos vh hvh
  have hn : fl (vh - top) ≤ 0 := fl_nonpos _ (by linarith)
  have h1 : fl (vh - top) / fl vh ≤ 0 := div_nonpos_of_nonpos_of_nonneg hn hd.le
  have h2 : fl (fl (vh - top) / fl vh) ≤ 0 := fl_nonpos _ h1
  rw [max_eq_left h2, min_eq_right (by norm_num)]

theorem fl_base (mobile : Bool) :
    fl (1 * (if mobile then 160 else 220)) = (if mobile then 160 else 220) := by
  cases mobile
  · simp only [one_mul, Bool.false_eq_true, if_false]; exact fl_220
  · simp only [one_mul, if_true]; exact fl_160

theorem revealOffset_zero_height_above (p : Page) (el : ParallaxEl) (hel : el.rect.height = 0)
    (hvh : 0 < p.innerHeight) (ht : el.rect.top ≤ 0) : revealOffset p el = 0 := by
  rw [revealOffset_zero_height p el hel,
    fl_clamp_eq_one_of_top_nonpos p.innerHeight el.rect.top hvh ht]
  simp only [mul_one, one_mul, fl_one, fl_two, fl_zero, zero_mul, sub_self]
  have e : (3 : ℚ) - 2 = 1 := by norm_num
  rw [e]
  simp only [fl_one, sub_self, fl_zero, zero_mul, toFixed2_zero]

theorem revealOffset_zero_height_below (p : Page) (el : ParallaxEl) (hel : el.rect.height = 0)
    (hvh : 0 < p.innerHeight) (ht : p.innerHeight ≤ el.rect.top) :
    revealOffset p el
      = toFixed2 (fl ((if p.mobile then 160 else 220) * parseOr el.parallax (fl (12 / 100)))) := by
  rw [revealOffset_zero_height p el hel,
    fl_clamp_eq_zero_of_top_below p.innerHeight el.rect.top hvh ht]
  simp only [mul_zero, zero_mul, fl_zero, sub_zero, fl_one, fl_base]

/-- A reveal element of height zero at `top = 600` in a desktop viewport 800 px high:
the exact offset is 22.275, the double computed is just below it, and `toFixed(2)`
gives 22.27. -/
theorem revealOffset_quarter_desktop :
    revealOffset zeroHeightPage { rect := { top := 600, height := 0 }, parallax := none }
      = 2227 / 100 := by
  rw [revealOffset_zero_height _ _ rfl]
  exact reveal_value_quarter_desktop

/-- A reveal element of height zero at `top = 800` in a desktop viewport 800 px high gets
26.40. -/
theorem revealOffset_bottom_desktop :
    revealOffset zeroHeightPage { rect := { top := 800, height := 0 }, parallax := none }
      = 132 / 5 := by
  rw [revealOffset_zero_height_below _ _ rfl (by norm_num [zeroHeightPage])
    (by norm_num [zeroHeightPage])]
  exact reveal_value_default_desktop

/-- C14 fails as stated: on `zeroHeightPage` the hero rectangle is all zero and the
reveal element has height zero, yet the layer shift is 8.4 px, the globe parallax 9.8 px
and the reveal offset 26.4 px. -/
theorem zero_height_offsets_nonzero :
    zeroHeightPage.heroSection
      = some { rect := { top := 0, height := 0 }, offsetTop := 0, offsetHeight := 0 } ∧
    zeroHeightPage.parallaxEls = [{ rect := { top := 800, height := 0 }, parallax := none }] ∧
    (updateScrollEffects exampleMath zeroHeightPage
      (ScrollState.init zeroHeightPage)).styles.layerShift = [some (42 / 5)] ∧
    (updateScrollEffects exampleMath zeroHeightPage
      (ScrollState.init zeroHeightPage)).styles.parallax = some (49 / 5) ∧
    (updateScrollEffects exampleMath zeroHeightPage
      (ScrollState.init zeroHeightPage)).styles.scrollParallax = [some (132 / 5)] := by
  obtain ⟨u1, u2⟩ := updateScrollEffects_hero exampleMath zeroHeightPage
    (ScrollState.init zeroHeightPage)
  obtain ⟨b1, b2⟩ := heroBlock_on zeroHeightPage
    (progressBlock zeroHeightPage (starfieldBlock zeroHeightPage
      (ScrollState.init zeroHeightPage).styles))
    { rect := { top := 0, height := 0 }, offsetTop := 0, offsetHeight := 0 } rfl
    (by simp [zeroHeightPage]) rfl
  have hs : heroShiftOf zeroHeightPage
      { rect := { top := 0, height := 0 }, offsetTop := 0, offsetHeight := 0 } = 14 := by
    rw [heroShiftOf_zero_height _ _ rfl]
    have hc := clamp_eq_one_of_top_nonpos zeroHeightPage.innerHeight 0
      (by norm_num [zeroHeightPage]) le_rfl
    simp only [] at hc ⊢
    rw [hc]
    norm_num [zeroHeightPage]
  have hr := revealOffset_bottom_desktop
  refine ⟨rfl, rfl, ?_, ?_, ?_⟩
  · rw [u1, b1, hs]
    norm_num [zeroHeightPage, parseOr]
  · rw [u2, b2, hs]
    norm_num [zeroHeightPage]
  · rw [updateScrollEffects_scrollParallax,
      revealBlock_on zeroHeightPage _ (by simp [zeroHeightPage]) rfl]
    have hl : zeroHeightPage.parallaxEls
        = [{ rect := { top := 800, height := 0 }, parallax := none }] := rfl
    rw [hl]
    simp only [List.map_cons, List.map_nil]
    rw [hr]

/-- C14, amended: the code has no zero-size case. With reduced motion off and a viewport
of positive height, a hero section of height zero gives
`heroShift = (clamp((vh - top) / vh, 0, 1) - 0.5) * 28` (44 on mobile): each layer gets
`heroShift * depth` and the globe `heroShift * 0.7`; for `top ≤ 0`, as with the all-zero
rectangle of an element without layout, `heroShift` is 14 (22 on mobile), not 0. A reveal
element of height zero gets
`((1 - smoothstep(clamp((vh - top) / vh, 0, 1))) * base * depth).toFixed(2)`, every
operation of it a double operation, which is 0 when `top ≤ 0` and
`(base * depth).toFixed(2)` when `top ≥ vh`. -/
theorem zero_height_geometry (M : MathFns) (p : Page) (s : ScrollState) (h : HeroSection)
    (el : ParallaxEl)
    (hvh : 0 < p.innerHeight) (hrm : p.prefersReducedMotion = false)
    (hhero : p.heroSection = some h) (hh : h.rect.height = 0) (hlay : p.heroLayers ≠ [])
    (hne : p.parallaxEls ≠ []) (hel : el.rect.height = 0) :
    (updateScrollEffects M p s).styles.layerShift
      = p.heroLayers.map (fun d => some
          ((min 1 (max 0 ((p.innerHeight - h.rect.top) / p.innerHeight)) - 1 / 2)
            * (if p.mobile then 44 else 28) * parseOr d (6 / 10))) ∧
    (p.heroGlobe = true →
      (updateScrollEffects M p s).styles.parallax
        = some ((min 1 (max 0 ((p.innerHeight - h.rect.top) / p.innerHeight)) - 1 / 2)
            * (if p.mobile then 44 else 28) * (7 / 10))) ∧
    (h.rect.top ≤ 0 →
      (updateScrollEffects M p s).styles.layerShift
        = p.heroLayers.map (fun d => some ((if p.mobile then 22 else 14) * parseOr d (6 / 10))) ∧
      (p.heroGlobe = true →
        (updateScrollEffects M p s).styles.parallax
          = some ((if p.mobile then 22 else 14) * (7 / 10)))) ∧
    (updateScrollEffects M p s).styles.scrollParallax
      = p.parallaxEls.map (fun e => some (revealOffset p e)) ∧
    revealOffset p el
      = toFixed2 (fl (fl (fl (1 - fl (fl
            (min 1 (max 0 (fl (fl (p.innerHeight - el.rect.top) / fl p.innerHeight)))
              * min 1 (max 0 (fl (fl (p.innerHeight - el.rect.top) / fl p.innerHeight))))
            * fl (3 - fl (2 *
                min 1 (max 0 (fl (fl (p.innerHeight - el.rect.top) / fl p.innerHeight)))))))
          * (if p.mobile then 160 else 220)) * parseOr el.parallax (fl (12 / 100)))) ∧
    (el.rect.top ≤ 0 → revealOffset p el = 0) ∧
    (p.innerHeight ≤ el.rect.top →
      revealOffset p el
        = toFixed2 (fl ((if p.mobile then 160 else 220)
            * parseOr el.parallax (fl (12 / 100))))) := by
  obtain ⟨u1, u2⟩ := updateScrollEffects_hero M p s
  obtain ⟨b1, b2⟩ := heroBlock_on p (progressBlock p (starfieldBlock p s.styles)) h hhero hlay hrm
  have hs := heroShiftOf_zero_height p h hh
  have hhalf : ∀ x : ℚ, ((1 : ℚ) - 1 / 2) * (if p.mobile then 44 else 28) * x
      = (if p.mobile then 22 else 14) * x := by
    intro x
    cases p.mobile <;> norm_num
  refine ⟨?_, ?_, ?_, ?_, revealOffset_zero_height p el hel, ?_, ?_⟩
  · rw [u1, b1, hs]
  · intro hg
    rw [u2, b2, if_pos hg, hs]
  · intro ht
    have hc := clamp_eq_one_of_top_nonpos p.innerHeight h.rect.top hvh ht
    refine ⟨?_, ?_⟩
    · rw [u1, b1, hs, hc]
      simp only [hhalf]
    · intro hg
      rw [u2, b2, if_pos hg, hs, hc, hhalf]
  · rw [updateScrollEffects_scrollParallax]
    exact revealBlock_on p _ hne hrm
  · exact revealOffset_zero_height_above p el hel hvh
  · exact revealOffset_zero_height_below p el hel hvh

/-- C14 amended, on `zeroHeightPage`: the one hero layer gets `14 * 0.6`, and a reveal
element of height zero at the bottom edge of the viewport gets `(220 * 0.12).toFixed(2)`,
which is 26.40. -/
theorem zero_height_geometry_witness :
    (0 : ℚ) < zeroHeightPage.innerHeight ∧
    zeroHeightPage.prefersReducedMotion = false ∧
    zeroHeightPage.heroSection
      = some { rect := { top := 0, height := 0 }, offsetTop := 0, offsetHeight := 0 } ∧
    zeroHeightPage.heroLayers ≠ [] ∧ zeroHeightPage.parallaxEls ≠ [] ∧
    (updateScrollEffects exampleMath zeroHeightPage
      (ScrollState.init zeroHeightPage)).styles.layerShift
      = zeroHeightPage.heroLayers.map (fun d => some
          ((if zeroHeightPage.mobile then 22 else 14) * parseOr d (6 / 10))) ∧
    revealOffset zeroHeightPage { rect := { top := 800, height := 0 }, parallax := none }
      = toFixed2 (fl ((if zeroHeightPage.mobile then 160 else 220)
          * parseOr none (fl (12 / 100)))) ∧
    toFixed2 (fl (220 * fl (12 / 100))) = 132 / 5 :=
  ⟨by norm_num [zeroHeightPage], rfl, rfl, by simp [zeroHeightPage], by simp [zeroHeightPage],
    ((zero_height_geometry exampleMath zeroHeightPage (ScrollState.init zeroHeightPage)
      { rect := { top := 0, height := 0 }, offsetTop := 0, offsetHeight := 0 }
      { rect := { top := 800, height := 0 }, parallax := none }
      (by norm_num [zeroHeightPage]) rfl rfl rfl (by simp [zeroHeightPage])
      (by simp [zeroHeightPage]) rfl).2.2.1 le_rfl).1,
    (zero_height_geometry exampleMath zeroHeightPage (ScrollState.init zeroHeightPage)
      { rect := { top := 0, height := 0 }, offsetTop := 0, offsetHeight := 0 }
      { rect := { top := 800, height := 0 }, parallax := none }
      (by norm_num [zeroHeightPage]) rfl rfl rfl (by simp [zeroHeightPage])
      (by simp [zeroHeightPage]) rfl).2.2.2.2.2.2 (by norm_num [zeroHeightPage]),
    reveal_value_default_desktop⟩

/-! ## Bound on the cloud opacity -/

theorem lumaOf_mono (r g b r' g' b' : ℕ) (hr : r ≤ r') (hg : g ≤ g') (hb : b ≤ b') :
    lumaOf r g b ≤ lumaOf r' g' b' := by
  have hr' : (r : ℚ) ≤ r' := by exact_mod_cast hr
  have hg' : (g : ℚ) ≤ g' := by exact_mod_cast hg
  have hb' : (b : ℚ) ≤ b' := by exact_mod_cast hb
  have c1 : 0 ≤ fl (3 / 10) := fl_nonneg _ (by norm_num)
  have c2 : 0 ≤ fl (59 / 100) := fl_nonneg _ (by norm_num)
  have c3 : 0 ≤ fl (11 / 100) := fl_nonneg _ (by norm_num)
  unfold lumaOf
  apply fl_mono
  apply add_le_add
  · apply fl_mono
    apply add_le_add
    · exact fl_mono _ _ (mul_le_mul_of_nonneg_right hr' c1)
    · exact fl_mono _ _ (mul_le_mul_of_nonneg_right hg' c2)
  · exact fl_mono _ _ (mul_le_mul_of_nonneg_right hb' c3)

theorem lumaOf_le (r g b : ℕ) (hr : r ≤ 255) (hg : g ≤ 255) (hb : b ≤ 255) :
    lumaOf r g b ≤ 255 := by
  have := lumaOf_mono r g b 255 255 255 hr hg hb
  rwa [lumaOf_255_255_255] at this

theorem cloudAlpha_le (r g b : ℕ) (hr : r ≤ 255) (hg : g ≤ 255) (hb : b ≤ 255) :
    cloudAlpha r g b ≤ 165 := by
  have := cloudAlpha_mono_luma r g b 255 255 255 (lumaOf_mono r g b 255 255 255 hr hg hb)
  rwa [cloudAlpha_255_255_255] at this

theorem cloudAlpha_min_left (r g b : ℕ) (hr : r ≤ 255) (hg : g ≤ 255) (hb : b ≤ 255) :
    cloudAlpha r g b
      = (if lumaOf r g b > 180 then fl (fl (lumaOf r g b - 180) * fl (22 / 10)) else 0) ∧
    (lumaOf r g b > 180 → fl (fl (lumaOf r g b - 180) * fl (22 / 10)) ≤ 165) := by
  have hle := cloudAlpha_le r g b hr hg hb
  unfold cloudAlpha at hle ⊢
  simp only [] at hle ⊢
  by_cases h1 : lumaOf r g b > 180
  · rw [if_pos h1] at hle ⊢
    have hx : fl (fl (lumaOf r g b - 180) * fl (22 / 10)) ≤ 165 := by
      by_contra hc
      rcases le_total (fl (fl (lumaOf r g b - 180) * fl (22 / 10))) 255 with h2 | h2
      · rw [min_eq_left h2] at hle
        exact hc hle
      · rw [min_eq_right h2] at hle
        norm_num at hle
    rw [if_pos h1]
    exact ⟨min_eq_left (by linarith), fun _ => hx⟩
  · rw [if_neg h1, if_neg h1]
    exact ⟨rfl, fun h => absurd h h1⟩

theorem toUint8Clamped_165 : toUint8Clamped 165 = 165 := by
  have := toUint8Clamped_natCast 165 (by norm_num)
  simpa using this

/-- C15 (bound on cloud opacity): for a pixel with 8-bit channels the luma is at most
255, both exactly and as the code computes it in doubles, so `(luma - 180) * 2.2` is at
most 165 and stays below 255: the `min(..., 255)` never takes its second argument, the
alpha computed is at most 165 (and within `2^-30` of the exact `(luma - 180) * 2.2`, or
of 0 for `luma ≤ 180`), and the alpha byte written is at most 165, hence never 255. The
bound is attained at `r = g = b = 255`, whose output alpha is 165. -/
theorem cloud_alpha_bound (data : List ℕ) (k r g b a : ℕ)
    (h : pixelAt data k = some (r, g, b, a)) (hr : r ≤ 255) (hg : g ≤ 255) (hb : b ≤ 255) :
    (3 / 10 : ℚ) * r + (59 / 100) * g + (11 / 100) * b ≤ 255 ∧
    (((3 / 10 : ℚ) * r + (59 / 100) * g + (11 / 100) * b - 180) * (22 / 10) ≤ 165) ∧
    lumaOf r g b ≤ 255 ∧
    (lumaOf r g b > 180 → fl (fl (lumaOf r g b - 180) * fl (22 / 10)) ≤ 165) ∧
    cloudAlpha r g b
      = (if lumaOf r g b > 180 then fl (fl (lumaOf r g b - 180) * fl (22 / 10)) else 0) ∧
    |cloudAlpha r g b
        - (if (3 / 10 : ℚ) * r + (59 / 100) * g + (11 / 100) * b > 180
           then ((3 / 10 : ℚ) * r + (59 / 100) * g + (11 / 100) * b - 180) * (22 / 10) else 0)|
      ≤ 1 / 2 ^ 30 ∧
    cloudAlpha r g b ≤ 165 ∧
    (∃ α : ℕ, pixelAt (createCloudTexture data) k = some (255, 255, 255, α) ∧ α ≤ 165 ∧
      α ≠ 255) ∧
    cloudAlpha 255 255 255 = 165 ∧
    pixelAt (createCloudTexture [255, 255, 255, a]) 0 = some (255, 255, 255, 165) := by
  have hr' : (r : ℚ) ≤ 255 := by exact_mod_cast hr
  have hg' : (g : ℚ) ≤ 255 := by exact_mod_cast hg
  have hb' : (b : ℚ) ≤ 255 := by exact_mod_cast hb
  have hl : (3 / 10 : ℚ) * r + (59 / 100) * g + (11 / 100) * b ≤ 255 := by linarith
  have hx : ((3 / 10 : ℚ) * r + (59 / 100) * g + (11 / 100) * b - 180) * (22 / 10) ≤ 165 := by
    linarith
  obtain ⟨hca, hpre⟩ := cloudAlpha_min_left r g b hr hg hb
  have hle := cloudAlpha_le r g b hr hg hb
  have hnear : |cloudAlpha r g b
        - (if (3 / 10 : ℚ) * r + (59 / 100) * g + (11 / 100) * b > 180
           then ((3 / 10 : ℚ) * r + (59 / 100) * g + (11 / 100) * b - 180) * (22 / 10) else 0)|
      ≤ 1 / 2 ^ 30 := by
    have hn := (cloudAlpha_near r g b hr hg hb).2.2
    by_cases hL : (3 / 10 : ℚ) * r + (59 / 100) * g + (11 / 100) * b ≤ 180
    · rw [if_pos hL] at hn
      rw [if_neg (not_lt.mpr hL)]
      exact hn
    · rw [if_neg hL] at hn
      rw [if_pos (lt_of_not_ge hL)]
      exact hn
  refine ⟨hl, hx, lumaOf_le r g b hr hg hb, hpre, hca, hnear, hle,
    ⟨toUint8Clamped (cloudAlpha r g b), ?_, ?_, ?_⟩, cloudAlpha_255_255_255, ?_⟩
  · rw [pixelAt_createCloudTexture data k r g b a h, toUint8Clamped_255]
  · have := toUint8Clamped_mono _ _ hle
    rwa [toUint8Clamped_165] at this
  · have := toUint8Clamped_mono _ _ hle
    rw [toUint8Clamped_165] at this
    omega
  · rw [pixelAt_createCloudTexture [255, 255, 255, a] 0 255 255 255 a rfl, toUint8Clamped_255,
      cloudByte_255_255_255]

/-- C15, at the one-pixel buffer `[255, 255, 255, 0]`. -/
theorem cloud_alpha_bound_witness :
    pixelAt [255, 255, 255, 0] 0 = some (255, 255, 255, 0) ∧ (255 : ℕ) ≤ 255 ∧
    ∃ α : ℕ, pixelAt (createCloudTexture [255, 255, 255, 0]) 0 = some (255, 255, 255, α) ∧
      α ≤ 165 ∧ α ≠ 255 :=
  ⟨rfl, le_rfl,
    (cloud_alpha_bound [255, 255, 255, 0] 0 255 255 255 0 rfl le_rfl le_rfl
      le_rfl).2.2.2.2.2.2.2.1⟩

end Anfweb
